import Mathlib

/-! # Cycles device layer (`intern/cycles/device/device.cpp`)

A shallow embedding of the device-selection layer of the Cycles renderer:
the kind/token mapping (`Device::type_from_string`, `Device::string_from_type`),
the composite descriptor builder (`Device::get_multi_device`), the capability
registry (`Device::available_types`, `Device::available_devices`,
`Device::tag_update`, `Device::free_memory`), the device factory
(`Device::create`), the presentation code
(`bind_fallback_shader`, `Device::bind_fallback_display_space_shader`,
`Device::draw_pixels`) and the printing of `DeviceRequestedFeatures`
(`operator<<`).

Conventions of the embedding:

* a `const char *` argument is represented by the `String` of the characters
  that precede its terminator;
* `int` values are integers, `size_t` values are naturals, and the places
  where C++ converts between the two are written out with explicit
  reductions modulo `2^64` and `2^32`;
* `assert` failing is the result `none` (a build with assertions);
  `Device.get_multi_device_compiled` also covers the build with `NDEBUG`;
* the static members of `Device` and the data members of a `Device` object are
  passed in and returned;
* what the backends and OpenGL answer during a call is an argument of the
  call, and the calls made are returned as a list, in call order;
* the OpenGL state (`GLState`) is computed from that list;
* a `float` is kept as the expression that computes it, and `float.value`
  evaluates it in binary32 arithmetic, rounding to nearest, ties to even.
-/

namespace ccl

/-! ## Data model -/

/-- The enumeration `DeviceType`; `device.cpp` uses these six enumerators. -/
inductive DeviceType
  | DEVICE_NONE
  | DEVICE_CPU
  | DEVICE_OPENCL
  | DEVICE_CUDA
  | DEVICE_NETWORK
  | DEVICE_MULTI
  deriving DecidableEq, Repr

open DeviceType

/-- The descriptor class `DeviceInfo`, with the members that `device.cpp`
reads or writes. `bvh_layout_mask` is kept as the bit pattern of the mask. -/
structure DeviceInfo where
  type : DeviceType
  description : String
  id : String
  num : Int
  has_half_images : Bool
  has_volume_decoupled : Bool
  bvh_layout_mask : Nat
  has_osl : Bool
  cpu_threads : Int
  multi_devices : List DeviceInfo

/-- Modelled from the spec: the default constructor of `DeviceInfo`, declared in
`device/device.h`, which is not among the sources. A fresh descriptor is a CPU
descriptor with no thread override, no capability and no children. Every
member that matters to `get_multi_device` except `cpu_threads` and
`multi_devices` is overwritten there. -/
def DeviceInfo.ctor : DeviceInfo where
  type := DEVICE_CPU
  description := ""
  id := "CPU"
  num := 0
  has_half_images := false
  has_volume_decoupled := false
  bvh_layout_mask := 0
  has_osl := false
  cpu_threads := 0
  multi_devices := []

/-! ## C library and language-level helpers -/

/-- Comparison of two character sequences as `strcmp` does it: the sign of the
first difference, a shorter string being smaller; `0` when there is none. -/
def strcmpChars : List Char → List Char → Int
  | [], [] => 0
  | [], _ :: _ => -1
  | _ :: _, [] => 1
  | a :: as, b :: bs =>
    if a = b then strcmpChars as bs else if a.toNat < b.toNat then -1 else 1

/-- The C function `strcmp`. -/
def strcmp (a b : String) : Int := strcmpChars a.data b.data

/-- Conversion of an `int` to `size_t` (reduction modulo `2^64`). -/
def size_t_of_int (i : Int) : Nat := (i % 18446744073709551616).toNat

/-- Subtraction of two `size_t` values (modulo `2^64`). -/
def size_t_sub (a b : Nat) : Nat :=
  (a % 18446744073709551616 + 18446744073709551616 - b % 18446744073709551616)
    % 18446744073709551616

/-- Conversion of a `size_t` to `int`: the low 32 bits, read as two's complement. -/
def int_of_size_t (u : Nat) : Int :=
  if u % 4294967296 < 2147483648 then ((u % 4294967296 : Nat) : Int)
  else ((u % 4294967296 : Nat) : Int) - 4294967296

/-- Multiplication of two `int` values as the compiled code does it: the low 32
bits of the product, read as two's complement. (A product outside the range of
`int` is undefined in C++; the machine instruction wraps.) -/
def int_mul (a b : Int) : Int := int_of_size_t (size_t_of_int (a * b))

/-- Modelled from the spec: `max` of `util/util_math.h`, which is not among the
sources; the maximum of two `int`s. -/
def max (a b : Int) : Int := if a > b then a else b

/-! ## Kind/token mapping -/

namespace Device

/-- The function `Device::type_from_string`. -/
def type_from_string (name : String) : DeviceType :=
  if strcmp name "CPU" = 0 then DEVICE_CPU
  else if strcmp name "CUDA" = 0 then DEVICE_CUDA
  else if strcmp name "OPENCL" = 0 then DEVICE_OPENCL
  else if strcmp name "NETWORK" = 0 then DEVICE_NETWORK
  else if strcmp name "MULTI" = 0 then DEVICE_MULTI
  else DEVICE_NONE

/-- The function `Device::string_from_type`. -/
def string_from_type (type : DeviceType) : String :=
  if type = DEVICE_CPU then "CPU"
  else if type = DEVICE_CUDA then "CUDA"
  else if type = DEVICE_OPENCL then "OPENCL"
  else if type = DEVICE_NETWORK then "NETWORK"
  else if type = DEVICE_MULTI then "MULTI"
  else ""

/-! ## Composite descriptor builder -/

/-- The four statements under "Accumulate device info" at the end of the loop
body of `Device::get_multi_device`. -/
def accumulate (info device : DeviceInfo) : DeviceInfo :=
  { info with
    has_half_images := info.has_half_images && device.has_half_images
    has_volume_decoupled := info.has_volume_decoupled && device.has_volume_decoupled
    bvh_layout_mask := device.bvh_layout_mask &&& info.bvh_layout_mask
    has_osl := info.has_osl && device.has_osl }

/-- The statement `info.multi_devices.push_back(d)`. -/
def push_back (info d : DeviceInfo) : DeviceInfo :=
  { info with multi_devices := info.multi_devices ++ [d] }

/-- The value of the local `cpu_threads` in the background branch:
`max(orig_cpu_threads - (subdevices.size() - 1), 0)`, where the subtraction is
done in `size_t` and its result is converted to `int` for `max`. -/
def cpu_threads_of (system_cpu_thread_count : Int) (size : Nat) (threads : Int) : Int :=
  let orig_cpu_threads := if threads ≠ 0 then threads else system_cpu_thread_count
  max (int_of_size_t (size_t_sub (size_t_of_int orig_cpu_threads) (size_t_sub size 1))) 0

/-- One iteration of the `foreach` loop of `Device::get_multi_device` on the
element `device`; `size` is `subdevices.size()`. A `continue` leaves `info`
as it is. -/
def loop_body (system_cpu_thread_count : Int) (size : Nat) (threads : Int)
    (background : Bool) (info device : DeviceInfo) : DeviceInfo :=
  if device.type = DEVICE_CPU ∧ size > 1 then
    if background then
      let cpu_threads := cpu_threads_of system_cpu_thread_count size threads
      if cpu_threads ≥ 1 then
        let cpu_device := { device with cpu_threads := cpu_threads }
        accumulate (push_back info cpu_device) device
      else
        info
    else
      info
  else
    accumulate (push_back info device) device

/-- The descriptor `info` as it is before the loop. -/
def initial_info (BVH_LAYOUT_ALL : Nat) : DeviceInfo :=
  { DeviceInfo.ctor with
    type := DEVICE_MULTI
    id := "MULTI"
    description := "Multi Device"
    num := 0
    has_half_images := true
    has_volume_decoupled := true
    bvh_layout_mask := BVH_LAYOUT_ALL
    has_osl := true }

/-- The function `Device::get_multi_device`, as compiled with assertions (the
macro `NDEBUG` not defined). The constant `BVH_LAYOUT_ALL` and the value
returned by `system_cpu_thread_count()` are parameters. -/
def get_multi_device (BVH_LAYOUT_ALL : Nat) (system_cpu_thread_count : Int)
    (subdevices : List DeviceInfo) (threads : Int) (background : Bool) :
    Option DeviceInfo :=
  if subdevices.length > 1 then
    some (subdevices.foldl
      (loop_body system_cpu_thread_count subdevices.length threads background)
      (initial_info BVH_LAYOUT_ALL))
  else
    none

/-- The function `Device::get_multi_device` in either build: with `NDEBUG`
defined, `assert` expands to nothing and the loop runs on every list; without
it the function is `get_multi_device`. -/
def get_multi_device_compiled (NDEBUG : Bool) (BVH_LAYOUT_ALL : Nat)
    (system_cpu_thread_count : Int) (subdevices : List DeviceInfo) (threads : Int)
    (background : Bool) : Option DeviceInfo :=
  if NDEBUG then
    some (subdevices.foldl
      (loop_body system_cpu_thread_count subdevices.length threads background)
      (initial_info BVH_LAYOUT_ALL))
  else
    get_multi_device BVH_LAYOUT_ALL system_cpu_thread_count subdevices threads background

/-- The descriptor that one loop iteration appends to `info.multi_devices` for
the element `device`: nothing on the two `continue` paths, the copy
`cpu_device` on the background CPU path, `device` itself otherwise. -/
def pushed (system_cpu_thread_count : Int) (size : Nat) (threads : Int)
    (background : Bool) (device : DeviceInfo) : Option DeviceInfo :=
  if device.type = DEVICE_CPU ∧ size > 1 then
    if background then
      if cpu_threads_of system_cpu_thread_count size threads ≥ 1 then
        some { device with
          cpu_threads := cpu_threads_of system_cpu_thread_count size threads }
      else
        none
    else
      none
  else
    some device

end Device

/-! ## Descriptors used in the examples -/

/-- A CPU descriptor with no thread override. -/
def cpu_info : DeviceInfo :=
  { DeviceInfo.ctor with
    description := "host CPU"
    has_half_images := true
    has_volume_decoupled := true
    bvh_layout_mask := 3
    has_osl := true }

/-- A CUDA descriptor that supports half-float images. -/
def gpu_a : DeviceInfo :=
  { DeviceInfo.ctor with
    type := DEVICE_CUDA
    description := "GPU A"
    id := "CUDA_0"
    has_half_images := true
    bvh_layout_mask := 1 }

/-- An OpenCL descriptor that does not support half-float images. -/
def gpu_b : DeviceInfo :=
  { DeviceInfo.ctor with
    type := DEVICE_OPENCL
    description := "GPU B"
    id := "OPENCL_0"
    num := 1
    has_half_images := false
    bvh_layout_mask := 1 }

/-- A second CUDA descriptor. -/
def gpu_c : DeviceInfo :=
  { DeviceInfo.ctor with
    type := DEVICE_CUDA
    description := "GPU C"
    id := "CUDA_1"
    num := 2
    has_half_images := true
    bvh_layout_mask := 1 }

/-- How the claim about the child list reads: `ChildList subs cs` says that `cs`
is `subs`, in order, where each descriptor that is not of kind CPU is kept as
it is and each CPU descriptor is either removed or replaced by a copy in which
only `cpu_threads` may differ. -/
inductive ChildList : List DeviceInfo → List DeviceInfo → Prop
  | nil : ChildList [] []
  | keep (d : DeviceInfo) (ds cs : List DeviceInfo) :
      d.type ≠ DEVICE_CPU → ChildList ds cs → ChildList (d :: ds) (d :: cs)
  | remove (d : DeviceInfo) (ds cs : List DeviceInfo) :
      d.type = DEVICE_CPU → ChildList ds cs → ChildList (d :: ds) cs
  | replace (d : DeviceInfo) (t : Int) (ds cs : List DeviceInfo) :
      d.type = DEVICE_CPU → ChildList ds cs →
      ChildList (d :: ds) ({ d with cpu_threads := t } :: cs)

/-! ## Capability registry and device factory -/

/-- The build options that `device.cpp` tests with `#ifdef`. -/
structure BuildOptions where
  WITH_CUDA : Bool
  WITH_OPENCL : Bool
  WITH_NETWORK : Bool
  WITH_MULTI : Bool

/-- The statistics object `Stats`, which `Device::create` only passes on. -/
structure Stats where
  id : Nat

/-- The backend functions of `device/device_intern.h` that `device.cpp` calls,
as they answer at the time of one call: the result of each initialization
probe, what each `device_*_info` makes of the list it is given, and the
pointer each constructor returns (`none` is `NULL`). -/
structure Backends where
  device_cuda_init : Bool
  device_opencl_init : Bool
  device_opencl_info : List DeviceInfo → List DeviceInfo
  device_cuda_info : List DeviceInfo → List DeviceInfo
  device_cpu_info : List DeviceInfo → List DeviceInfo
  device_network_info : List DeviceInfo → List DeviceInfo
  device_cpu_create : DeviceInfo → Stats → Bool → Option Nat
  device_cuda_create : DeviceInfo → Stats → Bool → Option Nat
  device_multi_create : DeviceInfo → Stats → Bool → Option Nat
  device_network_create : DeviceInfo → Stats → String → Option Nat
  device_opencl_create : DeviceInfo → Stats → Bool → Option Nat

/-- The calls of backend functions, as they are recorded in call order. -/
inductive BackendCall
  | device_cuda_init
  | device_opencl_init
  | device_opencl_info
  | device_cuda_info
  | device_cpu_info
  | device_network_info
  | device_cpu_create
  | device_cuda_create
  | device_multi_create
  | device_network_create
  | device_opencl_create
  deriving DecidableEq, Repr

/-- The static members of `Device` that cache the available kinds and
descriptors. -/
structure Registry where
  need_types_update : Bool
  need_devices_update : Bool
  types : List DeviceType
  devices : List DeviceInfo

/-- The static members as they are initialized at the top of `device.cpp`. -/
def Registry.initial : Registry where
  need_types_update := true
  need_devices_update := true
  types := []
  devices := []

/-- What a call on the registry gives: the returned value, the static members
after the call and the backend functions called, in call order. -/
structure Called (α : Type) where
  value : α
  registry : Registry
  calls : List BackendCall

namespace Device

/-- The function `Device::create`. The result is the returned pointer and the
backend functions called. -/
def create (opt : BuildOptions) (env : Backends) (info : DeviceInfo) (stats : Stats)
    (background : Bool) : Option Nat × List BackendCall :=
  match info.type with
  | DEVICE_CPU =>
    (env.device_cpu_create info stats background, [BackendCall.device_cpu_create])
  | DEVICE_CUDA =>
    if opt.WITH_CUDA then
      if env.device_cuda_init then
        (env.device_cuda_create info stats background,
          [BackendCall.device_cuda_init, BackendCall.device_cuda_create])
      else
        (none, [BackendCall.device_cuda_init])
    else
      (none, [])
  | DEVICE_MULTI =>
    if opt.WITH_MULTI then
      (env.device_multi_create info stats background, [BackendCall.device_multi_create])
    else
      (none, [])
  | DEVICE_NETWORK =>
    if opt.WITH_NETWORK then
      (env.device_network_create info stats "127.0.0.1",
        [BackendCall.device_network_create])
    else
      (none, [])
  | DEVICE_OPENCL =>
    if opt.WITH_OPENCL then
      if env.device_opencl_init then
        (env.device_opencl_create info stats background,
          [BackendCall.device_opencl_init, BackendCall.device_opencl_create])
      else
        (none, [BackendCall.device_opencl_init])
    else
      (none, [])
  | DEVICE_NONE => (none, [])

/-- The function `Device::available_types`. -/
def available_types (opt : BuildOptions) (env : Backends) (r : Registry) :
    Called (List DeviceType) :=
  if r.need_types_update then
    let types0 : List DeviceType := []
    let types1 := types0 ++ [DEVICE_CPU]
    let types2 :=
      if opt.WITH_CUDA ∧ env.device_cuda_init then types1 ++ [DEVICE_CUDA] else types1
    let types3 :=
      if opt.WITH_OPENCL ∧ env.device_opencl_init then types2 ++ [DEVICE_OPENCL] else types2
    let types4 := if opt.WITH_NETWORK then types3 ++ [DEVICE_NETWORK] else types3
    { value := types4
      registry := { r with types := types4, need_types_update := false }
      calls :=
        (if opt.WITH_CUDA then [BackendCall.device_cuda_init] else []) ++
        (if opt.WITH_OPENCL then [BackendCall.device_opencl_init] else []) }
  else
    { value := r.types, registry := r, calls := [] }

/-- The function `Device::available_devices`. -/
def available_devices (opt : BuildOptions) (env : Backends) (r : Registry) :
    Called (List DeviceInfo) :=
  if r.need_devices_update then
    let devices0 : List DeviceInfo := []
    let devices1 :=
      if opt.WITH_OPENCL ∧ env.device_opencl_init then env.device_opencl_info devices0
      else devices0
    let devices2 :=
      if opt.WITH_CUDA ∧ env.device_cuda_init then env.device_cuda_info devices1
      else devices1
    let devices3 := env.device_cpu_info devices2
    let devices4 := if opt.WITH_NETWORK then env.device_network_info devices3 else devices3
    { value := devices4
      registry := { r with devices := devices4, need_devices_update := false }
      calls :=
        (if opt.WITH_OPENCL then
          [BackendCall.device_opencl_init] ++
            (if env.device_opencl_init then [BackendCall.device_opencl_info] else [])
         else []) ++
        (if opt.WITH_CUDA then
          [BackendCall.device_cuda_init] ++
            (if env.device_cuda_init then [BackendCall.device_cuda_info] else [])
         else []) ++
        [BackendCall.device_cpu_info] ++
        (if opt.WITH_NETWORK then [BackendCall.device_network_info] else []) }
  else
    { value := r.devices, registry := r, calls := [] }

/-- The function `Device::tag_update`. -/
def tag_update (r : Registry) : Registry :=
  { r with need_types_update := true, need_devices_update := true }

/-- The function `Device::free_memory`; `vector::free_memory()` leaves the
vector empty. -/
def free_memory (r : Registry) : Registry :=
  { r with
    need_types_update := true
    need_devices_update := true
    types := []
    devices := [] }

end Device

/-- Every entry of kind `p` stands before every entry of kind `q` in `l`. -/
def AllBefore (p q : DeviceType) (l : List DeviceInfo) : Prop :=
  ∀ (i j : Nat) (a b : DeviceInfo),
    l[i]? = some a → l[j]? = some b → a.type = p → b.type = q → i < j

/-- A network descriptor, used in the examples. -/
def network_info : DeviceInfo :=
  { DeviceInfo.ctor with
    type := DEVICE_NETWORK
    description := "Network Device"
    id := "NETWORK" }

/-- Backends used in the examples: both GPU probes succeed, each
`device_*_info` appends one descriptor of its kind, and each constructor
returns an object. -/
def example_backends : Backends where
  device_cuda_init := true
  device_opencl_init := true
  device_opencl_info := fun l => l ++ [gpu_b]
  device_cuda_info := fun l => l ++ [gpu_a]
  device_cpu_info := fun l => l ++ [cpu_info]
  device_network_info := fun l => l ++ [network_info]
  device_cpu_create := fun _ _ _ => some 1
  device_cuda_create := fun _ _ _ => some 2
  device_multi_create := fun _ _ _ => some 3
  device_network_create := fun _ _ _ => some 4
  device_opencl_create := fun _ _ _ => some 5

/-- Backends used in the examples: as `example_backends`, with both GPU probes
failing. -/
def failing_backends : Backends :=
  { example_backends with device_cuda_init := false, device_opencl_init := false }

/-- Build options with every backend compiled in. -/
def all_options : BuildOptions where
  WITH_CUDA := true
  WITH_OPENCL := true
  WITH_NETWORK := true
  WITH_MULTI := true

/-! ## Presentation fallback pipeline -/

/-- The OpenGL enumerators that `device.cpp` names. -/
inductive GLenum
  | GL_VERTEX_SHADER
  | GL_FRAGMENT_SHADER
  | GL_COMPILE_STATUS
  | GL_LINK_STATUS
  | GL_TEXTURE_2D
  | GL_RGBA16F_ARB
  | GL_RGBA
  | GL_HALF_FLOAT
  | GL_RGBA8
  | GL_UNSIGNED_BYTE
  | GL_TEXTURE_MIN_FILTER
  | GL_TEXTURE_MAG_FILTER
  | GL_NEAREST
  | GL_BLEND
  | GL_ONE
  | GL_ONE_MINUS_SRC_ALPHA
  | GL_CURRENT_PROGRAM
  | GL_ARRAY_BUFFER
  | GL_STREAM_DRAW
  | GL_WRITE_ONLY
  | GL_FLOAT
  | GL_FALSE
  | GL_TRIANGLE_FAN
  deriving DecidableEq, Repr

/-- A value of type `float`, kept as the expression that computes it: the
literals `0.0f` and `1.0f`, the conversion of an `int`, and a sum. The number
it has in binary32 arithmetic is `float.value`. -/
inductive float
  | zero
  | one
  | ofInt (i : Int)
  | add (a b : float)
  deriving DecidableEq, Repr

/-- The OpenGL calls of `device.cpp`, with the arguments that are not fixed
null pointers or output pointers. Object names are naturals, `int` arguments
are integers. -/
inductive GLCall
  | glCreateProgram
  | glCreateShader (type : GLenum)
  | glShaderSource (shader : Nat) (count : Int) (source : String)
  | glCompileShader (shader : Nat)
  | glGetShaderiv (shader : Nat) (pname : GLenum)
  | glGetShaderInfoLog (object : Nat)
  | glAttachShader (program shader : Nat)
  | glBindFragDataLocation (program color : Nat) (name : String)
  | glLinkProgram (program : Nat)
  | glGetProgramiv (program : Nat) (pname : GLenum)
  | glUseProgram (program : Int)
  | glGetUniformLocation (program : Int) (name : String)
  | glUniform1i (location v0 : Int)
  | glUniform2f (location : Int) (v0 v1 : float)
  | glGenTextures (n : Int)
  | glBindTexture (target : GLenum) (texture : Nat)
  | glTexImage2D (target : GLenum) (level : Int) (internalformat : GLenum)
      (width height border : Int) (format type : GLenum) (data_offset : Int)
  | glTexParameteri (target pname param : GLenum)
  | glEnable (cap : GLenum)
  | glDisable (cap : GLenum)
  | glBlendFunc (sfactor dfactor : GLenum)
  | glGetIntegerv (pname : GLenum)
  | glGenBuffers (n : Int)
  | glBindBuffer (target : GLenum) (buffer : Nat)
  | glBufferData (target : GLenum) (size : Nat) (usage : GLenum)
  | glMapBuffer (target access : GLenum)
  | glUnmapBuffer (target : GLenum)
  | glGenVertexArrays (n : Int)
  | glBindVertexArray (array : Nat)
  | glGetAttribLocation (program : Int) (name : String)
  | glEnableVertexAttribArray (index : Nat)
  | glVertexAttribPointer (index : Nat) (size : Int) (type normalized : GLenum)
      (stride pointer : Nat)
  | glDrawArrays (mode : GLenum) (first count : Int)
  | glDeleteTextures (n : Int) (texture : Nat)
  deriving DecidableEq, Repr

/-- What a call of the presentation code does, in order: OpenGL calls, entries
into `bind_fallback_shader` and `Device::bind_fallback_display_space_shader`,
error logging, `mem_copy_from`, calls of the two host callbacks, and the
stores into the mapped vertex buffer. -/
inductive Event
  | gl (call : GLCall)
  | bind_fallback_shader
  | bind_fallback_display_space_shader
  | shader_print_errors (task : String)
  | LOG_ERROR (message : String)
  | mem_copy_from (y w h : Int) (elem : Nat)
  | bind_display_space_shader_cb
  | unbind_display_space_shader_cb
  | vpointer_stores (values : List float)
  deriving DecidableEq, Repr

/-- What OpenGL answers during one call of the presentation code: the names it
generates, the compile status of the shader of each type, the link status, the
uniform and attribute locations, the current program, and whether
`glMapBuffer` returns a non-null pointer. -/
structure GLEnv where
  glCreateProgram : Nat
  glCreateShader : GLenum → Nat
  compile_status : GLenum → Int
  link_status : Int
  glGetUniformLocation : Int → String → Int
  glGenTextures : Nat
  current_program : Int
  glGenBuffers : Nat
  glMapBuffer : Bool
  glGenVertexArrays : Nat
  glGetAttribLocation : Int → String → Int

/-- Conversion of a `GLuint` to `int`: the low 32 bits, read as two's
complement. -/
def int_of_GLuint (u : Nat) : Int := int_of_size_t u

/-- Conversion of an `int` to `GLuint` (reduction modulo `2^32`). -/
def GLuint_of_int (i : Int) : Nat := (i % 4294967296).toNat

/-- The string `FALLBACK_VERTEX_SHADER`, up to its terminator. -/
def FALLBACK_VERTEX_SHADER : String :=
  "#version 330\n" ++
  "uniform vec2 fullscreen;\n" ++
  "in vec2 texCoord;\n" ++
  "in vec2 pos;\n" ++
  "out vec2 texCoord_interp;\n" ++
  "\n" ++
  "vec2 normalize_coordinates()\n" ++
  "\x7b\n" ++
  "\treturn (vec2(2.0) * (pos / fullscreen)) - vec2(1.0);\n" ++
  "\x7d\n" ++
  "\n" ++
  "void main()\n" ++
  "\x7b\n" ++
  "\tgl_Position = vec4(normalize_coordinates(), 0.0, 1.0);\n" ++
  "\ttexCoord_interp = texCoord;\n" ++
  "\x7d\n"

/-- The string `FALLBACK_FRAGMENT_SHADER`, up to its terminator. -/
def FALLBACK_FRAGMENT_SHADER : String :=
  "#version 330\n" ++
  "uniform sampler2D image_texture;\n" ++
  "in vec2 texCoord_interp;\n" ++
  "out vec4 fragColor;\n" ++
  "\n" ++
  "void main()\n" ++
  "\x7b\n" ++
  "\tfragColor = texture(image_texture, texCoord_interp);\n" ++
  "\x7d\n"

/-- The `for` loop of `bind_fallback_shader` over the remaining entries of the
array `shaders`: `false` when a shader does not compile (the `return 0` inside
the loop), together with the events of the loop. -/
def compile_shaders (env : GLEnv) (program : Nat) :
    List (String × GLenum) → Bool × List Event
  | [] => (true, [])
  | (source, type) :: rest =>
    let shader := env.glCreateShader type
    let head : List Event :=
      [.gl (.glCreateShader type), .gl (.glShaderSource shader 1 source),
        .gl (.glCompileShader shader),
        .gl (.glGetShaderiv shader GLenum.GL_COMPILE_STATUS)]
    if env.compile_status type = 0 then
      (false, head ++ [.gl (.glGetShaderInfoLog shader), .shader_print_errors "compile"])
    else
      ((compile_shaders env program rest).1,
        head ++ [.gl (.glAttachShader program shader)] ++
          (compile_shaders env program rest).2)

/-- The static function `bind_fallback_shader`: the returned `int` and the
events of the call. -/
def bind_fallback_shader (env : GLEnv) : Int × List Event :=
  let program := env.glCreateProgram
  let loop := compile_shaders env program
    [(FALLBACK_VERTEX_SHADER, GLenum.GL_VERTEX_SHADER),
      (FALLBACK_FRAGMENT_SHADER, GLenum.GL_FRAGMENT_SHADER)]
  let start : List Event := [Event.bind_fallback_shader, .gl .glCreateProgram] ++ loop.2
  if loop.1 = false then
    (0, start)
  else
    let link : List Event :=
      [.gl (.glBindFragDataLocation program 0 "fragColor"), .gl (.glLinkProgram program),
        .gl (.glGetProgramiv program GLenum.GL_LINK_STATUS)]
    if env.link_status = 0 then
      (0, start ++ link ++
        [.gl (.glGetShaderInfoLog program), .shader_print_errors "linking",
          .shader_print_errors "linking"])
    else
      (int_of_GLuint program, start ++ link)

/-- The enumerators of the fallback shader status. -/
inductive FallbackStatus
  | FALLBACK_SHADER_STATUS_NONE
  | FALLBACK_SHADER_STATUS_ERROR
  | FALLBACK_SHADER_STATUS_SUCCESS
  deriving DecidableEq, Repr

open FallbackStatus

/-- The data members of a `Device` object that `device.cpp` reads or writes. -/
structure Device where
  background : Bool
  vertex_buffer : Nat
  fallback_status : FallbackStatus
  fallback_shader_program : Int
  image_texture_location : Int
  fullscreen_location : Int
  deriving DecidableEq, Repr

namespace Device

/-- The block of `Device::bind_fallback_display_space_shader` under
`if(fallback_status == FALLBACK_SHADER_STATUS_NONE)`: `false` when the block
ends in one of its three `return false`, the object after the block, and the
events of the block. -/
def build_fallback (env : GLEnv) (self : Device) : Bool × Device × List Event :=
  let built := bind_fallback_shader env
  let s₁ : Device :=
    { self with
      fallback_shader_program := built.1
      fallback_status := FALLBACK_SHADER_STATUS_ERROR }
  if s₁.fallback_shader_program = 0 then
    (false, s₁, built.2)
  else
    let s₂ : Device :=
      { s₁ with
        image_texture_location :=
          env.glGetUniformLocation s₁.fallback_shader_program "image_texture" }
    let t₂ : List Event :=
      built.2 ++
        [.gl (.glUseProgram s₁.fallback_shader_program),
          .gl (.glGetUniformLocation s₁.fallback_shader_program "image_texture")]
    if s₂.image_texture_location < 0 then
      (false, s₂,
        t₂ ++ [.LOG_ERROR "Shader doesn't containt the 'image_texture' uniform."])
    else
      let s₃ : Device :=
        { s₂ with
          fullscreen_location :=
            env.glGetUniformLocation s₂.fallback_shader_program "fullscreen" }
      let t₃ : List Event :=
        t₂ ++ [.gl (.glGetUniformLocation s₂.fallback_shader_program "fullscreen")]
      if s₃.fullscreen_location < 0 then
        (false, s₃, t₃ ++ [.LOG_ERROR "Shader doesn't containt the 'fullscreen' uniform."])
      else
        (true, { s₃ with fallback_status := FALLBACK_SHADER_STATUS_SUCCESS }, t₃)

/-- The function `Device::bind_fallback_display_space_shader`: the returned
`bool`, the object after the call and the events of the call. -/
def bind_fallback_display_space_shader (env : GLEnv) (self : Device)
    (width height : float) : Bool × Device × List Event :=
  if self.fallback_status = FALLBACK_SHADER_STATUS_ERROR then
    (false, self, [Event.bind_fallback_display_space_shader])
  else
    let block : Bool × Device × List Event :=
      if self.fallback_status = FALLBACK_SHADER_STATUS_NONE then build_fallback env self
      else (true, self, [])
    if block.1 = false then
      (false, block.2.1, [Event.bind_fallback_display_space_shader] ++ block.2.2)
    else
      (true, block.2.1,
        [Event.bind_fallback_display_space_shader] ++ block.2.2 ++
          [.gl (.glUseProgram block.2.1.fallback_shader_program),
            .gl (.glUniform1i block.2.1.image_texture_location 0),
            .gl (.glUniform2f block.2.1.fullscreen_location width height)])

/-- A sequence of calls of `bind_fallback_display_space_shader` on one object,
each with what OpenGL answers at that call and its two arguments: the
returned values, the object after the last call, and all events. -/
def bind_fallback_calls (self : Device) :
    List (GLEnv × float × float) → List Bool × Device × List Event
  | [] => ([], self, [])
  | (env, width, height) :: rest =>
    let first := bind_fallback_display_space_shader env self width height
    let others := bind_fallback_calls first.2.1 rest
    (first.1 :: others.1, others.2.1, first.2.2 ++ others.2.2)

end Device

/-! ## Drawing the pixel buffer -/

/-- The memory type of a `device_memory`: `MEM_PIXELS`, or any other
enumerator. -/
inductive MemoryType
  | MEM_PIXELS
  | MEM_OTHER
  deriving DecidableEq, Repr

/-- The element type of a `device_memory`: `TYPE_HALF`, or any other
enumerator. -/
inductive DataType
  | TYPE_HALF
  | TYPE_OTHER
  deriving DecidableEq, Repr

/-- The members of `device_memory` that `Device::draw_pixels` reads;
`memory_elements_size_1` is the value of `memory_elements_size(1)`. -/
structure device_memory where
  type : MemoryType
  data_type : DataType
  memory_elements_size_1 : Nat
  deriving DecidableEq, Repr

/-- The class `DeviceDrawParams`: the two host callbacks, `none` for a null
callback. -/
structure DeviceDrawParams where
  bind_display_space_shader_cb : Option Nat
  unbind_display_space_shader_cb : Option Nat
  deriving DecidableEq, Repr

namespace Device

/-- Lines 242 to 260 of `Device::draw_pixels`: the copy from the device and the
upload of the texture `texid`. The data pointer is given by its offset
`4 * y * w`, in elements, from `rgba.host_pointer`; the offset is computed in
`int`. -/
def upload_events (texid : Nat) (rgba : device_memory) (y w h : Int) : List Event :=
  [.mem_copy_from y w h rgba.memory_elements_size_1,
    .gl (.glGenTextures 1),
    .gl (.glBindTexture GLenum.GL_TEXTURE_2D texid),
    (if rgba.data_type = DataType.TYPE_HALF then
      .gl (.glTexImage2D GLenum.GL_TEXTURE_2D 0 GLenum.GL_RGBA16F_ARB w h 0
        GLenum.GL_RGBA GLenum.GL_HALF_FLOAT (int_mul (int_mul 4 y) w))
    else
      .gl (.glTexImage2D GLenum.GL_TEXTURE_2D 0 GLenum.GL_RGBA8 w h 0
        GLenum.GL_RGBA GLenum.GL_UNSIGNED_BYTE (int_mul (int_mul 4 y) w))),
    .gl (.glTexParameteri GLenum.GL_TEXTURE_2D GLenum.GL_TEXTURE_MIN_FILTER
      GLenum.GL_NEAREST),
    .gl (.glTexParameteri GLenum.GL_TEXTURE_2D GLenum.GL_TEXTURE_MAG_FILTER
      GLenum.GL_NEAREST)]

/-- Lines 262 to 265: blending is switched on for a transparent draw. -/
def blend_events (transparent : Bool) : List Event :=
  if transparent then
    [.gl (.glEnable GLenum.GL_BLEND),
      .gl (.glBlendFunc GLenum.GL_ONE GLenum.GL_ONE_MINUS_SRC_ALPHA)]
  else
    []

/-- The sixteen values stored through `vpointer`, lines 291 to 309. -/
def vertex_values (width height dx dy : Int) : List float :=
  [float.zero, float.zero, float.ofInt dx, float.ofInt dy,
    float.one, float.zero, float.add (float.ofInt width) (float.ofInt dx), float.ofInt dy,
    float.one, float.one, float.add (float.ofInt width) (float.ofInt dx),
      float.add (float.ofInt height) (float.ofInt dy),
    float.zero, float.one, float.ofInt dx, float.add (float.ofInt height) (float.ofInt dy)]

/-- Lines 279 to 314: the vertex buffer `vertex_buffer` (after a possible
`glGenBuffers`) is bound, invalidated, mapped and filled. -/
def buffer_events (env : GLEnv) (self : Device) (vertex_buffer : Nat)
    (width height dx dy : Int) : List Event :=
  (if self.vertex_buffer = 0 then [Event.gl (.glGenBuffers 1)] else []) ++
  [.gl (.glBindBuffer GLenum.GL_ARRAY_BUFFER vertex_buffer),
    .gl (.glBufferData GLenum.GL_ARRAY_BUFFER 64 GLenum.GL_STREAM_DRAW),
    .gl (.glMapBuffer GLenum.GL_ARRAY_BUFFER GLenum.GL_WRITE_ONLY)] ++
  (if env.glMapBuffer then
    [Event.vpointer_stores (vertex_values width height dx dy)] ++
      (if vertex_buffer ≠ 0 then [Event.gl (.glUnmapBuffer GLenum.GL_ARRAY_BUFFER)]
       else [])
   else [])

/-- Lines 316 to 329: the vertex array object and the two attributes of the
program `shader_program`. -/
def attribute_events (env : GLEnv) (shader_program : Int) : List Event :=
  [.gl (.glGenVertexArrays 1),
    .gl (.glBindVertexArray env.glGenVertexArrays),
    .gl (.glGetAttribLocation shader_program "texCoord"),
    .gl (.glGetAttribLocation shader_program "pos"),
    .gl (.glEnableVertexAttribArray
      (GLuint_of_int (env.glGetAttribLocation shader_program "texCoord"))),
    .gl (.glEnableVertexAttribArray
      (GLuint_of_int (env.glGetAttribLocation shader_program "pos"))),
    .gl (.glVertexAttribPointer
      (GLuint_of_int (env.glGetAttribLocation shader_program "texCoord"))
      2 GLenum.GL_FLOAT GLenum.GL_FALSE 16 0),
    .gl (.glVertexAttribPointer
      (GLuint_of_int (env.glGetAttribLocation shader_program "pos"))
      2 GLenum.GL_FLOAT GLenum.GL_FALSE 16 8)]

/-- Lines 344 to 349: the texture is unbound and deleted, and blending is
switched off after a transparent draw. -/
def finish_events (texid : Nat) (transparent : Bool) : List Event :=
  [.gl (.glBindTexture GLenum.GL_TEXTURE_2D 0), .gl (.glDeleteTextures 1 texid)] ++
  (if transparent then [Event.gl (.glDisable GLenum.GL_BLEND)] else [])

/-- Lines 279 to 349 of `Device::draw_pixels`, from the vertex buffer to the
end, with the program `shader_program`; `before` holds the events so far.
Calling a null `unbind_display_space_shader_cb` does not return. -/
def draw_quad (env : GLEnv) (self : Device) (shader_program : Int)
    (use_fallback_shader : Bool) (width height dx dy : Int) (transparent : Bool)
    (draw_params : DeviceDrawParams) (before : List Event) :
    Option (Device × List Event) :=
  let vertex_buffer := if self.vertex_buffer = 0 then env.glGenBuffers else self.vertex_buffer
  let drawn : List Event :=
    before ++ buffer_events env self vertex_buffer width height dx dy ++
      attribute_events env shader_program ++
      [.gl (.glDrawArrays GLenum.GL_TRIANGLE_FAN 0 4)] ++
      (if vertex_buffer ≠ 0 then [Event.gl (.glBindBuffer GLenum.GL_ARRAY_BUFFER 0)]
       else [])
  let after := finish_events env.glGenTextures transparent
  if use_fallback_shader then
    some ({ self with vertex_buffer := vertex_buffer },
      drawn ++ [.gl (.glUseProgram 0)] ++ after)
  else
    match draw_params.unbind_display_space_shader_cb with
    | none => none
    | some _ =>
      some ({ self with vertex_buffer := vertex_buffer },
        drawn ++ [Event.unbind_display_space_shader_cb] ++ after)

/-- The function `Device::draw_pixels`: the object after the call and the
events of the call, or `none` when the call does not return (the assertion on
`rgba.type` fails, or a null callback is called). -/
def draw_pixels (env : GLEnv) (self : Device) (rgba : device_memory)
    (y w h width height dx dy dw dh : Int) (transparent : Bool)
    (draw_params : DeviceDrawParams) : Option (Device × List Event) :=
  let use_fallback_shader := draw_params.bind_display_space_shader_cb.isNone
  if rgba.type ≠ MemoryType.MEM_PIXELS then
    none
  else
    let start := upload_events env.glGenTextures rgba y w h ++ blend_events transparent
    if use_fallback_shader then
      let bound := bind_fallback_display_space_shader env self (float.ofInt dw) (float.ofInt dh)
      if bound.1 = false then
        some (bound.2.1, start ++ bound.2.2)
      else
        draw_quad env bound.2.1 bound.2.1.fallback_shader_program true width height dx dy
          transparent draw_params (start ++ bound.2.2)
    else
      draw_quad env self env.current_program false width height dx dy transparent
        draw_params
        (start ++ [Event.bind_display_space_shader_cb,
          .gl (.glGetIntegerv GLenum.GL_CURRENT_PROGRAM)])

end Device

/-! ## OpenGL answers used in the examples -/

/-- Answers of a working OpenGL: both shaders compile, the program links and
both uniforms are found. -/
def working_gl : GLEnv where
  glCreateProgram := 3
  glCreateShader := fun type => if type = GLenum.GL_VERTEX_SHADER then 1 else 2
  compile_status := fun _ => 1
  link_status := 1
  glGetUniformLocation := fun _ name => if name = "image_texture" then 0 else 1
  glGenTextures := 7
  current_program := 9
  glGenBuffers := 5
  glMapBuffer := true
  glGenVertexArrays := 6
  glGetAttribLocation := fun _ name => if name = "texCoord" then 0 else 1

/-- Answers of an OpenGL on which the fragment shader does not compile. -/
def broken_gl : GLEnv :=
  { working_gl with
    compile_status := fun type => if type = GLenum.GL_VERTEX_SHADER then 1 else 0 }

/-- A `Device` object on which nothing has been drawn yet. -/
def fresh_device : Device where
  background := false
  vertex_buffer := 0
  fallback_status := FALLBACK_SHADER_STATUS_NONE
  fallback_shader_program := 0
  image_texture_location := 0
  fullscreen_location := 0

/-- A buffer of half-float pixels. -/
def half_pixels : device_memory where
  type := MemoryType.MEM_PIXELS
  data_type := DataType.TYPE_HALF
  memory_elements_size_1 := 8

/-- Draw parameters with both host callbacks supplied. -/
def host_hooks : DeviceDrawParams where
  bind_display_space_shader_cb := some 1
  unbind_display_space_shader_cb := some 2

/-! ## OpenGL state -/

/-- The part of the OpenGL state that `draw_pixels` changes and restores:
whether blending is enabled, the texture bound to `GL_TEXTURE_2D`, the program
in use, and the texture objects and vertex array objects that exist. -/
structure GLState where
  blend : Bool
  texture_2d : Nat
  program : Int
  textures : List Nat
  vertex_arrays : List Nat
  deriving DecidableEq, Repr

/-- How one event changes that state, as OpenGL defines the calls: `glEnable`
and `glDisable` of `GL_BLEND`, `glBindTexture` on `GL_TEXTURE_2D`,
`glUseProgram`, `glGenTextures`, `glDeleteTextures` (which also unbinds the
deleted texture) and `glGenVertexArrays`. The other events, the host
callbacks among them, leave it as it is. -/
def GLState.step (env : GLEnv) (s : GLState) : Event → GLState
  | .gl (.glEnable cap) => if cap = GLenum.GL_BLEND then { s with blend := true } else s
  | .gl (.glDisable cap) => if cap = GLenum.GL_BLEND then { s with blend := false } else s
  | .gl (.glBindTexture target texture) =>
    if target = GLenum.GL_TEXTURE_2D then { s with texture_2d := texture } else s
  | .gl (.glUseProgram program) => { s with program := program }
  | .gl (.glGenTextures _) => { s with textures := env.glGenTextures :: s.textures }
  | .gl (.glDeleteTextures _ texture) =>
    { s with
      textures := s.textures.filter (fun t => t ≠ texture)
      texture_2d := if s.texture_2d = texture then 0 else s.texture_2d }
  | .gl (.glGenVertexArrays _) =>
    { s with vertex_arrays := env.glGenVertexArrays :: s.vertex_arrays }
  | _ => s

/-- The state after a sequence of events. -/
def GLState.run (env : GLEnv) (s : GLState) (events : List Event) : GLState :=
  events.foldl (GLState.step env) s

/-- The number of low bits that a 24-bit significand cannot hold of the natural
`m`; `fuel` bounds the number of halvings and `m` itself is enough of it. -/
def binary32_shift : Nat → Nat → Nat
  | 0, _ => 0
  | fuel + 1, m => if m < 16777216 then 0 else binary32_shift fuel (m / 2) + 1

/-- The value of the `float` (IEEE binary32, 24-bit significand) nearest to an
integer, ties going to the even significand. The integers met here are sums of
two `int`s at most, far below the largest `float`. -/
def binary32_round (i : Int) : Int :=
  let m := i.natAbs
  let e := binary32_shift m m
  let q := m / 2 ^ e
  let r := m % 2 ^ e
  let q' := if 2 * r > 2 ^ e ∨ (2 * r = 2 ^ e ∧ q % 2 = 1) then q + 1 else q
  if i < 0 then -((q' * 2 ^ e : Nat) : Int) else ((q' * 2 ^ e : Nat) : Int)

/-- The number that a `float` expression has in binary32 arithmetic: every
conversion of an `int` and every sum is rounded to the nearest `float`. -/
def float.value : float → Int
  | float.zero => 0
  | float.one => 1
  | float.ofInt i => binary32_round i
  | float.add a b => binary32_round (a.value + b.value)

/-- An OpenGL state with blending off, nothing bound and no object. -/
def idle_state : GLState where
  blend := false
  texture_2d := 0
  program := 0
  textures := []
  vertex_arrays := []

/-- Draw parameters with no host callback. -/
def no_hooks : DeviceDrawParams where
  bind_display_space_shader_cb := none
  unbind_display_space_shader_cb := none

/-- A buffer of 8-bit pixels. -/
def byte_pixels : device_memory where
  type := MemoryType.MEM_PIXELS
  data_type := DataType.TYPE_OTHER
  memory_elements_size_1 := 4

/-! ## Requested features -/

/-- The members of `DeviceRequestedFeatures` that `operator<<` prints. -/
structure DeviceRequestedFeatures where
  experimental : Bool
  max_nodes_group : Int
  nodes_features : Int
  use_hair : Bool
  use_object_motion : Bool
  use_camera_motion : Bool
  use_baking : Bool
  use_subsurface : Bool
  use_volume : Bool
  use_integrator_branched : Bool
  use_patch_evaluation : Bool
  use_transparent : Bool
  use_principled : Bool
  use_denoising : Bool
  deriving DecidableEq, Repr

/-- The function `operator<<` for `DeviceRequestedFeatures`: the text it
appends to the stream, `std::endl` being a newline. The function
`string_from_bool` of `util/util_string.h` and the text that the stream gives
for an `int` are parameters. -/
def operator_lshift (string_from_bool : Bool → String) (int_text : Int → String)
    (requested_features : DeviceRequestedFeatures) : String :=
  "Experimental features: " ++
    (if requested_features.experimental then "On" else "Off") ++ "\n" ++
  "Max nodes group: " ++ int_text requested_features.max_nodes_group ++ "\n" ++
  "Nodes features: " ++ int_text requested_features.nodes_features ++ "\n" ++
  "Use Hair: " ++ string_from_bool requested_features.use_hair ++ "\n" ++
  "Use Object Motion: " ++ string_from_bool requested_features.use_object_motion ++ "\n" ++
  "Use Camera Motion: " ++ string_from_bool requested_features.use_camera_motion ++ "\n" ++
  "Use Baking: " ++ string_from_bool requested_features.use_baking ++ "\n" ++
  "Use Subsurface: " ++ string_from_bool requested_features.use_subsurface ++ "\n" ++
  "Use Volume: " ++ string_from_bool requested_features.use_volume ++ "\n" ++
  "Use Branched Integrator: " ++
    string_from_bool requested_features.use_integrator_branched ++ "\n" ++
  "Use Patch Evaluation: " ++
    string_from_bool requested_features.use_patch_evaluation ++ "\n" ++
  "Use Transparent Shadows: " ++ string_from_bool requested_features.use_transparent ++ "\n" ++
  "Use Principled BSDF: " ++ string_from_bool requested_features.use_principled ++ "\n" ++
  "Use Denoising: " ++ string_from_bool requested_features.use_denoising ++ "\n"

/-- The fourteen labels and printed fields of a `DeviceRequestedFeatures`, in
printing order, each label without its colon. -/
def feature_lines (string_from_bool : Bool → String) (int_text : Int → String)
    (f : DeviceRequestedFeatures) : List (String × String) :=
  [("Experimental features", if f.experimental then "On" else "Off"),
    ("Max nodes group", int_text f.max_nodes_group),
    ("Nodes features", int_text f.nodes_features),
    ("Use Hair", string_from_bool f.use_hair),
    ("Use Object Motion", string_from_bool f.use_object_motion),
    ("Use Camera Motion", string_from_bool f.use_camera_motion),
    ("Use Baking", string_from_bool f.use_baking),
    ("Use Subsurface", string_from_bool f.use_subsurface),
    ("Use Volume", string_from_bool f.use_volume),
    ("Use Branched Integrator", string_from_bool f.use_integrator_branched),
    ("Use Patch Evaluation", string_from_bool f.use_patch_evaluation),
    ("Use Transparent Shadows", string_from_bool f.use_transparent),
    ("Use Principled BSDF", string_from_bool f.use_principled),
    ("Use Denoising", string_from_bool f.use_denoising)]

/-- Features used in the examples. -/
def example_features : DeviceRequestedFeatures where
  experimental := true
  max_nodes_group := 2
  nodes_features := 7
  use_hair := true
  use_object_motion := false
  use_camera_motion := false
  use_baking := false
  use_subsurface := true
  use_volume := false
  use_integrator_branched := false
  use_patch_evaluation := false
  use_transparent := true
  use_principled := true
  use_denoising := false

/-- A rendering of a `bool` used in the examples. -/
def example_string_from_bool (b : Bool) : String := if b then "True" else "False"

/-- A rendering of an `int` used in the examples: decimal digits. -/
def example_int_text (i : Int) : String := toString i

/-! ## Facts about the helpers -/

theorem strcmpChars_eq_zero_iff (a b : List Char) : strcmpChars a b = 0 ↔ a = b := by
  induction a generalizing b with
  | nil => cases b <;> simp [strcmpChars]
  | cons x xs ih =>
    cases b with
    | nil => simp [strcmpChars]
    | cons y ys =>
      by_cases hxy : x = y
      · simp [strcmpChars, hxy, ih]
      · by_cases hlt : x.toNat < y.toNat <;> simp [strcmpChars, hxy, hlt]

theorem strcmp_eq_zero_iff (a b : String) : strcmp a b = 0 ↔ a = b := by
  unfold strcmp
  rw [strcmpChars_eq_zero_iff]
  constructor
  · intro h
    exact String.ext h
  · intro h
    rw [h]

/-- In the range of `int`, the mixed `size_t`/`int` computation of
`cpu_threads_of` is the integer difference. -/
theorem int_of_size_t_sub (o : Int) (n : Nat)
    (hlo : -2147483648 ≤ o - ((n : Int) - 1)) (hhi : o - ((n : Int) - 1) < 2147483648) :
    int_of_size_t (size_t_sub (size_t_of_int o) (size_t_sub n 1)) = o - ((n : Int) - 1) := by
  unfold int_of_size_t size_t_sub size_t_of_int
  split <;> omega

theorem max_eq (a b : Int) : ccl.max a b = Max.max a b := by
  unfold ccl.max
  split <;> omega

/-- A product in the range of `int` is computed exactly. -/
theorem int_mul_exact (a b : Int) (hlo : -2147483648 ≤ a * b) (hhi : a * b < 2147483648) :
    int_mul a b = a * b := by
  unfold int_mul int_of_size_t size_t_of_int
  generalize a * b = p at *
  split <;> omega

theorem int_mul_emod (a b : Int) : int_mul a b % 4294967296 = (a * b) % 4294967296 := by
  unfold int_mul int_of_size_t size_t_of_int
  generalize a * b = p
  split <;> omega

/-- When the product `4 * y * w` is in the range of `int`, the offset computed in
`int` is that product. -/
theorem int_mul_offset (y w : Int) (hlo : -2147483648 ≤ 4 * y * w)
    (hhi : 4 * y * w < 2147483648) : int_mul (int_mul 4 y) w = 4 * y * w := by
  have hmod : (int_mul 4 y * w) % 4294967296 = (4 * y * w) % 4294967296 := by
    rw [Int.mul_emod, int_mul_emod, ← Int.mul_emod]
  have hrest : ∀ p q : Int, p % 4294967296 = q % 4294967296 → -2147483648 ≤ q →
      q < 2147483648 → int_of_size_t (size_t_of_int p) = q := by
    intro p q hpq h1 h2
    unfold int_of_size_t size_t_of_int
    split <;> omega
  exact hrest _ _ hmod hlo hhi

/-- At `y = 524288`, `w = 1024` the product `4 * y * w` is `2^31`, outside the
range of `int`, and the offset computed is `-2147483648`. -/
theorem int_mul_offset_wraps : int_mul (int_mul 4 524288) 1024 = -2147483648 := by
  decide

theorem binary32_shift_small (fuel m : Nat) (h : m < 16777216) :
    binary32_shift fuel m = 0 := by
  cases fuel <;> simp [binary32_shift, h]

/-- An integer of magnitude at most `2^24` is a `float`: rounding leaves it as
it is. -/
theorem binary32_round_exact (i : Int) (hlo : -16777216 ≤ i) (hhi : i ≤ 16777216) :
    binary32_round i = i := by
  by_cases hm : i.natAbs < 16777216
  · unfold binary32_round
    simp only [binary32_shift_small _ _ hm, pow_zero, Nat.div_one, Nat.mod_one, Nat.mul_zero,
      Nat.mul_one, gt_iff_lt, Nat.not_lt_zero, Nat.lt_irrefl, false_or, zero_ne_one,
      false_and, if_false]
    split_ifs <;> omega
  · have h : i = 16777216 ∨ i = -16777216 := by omega
    rcases h with h | h <;> subst h <;> decide

/-! ## The loop of `get_multi_device` -/

namespace Device

theorem loop_body_eq (cores : Int) (size : Nat) (threads : Int) (bg : Bool)
    (info d : DeviceInfo) :
    loop_body cores size threads bg info d =
      match pushed cores size threads bg d with
      | none => info
      | some c => accumulate (push_back info c) d := by
  unfold loop_body pushed
  by_cases h1 : d.type = DEVICE_CPU ∧ size > 1
  · cases bg with
    | false => simp [h1]
    | true =>
      by_cases h3 : cpu_threads_of cores size threads ≥ 1
      · simp [h1, h3]
      · simp [h1, h3]
  · simp [h1]

/-- What `pushed` returns has the kind and the capabilities of the element. -/
theorem pushed_some (cores : Int) (size : Nat) (threads : Int) (bg : Bool)
    (d c : DeviceInfo) (h : pushed cores size threads bg d = some c) :
    c.type = d.type ∧ c.has_half_images = d.has_half_images ∧
      c.has_volume_decoupled = d.has_volume_decoupled ∧
      c.bvh_layout_mask = d.bvh_layout_mask ∧ c.has_osl = d.has_osl := by
  unfold pushed at h
  split_ifs at h <;> cases h <;> simp

theorem foldl_multi_devices (cores : Int) (size : Nat) (threads : Int) (bg : Bool)
    (subs : List DeviceInfo) (info : DeviceInfo) :
    (subs.foldl (loop_body cores size threads bg) info).multi_devices =
      info.multi_devices ++ subs.filterMap (pushed cores size threads bg) := by
  induction subs generalizing info with
  | nil => simp
  | cons d ds ih =>
    rw [List.foldl_cons, ih, loop_body_eq]
    cases hp : pushed cores size threads bg d with
    | none => simp [List.filterMap_cons, hp]
    | some c => simp [List.filterMap_cons, hp, accumulate, push_back]

theorem foldl_has_half_images (cores : Int) (size : Nat) (threads : Int) (bg : Bool)
    (subs : List DeviceInfo) (info : DeviceInfo) :
    (subs.foldl (loop_body cores size threads bg) info).has_half_images =
      (info.has_half_images &&
        (subs.filterMap (pushed cores size threads bg)).all (fun c => c.has_half_images)) := by
  induction subs generalizing info with
  | nil => simp
  | cons d ds ih =>
    rw [List.foldl_cons, ih, loop_body_eq]
    cases hp : pushed cores size threads bg d with
    | none => simp [List.filterMap_cons, hp]
    | some c =>
      simp [List.filterMap_cons, hp, accumulate, push_back,
        (pushed_some cores size threads bg d c hp).2.1, Bool.and_assoc]

theorem foldl_has_volume_decoupled (cores : Int) (size : Nat) (threads : Int) (bg : Bool)
    (subs : List DeviceInfo) (info : DeviceInfo) :
    (subs.foldl (loop_body cores size threads bg) info).has_volume_decoupled =
      (info.has_volume_decoupled &&
        (subs.filterMap (pushed cores size threads bg)).all
          (fun c => c.has_volume_decoupled)) := by
  induction subs generalizing info with
  | nil => simp
  | cons d ds ih =>
    rw [List.foldl_cons, ih, loop_body_eq]
    cases hp : pushed cores size threads bg d with
    | none => simp [List.filterMap_cons, hp]
    | some c =>
      simp [List.filterMap_cons, hp, accumulate, push_back,
        (pushed_some cores size threads bg d c hp).2.2.1, Bool.and_assoc]

theorem foldl_has_osl (cores : Int) (size : Nat) (threads : Int) (bg : Bool)
    (subs : List DeviceInfo) (info : DeviceInfo) :
    (subs.foldl (loop_body cores size threads bg) info).has_osl =
      (info.has_osl &&
        (subs.filterMap (pushed cores size threads bg)).all (fun c => c.has_osl)) := by
  induction subs generalizing info with
  | nil => simp
  | cons d ds ih =>
    rw [List.foldl_cons, ih, loop_body_eq]
    cases hp : pushed cores size threads bg d with
    | none => simp [List.filterMap_cons, hp]
    | some c =>
      simp [List.filterMap_cons, hp, accumulate, push_back,
        (pushed_some cores size threads bg d c hp).2.2.2.2, Bool.and_assoc]

theorem foldr_land_init (cs : List DeviceInfo) (a m : Nat) :
    cs.foldr (fun c x => c.bvh_layout_mask &&& x) (a &&& m) =
      a &&& cs.foldr (fun c x => c.bvh_layout_mask &&& x) m := by
  induction cs with
  | nil => rfl
  | cons c cs ih =>
    simp only [List.foldr_cons, ih]
    rw [← Nat.land_assoc, Nat.land_comm c.bvh_layout_mask a, Nat.land_assoc]

theorem foldl_bvh_layout_mask (cores : Int) (size : Nat) (threads : Int) (bg : Bool)
    (subs : List DeviceInfo) (info : DeviceInfo) :
    (subs.foldl (loop_body cores size threads bg) info).bvh_layout_mask =
      (subs.filterMap (pushed cores size threads bg)).foldr
        (fun c x => c.bvh_layout_mask &&& x) info.bvh_layout_mask := by
  induction subs generalizing info with
  | nil => simp
  | cons d ds ih =>
    rw [List.foldl_cons, ih, loop_body_eq]
    cases hp : pushed cores size threads bg d with
    | none => simp [List.filterMap_cons, hp]
    | some c =>
      simp only [List.filterMap_cons, hp, List.foldr_cons, accumulate, push_back]
      rw [foldr_land_init, (pushed_some cores size threads bg d c hp).2.2.2.1]

/-- The loop leaves the members other than the child list and the capabilities
as they are. -/
theorem foldl_fixed (cores : Int) (size : Nat) (threads : Int) (bg : Bool)
    (subs : List DeviceInfo) (info : DeviceInfo) :
    (subs.foldl (loop_body cores size threads bg) info).type = info.type ∧
      (subs.foldl (loop_body cores size threads bg) info).id = info.id ∧
      (subs.foldl (loop_body cores size threads bg) info).description = info.description ∧
      (subs.foldl (loop_body cores size threads bg) info).num = info.num ∧
      (subs.foldl (loop_body cores size threads bg) info).cpu_threads = info.cpu_threads := by
  induction subs generalizing info with
  | nil => simp
  | cons d ds ih =>
    rw [List.foldl_cons, loop_body_eq]
    cases hp : pushed cores size threads bg d with
    | none => simpa using ih info
    | some c => simpa [accumulate, push_back] using ih (accumulate (push_back info c) d)

theorem get_multi_device_eq (ALL : Nat) (cores : Int) (subs : List DeviceInfo)
    (threads : Int) (bg : Bool) (hn : subs.length > 1) :
    get_multi_device ALL cores subs threads bg =
      some (subs.foldl (loop_body cores subs.length threads bg) (initial_info ALL)) := by
  simp [get_multi_device, hn]

/-- The child list of the result is the list of the descriptors pushed by the
iterations. -/
theorem foldl_initial_multi_devices (ALL : Nat) (cores : Int) (size : Nat)
    (threads : Int) (bg : Bool) (subs : List DeviceInfo) :
    (subs.foldl (loop_body cores size threads bg) (initial_info ALL)).multi_devices =
      subs.filterMap (pushed cores size threads bg) := by
  rw [foldl_multi_devices]
  simp [initial_info, DeviceInfo.ctor]

theorem pushed_of_not_cpu (cores : Int) (size : Nat) (threads : Int) (bg : Bool)
    (d : DeviceInfo) (h : d.type ≠ DEVICE_CPU) :
    pushed cores size threads bg d = some d := by
  simp [pushed, h]

theorem pushed_interactive (cores : Int) (size : Nat) (threads : Int)
    (d : DeviceInfo) (hs : size > 1) :
    pushed cores size threads false d =
      if d.type ≠ DEVICE_CPU then some d else none := by
  by_cases h : d.type = DEVICE_CPU <;> simp [pushed, h, hs]

theorem pushed_background_cpu (cores : Int) (size : Nat) (threads : Int)
    (d : DeviceInfo) (hs : size > 1) (h : d.type = DEVICE_CPU) :
    pushed cores size threads true d =
      if cpu_threads_of cores size threads ≥ 1 then
        some { d with cpu_threads := cpu_threads_of cores size threads }
      else none := by
  simp [pushed, h, hs]

theorem childList_filterMap_pushed (cores : Int) (size : Nat) (threads : Int) (bg : Bool)
    (subs : List DeviceInfo) :
    ChildList subs (subs.filterMap (pushed cores size threads bg)) := by
  induction subs with
  | nil => exact ChildList.nil
  | cons d ds ih =>
    by_cases hd : d.type = DEVICE_CPU
    · by_cases h1 : size > 1 ∧ bg = true ∧ cpu_threads_of cores size threads ≥ 1
      · have hp : pushed cores size threads bg d =
            some { d with cpu_threads := cpu_threads_of cores size threads } := by
          simp [pushed, hd, h1.1, h1.2.1, h1.2.2]
        rw [List.filterMap_cons, hp]
        exact ChildList.replace d _ ds _ hd ih
      · by_cases hs : size > 1
        · have hp : pushed cores size threads bg d = none := by
            cases bg with
            | false => simp [pushed, hd, hs]
            | true =>
              have h3 : ¬ cpu_threads_of cores size threads ≥ 1 := fun h => h1 ⟨hs, rfl, h⟩
              simp [pushed, hd, hs, h3]
          rw [List.filterMap_cons, hp]
          exact ChildList.remove d ds _ hd ih
        · have hp : pushed cores size threads bg d = some { d with cpu_threads := d.cpu_threads } := by
            cases d
            simp [pushed, hs]
          rw [List.filterMap_cons, hp]
          exact ChildList.replace d _ ds _ hd ih
    · rw [List.filterMap_cons, pushed_of_not_cpu cores size threads bg d hd]
      exact ChildList.keep d ds _ hd ih

theorem filterMap_not_cpu (l : List DeviceInfo) :
    l.filterMap (fun d => if d.type ≠ DEVICE_CPU then some d else none) =
      l.filter (fun d => decide (d.type ≠ DEVICE_CPU)) := by
  induction l with
  | nil => rfl
  | cons e es ih =>
    by_cases he : e.type = DEVICE_CPU
    · rw [List.filterMap_cons, List.filter_cons]
      simp only [he, ne_eq, not_true_eq_false, if_false, decide_False]
      exact ih
    · rw [List.filterMap_cons, List.filter_cons]
      simp only [he, ne_eq, not_false_eq_true, if_true, decide_True]
      rw [ih]

/-- In the range of `int`, the local `cpu_threads` is the clamped difference. -/
theorem cpu_threads_of_eq (cores : Int) (size : Nat) (threads : Int)
    (hlo : -2147483648 ≤ (if threads ≠ 0 then threads else cores) - ((size : Int) - 1))
    (hhi : (if threads ≠ 0 then threads else cores) - ((size : Int) - 1) < 2147483648) :
    cpu_threads_of cores size threads =
      Max.max ((if threads ≠ 0 then threads else cores) - ((size : Int) - 1)) 0 := by
  unfold cpu_threads_of
  simp only []
  rw [int_of_size_t_sub _ _ hlo hhi, max_eq]

/-- The core count is read only on the background CPU path with `threads = 0`. -/
theorem loop_body_core_count (c1 c2 : Int) (size : Nat) (threads : Int) (bg : Bool)
    (info d : DeviceInfo)
    (h : threads ≠ 0 ∨ bg = false ∨ d.type ≠ DEVICE_CPU) :
    loop_body c1 size threads bg info d = loop_body c2 size threads bg info d := by
  rcases h with h | h | h
  · have : cpu_threads_of c1 size threads = cpu_threads_of c2 size threads := by
      simp [cpu_threads_of, h]
    simp [loop_body, this]
  · subst h
    simp [loop_body]
  · simp [loop_body, h]

end Device

/-! ## The kind/token mapping -/

/-- C5: for each of the five tokens "CPU", "CUDA", "OPENCL", "NETWORK" and
"MULTI", converting the token to a kind with `type_from_string` and back with
`string_from_type` gives the token again. -/
theorem string_from_type_type_from_string :
    Device.string_from_type (Device.type_from_string "CPU") = "CPU" ∧
      Device.string_from_type (Device.type_from_string "CUDA") = "CUDA" ∧
      Device.string_from_type (Device.type_from_string "OPENCL") = "OPENCL" ∧
      Device.string_from_type (Device.type_from_string "NETWORK") = "NETWORK" ∧
      Device.string_from_type (Device.type_from_string "MULTI") = "MULTI" := by
  refine ⟨?_, ?_, ?_, ?_, ?_⟩ <;> decide

/-- C6: every string that is not exactly one of the five tokens (the comparison
is exact and case-sensitive) is mapped to `DEVICE_NONE` by `type_from_string`. -/
theorem type_from_string_other (s : String)
    (h : s ∉ ["CPU", "CUDA", "OPENCL", "NETWORK", "MULTI"]) :
    Device.type_from_string s = DEVICE_NONE := by
  simp only [List.mem_cons, List.mem_singleton, List.not_mem_nil, or_false, not_or] at h
  obtain ⟨h1, h2, h3, h4, h5⟩ := h
  simp [Device.type_from_string, strcmp_eq_zero_iff, h1, h2, h3, h4, h5]

/-- Witness of C6 at the lower-case string "cpu". -/
theorem type_from_string_other_witness :
    "cpu" ∉ ["CPU", "CUDA", "OPENCL", "NETWORK", "MULTI"] ∧
      Device.type_from_string "cpu" = DEVICE_NONE :=
  ⟨by decide, type_from_string_other "cpu" (by decide)⟩

/-- C7: the mapping is bidirectional: `string_from_type DEVICE_NONE` is the
empty string, `type_from_string (string_from_type k) = k` for each of the six
kinds, and so `string_from_type` is injective. -/
theorem type_from_string_string_from_type :
    Device.string_from_type DEVICE_NONE = "" ∧
      (∀ k : DeviceType, Device.type_from_string (Device.string_from_type k) = k) ∧
      Function.Injective Device.string_from_type := by
  have hk : ∀ k : DeviceType,
      Device.type_from_string (Device.string_from_type k) = k := by
    intro k
    cases k <;> decide
  refine ⟨by decide, hk, ?_⟩
  intro a b hab
  have := congrArg Device.type_from_string hab
  rwa [hk, hk] at this

/-! ## The composite descriptor builder -/

/-- C1: for every list of more than one descriptor, every background flag and
every thread count, `get_multi_device` returns a descriptor whose
`has_half_images`, `has_volume_decoupled` and `has_osl` are the conjunction of
that flag over the returned `multi_devices`, and whose `bvh_layout_mask` is the
bitwise AND of the children's masks and `BVH_LAYOUT_ALL`. In particular a
non-CPU input descriptor without half-float images makes the composite's
`has_half_images` false. -/
theorem get_multi_device_capabilities (ALL : Nat) (cores : Int)
    (subs : List DeviceInfo) (threads : Int) (bg : Bool) (hn : subs.length > 1) :
    ∃ info, Device.get_multi_device ALL cores subs threads bg = some info ∧
      info.has_half_images = info.multi_devices.all (fun c => c.has_half_images) ∧
      info.has_volume_decoupled =
        info.multi_devices.all (fun c => c.has_volume_decoupled) ∧
      info.has_osl = info.multi_devices.all (fun c => c.has_osl) ∧
      info.bvh_layout_mask =
        info.multi_devices.foldr (fun c m => c.bvh_layout_mask &&& m) ALL ∧
      (∀ d ∈ subs, d.type ≠ DEVICE_CPU → d.has_half_images = false →
        info.has_half_images = false) := by
  refine ⟨_, Device.get_multi_device_eq ALL cores subs threads bg hn, ?_, ?_, ?_, ?_, ?_⟩
  · rw [Device.foldl_has_half_images, Device.foldl_initial_multi_devices]
    simp [Device.initial_info]
  · rw [Device.foldl_has_volume_decoupled, Device.foldl_initial_multi_devices]
    simp [Device.initial_info]
  · rw [Device.foldl_has_osl, Device.foldl_initial_multi_devices]
    simp [Device.initial_info]
  · rw [Device.foldl_bvh_layout_mask, Device.foldl_initial_multi_devices]
    simp [Device.initial_info]
  · intro d hd hcpu hhalf
    rw [Device.foldl_has_half_images]
    have hmem : d ∈ subs.filterMap (Device.pushed cores subs.length threads bg) :=
      List.mem_filterMap.mpr ⟨d, hd, Device.pushed_of_not_cpu _ _ _ _ d hcpu⟩
    have hall : (subs.filterMap (Device.pushed cores subs.length threads bg)).all
        (fun c => c.has_half_images) = false := by
      rw [List.all_eq_false]
      exact ⟨d, hmem, by simp [hhalf]⟩
    rw [hall]
    simp

/-- Witness of C1: the composite of a GPU with half-float images and a GPU
without them. -/
theorem get_multi_device_capabilities_witness :
    [gpu_a, gpu_b].length > 1 ∧
      ∃ info, Device.get_multi_device 4294967295 8 [gpu_a, gpu_b] 0 true = some info ∧
        info.has_half_images = info.multi_devices.all (fun c => c.has_half_images) ∧
        info.has_volume_decoupled =
          info.multi_devices.all (fun c => c.has_volume_decoupled) ∧
        info.has_osl = info.multi_devices.all (fun c => c.has_osl) ∧
        info.bvh_layout_mask =
          info.multi_devices.foldr (fun c m => c.bvh_layout_mask &&& m) 4294967295 ∧
        (∀ d ∈ [gpu_a, gpu_b], d.type ≠ DEVICE_CPU → d.has_half_images = false →
          info.has_half_images = false) :=
  ⟨by decide, get_multi_device_capabilities 4294967295 8 [gpu_a, gpu_b] 0 true (by decide)⟩

/-- C3: with `background = false` and more than one input descriptor, the
returned `multi_devices` is the input without its CPU descriptors, so it holds
no descriptor of kind CPU, whatever the thread count. -/
theorem get_multi_device_interactive (ALL : Nat) (cores : Int)
    (subs : List DeviceInfo) (threads : Int) (hn : subs.length > 1) :
    ∃ info, Device.get_multi_device ALL cores subs threads false = some info ∧
      info.multi_devices = subs.filter (fun d => decide (d.type ≠ DEVICE_CPU)) ∧
      ∀ c ∈ info.multi_devices, c.type ≠ DEVICE_CPU := by
  have hch : (subs.foldl (Device.loop_body cores subs.length threads false)
      (Device.initial_info ALL)).multi_devices =
      subs.filter (fun d => decide (d.type ≠ DEVICE_CPU)) := by
    rw [Device.foldl_initial_multi_devices]
    have hp : Device.pushed cores subs.length threads false =
        fun d => if d.type ≠ DEVICE_CPU then some d else none := by
      funext d
      exact Device.pushed_interactive cores subs.length threads d hn
    rw [hp]
    exact Device.filterMap_not_cpu subs
  refine ⟨_, Device.get_multi_device_eq ALL cores subs threads false hn, hch, ?_⟩
  intro c hc
  rw [hch, List.mem_filter] at hc
  simpa using hc.2

/-- Witness of C3: from the list of a CPU and a GPU only the GPU is left, here
with a thread count of 4. -/
theorem get_multi_device_interactive_witness :
    [cpu_info, gpu_a].length > 1 ∧
      ∃ info, Device.get_multi_device 4294967295 8 [cpu_info, gpu_a] 4 false = some info ∧
        info.multi_devices = [gpu_a] ∧
        ∀ c ∈ info.multi_devices, c.type ≠ DEVICE_CPU :=
  ⟨by decide, get_multi_device_interactive 4294967295 8 [cpu_info, gpu_a] 4 (by decide)⟩

/-- C4: for every list of more than one descriptor, the returned child list is
the input list in input order, where each non-CPU descriptor is kept as it is
and each CPU descriptor is removed or replaced by a copy that differs in
`cpu_threads` only. With `background = true`, a CPU followed by two non-CPU
descriptors, `threads = 0` and 8 cores, the children are the CPU with
`cpu_threads = 6` and the two other descriptors. -/
theorem get_multi_device_children :
    (∀ (ALL : Nat) (cores : Int) (subs : List DeviceInfo) (threads : Int) (bg : Bool),
      subs.length > 1 →
      ∃ info, Device.get_multi_device ALL cores subs threads bg = some info ∧
        ChildList subs info.multi_devices) ∧
    (∀ (ALL : Nat) (cpu a b : DeviceInfo),
      cpu.type = DEVICE_CPU → a.type ≠ DEVICE_CPU → b.type ≠ DEVICE_CPU →
      ∃ info, Device.get_multi_device ALL 8 [cpu, a, b] 0 true = some info ∧
        info.multi_devices = [{ cpu with cpu_threads := 6 }, a, b]) := by
  constructor
  · intro ALL cores subs threads bg hn
    refine ⟨_, Device.get_multi_device_eq ALL cores subs threads bg hn, ?_⟩
    rw [Device.foldl_initial_multi_devices]
    exact Device.childList_filterMap_pushed cores subs.length threads bg subs
  · intro ALL cpu a b hcpu ha hb
    refine ⟨_, Device.get_multi_device_eq ALL 8 [cpu, a, b] 0 true (by simp), ?_⟩
    rw [Device.foldl_initial_multi_devices]
    have h6 : Device.cpu_threads_of 8 3 0 = 6 := by decide
    simp [List.filterMap_cons, Device.pushed_of_not_cpu, ha, hb,
      Device.pushed_background_cpu, hcpu, h6]

/-- Witness of C4 at the list of a CPU and two GPUs, 8 cores and `threads = 0`. -/
theorem get_multi_device_children_witness :
    ([cpu_info, gpu_a, gpu_b].length > 1 ∧
      ∃ info, Device.get_multi_device 4294967295 8 [cpu_info, gpu_a, gpu_b] 0 true =
          some info ∧
        ChildList [cpu_info, gpu_a, gpu_b] info.multi_devices) ∧
    (cpu_info.type = DEVICE_CPU ∧ gpu_a.type ≠ DEVICE_CPU ∧ gpu_b.type ≠ DEVICE_CPU ∧
      ∃ info, Device.get_multi_device 4294967295 8 [cpu_info, gpu_a, gpu_b] 0 true =
          some info ∧
        info.multi_devices = [{ cpu_info with cpu_threads := 6 }, gpu_a, gpu_b]) :=
  ⟨⟨by decide, get_multi_device_children.1 4294967295 8 [cpu_info, gpu_a, gpu_b] 0 true
      (by decide)⟩,
    by decide, by decide, by decide,
    get_multi_device_children.2 4294967295 cpu_info gpu_a gpu_b (by decide) (by decide)
      (by decide)⟩

/-- C8: for every accepted input (a list of more than one descriptor), the
returned descriptor has type `DEVICE_MULTI`, id "MULTI", description
"Multi Device" and num 0, whatever the descriptors, the thread count and the
background flag are. -/
theorem get_multi_device_header (ALL : Nat) (cores : Int)
    (subs : List DeviceInfo) (threads : Int) (bg : Bool) (hn : subs.length > 1) :
    ∃ info, Device.get_multi_device ALL cores subs threads bg = some info ∧
      info.type = DEVICE_MULTI ∧ info.id = "MULTI" ∧
      info.description = "Multi Device" ∧ info.num = 0 := by
  obtain ⟨h1, h2, h3, h4, _⟩ :=
    Device.foldl_fixed cores subs.length threads bg subs (Device.initial_info ALL)
  exact ⟨_, Device.get_multi_device_eq ALL cores subs threads bg hn, h1, h2, h3, h4⟩

/-- Witness of C8 at the list of a CPU and a GPU. -/
theorem get_multi_device_header_witness :
    [cpu_info, gpu_a].length > 1 ∧
      ∃ info, Device.get_multi_device 4294967295 8 [cpu_info, gpu_a] 0 true = some info ∧
        info.type = DEVICE_MULTI ∧ info.id = "MULTI" ∧
        info.description = "Multi Device" ∧ info.num = 0 :=
  ⟨by decide, get_multi_device_header 4294967295 8 [cpu_info, gpu_a] 0 true (by decide)⟩

/-- C9, as stated, fails in a build with `NDEBUG` defined: the assertion is
compiled out, and the call with the single descriptor `gpu_a` returns a
composite whose only child is `gpu_a`. -/
theorem get_multi_device_assert_counterexample :
    ∃ info,
      Device.get_multi_device_compiled true 4294967295 8 [gpu_a] 0 true = some info ∧
      info.type = DEVICE_MULTI ∧ info.multi_devices = [gpu_a] := by
  have h : (Device.get_multi_device_compiled true 4294967295 8 [gpu_a] 0 true).map
      (fun i => (i.type, i.multi_devices)) = some (DEVICE_MULTI, [gpu_a]) := by rfl
  cases hg : Device.get_multi_device_compiled true 4294967295 8 [gpu_a] 0 true with
  | none => rw [hg] at h; simp at h
  | some info =>
    rw [hg] at h
    simp only [Option.map_some', Option.some.injEq, Prod.mk.injEq] at h
    exact ⟨info, rfl, h.1, h.2⟩

/-- C9, amended: in a build with assertions (`NDEBUG` not defined),
`get_multi_device` called with fewer than two descriptors fails on its
assertion and returns no descriptor. In a build with `NDEBUG` the assertion is
compiled out and the call returns a composite whose children are the given
descriptors, unchanged (the test of line 512 keeps a lone CPU as it is). For
every list of more than one descriptor the assertion holds and a descriptor is
returned, the same in both builds. -/
theorem get_multi_device_assert_builds :
    (∀ (ALL : Nat) (cores : Int) (subs : List DeviceInfo) (threads : Int) (bg : Bool),
      subs.length < 2 →
      Device.get_multi_device_compiled false ALL cores subs threads bg = none) ∧
    (∀ (ALL : Nat) (cores : Int) (subs : List DeviceInfo) (threads : Int) (bg : Bool),
      subs.length < 2 →
      ∃ info, Device.get_multi_device_compiled true ALL cores subs threads bg = some info ∧
        info.type = DEVICE_MULTI ∧ info.multi_devices = subs) ∧
    (∀ (NDEBUG : Bool) (ALL : Nat) (cores : Int) (subs : List DeviceInfo) (threads : Int)
        (bg : Bool),
      subs.length > 1 →
      ∃ info, Device.get_multi_device_compiled NDEBUG ALL cores subs threads bg =
          some info ∧
        Device.get_multi_device ALL cores subs threads bg = some info) := by
  refine ⟨?_, ?_, ?_⟩
  · intro ALL cores subs threads bg h
    have : ¬ subs.length > 1 := by omega
    simp [Device.get_multi_device_compiled, Device.get_multi_device, this]
  · intro ALL cores subs threads bg h
    have hs : ¬ subs.length > 1 := by omega
    refine ⟨subs.foldl (Device.loop_body cores subs.length threads bg)
      (Device.initial_info ALL), by simp [Device.get_multi_device_compiled], ?_, ?_⟩
    · exact (Device.foldl_fixed cores subs.length threads bg subs
        (Device.initial_info ALL)).1
    · rw [Device.foldl_initial_multi_devices]
      have hp : Device.pushed cores subs.length threads bg = some := by
        funext d
        simp [Device.pushed, hs]
      rw [hp, List.filterMap_some]
  · intro NDEBUG ALL cores subs threads bg h
    refine ⟨_, ?_, Device.get_multi_device_eq ALL cores subs threads bg h⟩
    cases NDEBUG
    · simp [Device.get_multi_device_compiled,
        Device.get_multi_device_eq ALL cores subs threads bg h]
    · simp [Device.get_multi_device_compiled]

/-- Witness of the amended C9: with assertions a list of one descriptor is
refused; with `NDEBUG` a lone CPU is returned as the only child; a list of two
is accepted in both builds. -/
theorem get_multi_device_assert_builds_witness :
    ([gpu_a].length < 2 ∧
      Device.get_multi_device_compiled false 4294967295 8 [gpu_a] 0 true = none) ∧
    ([cpu_info].length < 2 ∧
      ∃ info, Device.get_multi_device_compiled true 4294967295 8 [cpu_info] 0 false =
          some info ∧
        info.type = DEVICE_MULTI ∧ info.multi_devices = [cpu_info]) ∧
    ([cpu_info, gpu_a].length > 1 ∧
      ∃ info, Device.get_multi_device_compiled true 4294967295 8 [cpu_info, gpu_a] 0 true =
          some info ∧
        Device.get_multi_device 4294967295 8 [cpu_info, gpu_a] 0 true = some info) :=
  ⟨⟨by decide, get_multi_device_assert_builds.1 4294967295 8 [gpu_a] 0 true (by decide)⟩,
    ⟨by decide,
      get_multi_device_assert_builds.2.1 4294967295 8 [cpu_info] 0 false (by decide)⟩,
    ⟨by decide,
      get_multi_device_assert_builds.2.2 true 4294967295 8 [cpu_info, gpu_a] 0 true
        (by decide)⟩⟩

/-- C10: `get_multi_device` is a function of the descriptors, the thread count,
the background flag and the machine core count (equal inputs give equal
results), and whenever `threads` is not 0, or `background` is false, or no
input descriptor is of kind CPU, two runs that differ in the core count only
give the same result. -/
theorem get_multi_device_core_count :
    (∀ (ALL : Nat) (c1 c2 : Int) (s1 s2 : List DeviceInfo) (t1 t2 : Int) (b1 b2 : Bool),
      c1 = c2 → s1 = s2 → t1 = t2 → b1 = b2 →
      Device.get_multi_device ALL c1 s1 t1 b1 = Device.get_multi_device ALL c2 s2 t2 b2) ∧
    (∀ (ALL : Nat) (c1 c2 : Int) (subs : List DeviceInfo) (threads : Int) (bg : Bool),
      (threads ≠ 0 ∨ bg = false ∨ ∀ d ∈ subs, d.type ≠ DEVICE_CPU) →
      Device.get_multi_device ALL c1 subs threads bg =
        Device.get_multi_device ALL c2 subs threads bg) := by
  constructor
  · intro ALL c1 c2 s1 s2 t1 t2 b1 b2 hc hs ht hb
    rw [hc, hs, ht, hb]
  · intro ALL c1 c2 subs threads bg h
    unfold Device.get_multi_device
    have hf : subs.foldl (Device.loop_body c1 subs.length threads bg)
          (Device.initial_info ALL) =
        subs.foldl (Device.loop_body c2 subs.length threads bg)
          (Device.initial_info ALL) := by
      apply List.foldl_ext
      intro info d hd
      apply Device.loop_body_core_count
      rcases h with h | h | h
      · exact Or.inl h
      · exact Or.inr (Or.inl h)
      · exact Or.inr (Or.inr (h d hd))
    rw [hf]

/-- Witness of C10: with `threads = 3` the composite of a CPU and a GPU is the
same on a machine of 8 cores and on one of 64. -/
theorem get_multi_device_core_count_witness :
    (((8 : Int) = 8 ∧ [cpu_info, gpu_a] = [cpu_info, gpu_a] ∧ (3 : Int) = 3 ∧ true = true) ∧
      Device.get_multi_device 4294967295 8 [cpu_info, gpu_a] 3 true =
        Device.get_multi_device 4294967295 8 [cpu_info, gpu_a] 3 true) ∧
    (((3 : Int) ≠ 0 ∨ true = false ∨ ∀ d ∈ [cpu_info, gpu_a], d.type ≠ DEVICE_CPU) ∧
      Device.get_multi_device 4294967295 8 [cpu_info, gpu_a] 3 true =
        Device.get_multi_device 4294967295 64 [cpu_info, gpu_a] 3 true) :=
  ⟨⟨⟨rfl, rfl, rfl, rfl⟩,
      get_multi_device_core_count.1 4294967295 8 8 [cpu_info, gpu_a] [cpu_info, gpu_a] 3 3
        true true rfl rfl rfl rfl⟩,
    Or.inl (by decide),
    get_multi_device_core_count.2 4294967295 8 64 [cpu_info, gpu_a] 3 true
      (Or.inl (by decide))⟩

/-- C2, as stated, fails at two inputs. For two GPUs and `threads = 8` the
claimed `cpu_threads` is `max(8 - 1, 0) = 7 ≥ 1`, but the input has no CPU
descriptor and the result has no CPU child. For a CPU and a GPU and
`threads = -2147483648` the claimed `cpu_threads` is 0 and the CPU should be
dropped, but the `size_t` subtraction wraps around and the result has a CPU
child with `cpu_threads = 2147483647`. -/
theorem get_multi_device_cpu_child_counterexample :
    (¬ ∃ info, Device.get_multi_device 4294967295 8 [gpu_a, gpu_b] 8 true = some info ∧
        ((∃ c ∈ info.multi_devices, c.type = DEVICE_CPU) ↔
          Max.max ((8 : Int) - (((2 : Nat) : Int) - 1)) 0 ≥ 1)) ∧
    (¬ ∃ info,
        Device.get_multi_device 4294967295 8 [cpu_info, gpu_a] (-2147483648) true =
          some info ∧
        ((-2147483648 : Int) ≤ ((2 : Nat) : Int) - 1 →
          ∀ c ∈ info.multi_devices, c.type ≠ DEVICE_CPU)) ∧
    (∃ info,
        Device.get_multi_device 4294967295 8 [cpu_info, gpu_a] (-2147483648) true =
          some info ∧
        info.multi_devices = [{ cpu_info with cpu_threads := 2147483647 }, gpu_a]) := by
  have h1 : (Device.get_multi_device 4294967295 8 [gpu_a, gpu_b] 8 true).map
      (fun i => i.multi_devices) = some [gpu_a, gpu_b] := by rfl
  have h2 : (Device.get_multi_device 4294967295 8 [cpu_info, gpu_a] (-2147483648) true).map
      (fun i => i.multi_devices) =
      some [{ cpu_info with cpu_threads := 2147483647 }, gpu_a] := by rfl
  refine ⟨?_, ?_, ?_⟩
  · rintro ⟨info, hinfo, hiff⟩
    rw [hinfo] at h1
    simp only [Option.map_some', Option.some.injEq] at h1
    have hge : Max.max ((8 : Int) - (((2 : Nat) : Int) - 1)) 0 ≥ 1 := by decide
    obtain ⟨c, hc, hcpu⟩ := hiff.mpr hge
    rw [h1] at hc
    simp only [List.mem_cons, List.mem_singleton, List.not_mem_nil, or_false] at hc
    rcases hc with hc | hc
    · rw [hc] at hcpu
      exact absurd hcpu (by decide)
    · rw [hc] at hcpu
      exact absurd hcpu (by decide)
  · rintro ⟨info, hinfo, himp⟩
    rw [hinfo] at h2
    simp only [Option.map_some', Option.some.injEq] at h2
    have := himp (by decide) { cpu_info with cpu_threads := 2147483647 } (by rw [h2]; simp)
    exact this rfl
  · cases hg : Device.get_multi_device 4294967295 8 [cpu_info, gpu_a] (-2147483648) true with
    | none => rw [hg] at h2; simp at h2
    | some info =>
      rw [hg] at h2
      simp only [Option.map_some', Option.some.injEq] at h2
      exact ⟨info, rfl, h2⟩

/-- C2, amended: for `background = true` and a list of `n > 1` descriptors, let
`effective` be `threads` if it is not 0 and the core count otherwise, and
`cpu_threads = max(effective - (n - 1), 0)`. When `effective - (n - 1)` is in
the range of a 32-bit `int`, the result has a CPU child if and only if the input
has a CPU descriptor and `cpu_threads ≥ 1`; the `cpu_threads` member of every
CPU child is `cpu_threads`; and when `effective ≤ n - 1` no CPU child is left. -/
theorem get_multi_device_cpu_child (ALL : Nat) (cores : Int)
    (subs : List DeviceInfo) (threads effective cpu_threads : Int)
    (hn : subs.length > 1)
    (heff : effective = if threads ≠ 0 then threads else cores)
    (hcpu : cpu_threads = Max.max (effective - ((subs.length : Int) - 1)) 0)
    (hlo : -2147483648 ≤ effective - ((subs.length : Int) - 1))
    (hhi : effective - ((subs.length : Int) - 1) < 2147483648) :
    ∃ info, Device.get_multi_device ALL cores subs threads true = some info ∧
      ((∃ c ∈ info.multi_devices, c.type = DEVICE_CPU) ↔
        ((∃ d ∈ subs, d.type = DEVICE_CPU) ∧ cpu_threads ≥ 1)) ∧
      (∀ c ∈ info.multi_devices, c.type = DEVICE_CPU → c.cpu_threads = cpu_threads) ∧
      (effective ≤ (subs.length : Int) - 1 →
        ∀ c ∈ info.multi_devices, c.type ≠ DEVICE_CPU) := by
  subst heff
  have hct : Device.cpu_threads_of cores subs.length threads = cpu_threads := by
    rw [Device.cpu_threads_of_eq cores subs.length threads hlo hhi, hcpu]
  have hmem : ∀ c, c ∈ (subs.foldl (Device.loop_body cores subs.length threads true)
      (Device.initial_info ALL)).multi_devices → c.type = DEVICE_CPU →
      cpu_threads ≥ 1 ∧ c.cpu_threads = cpu_threads ∧ ∃ d ∈ subs, d.type = DEVICE_CPU := by
    intro c hc hty
    rw [Device.foldl_initial_multi_devices, List.mem_filterMap] at hc
    obtain ⟨d, hd, hp⟩ := hc
    have hdty : d.type = DEVICE_CPU := by
      rw [← (Device.pushed_some _ _ _ _ d c hp).1]
      exact hty
    rw [Device.pushed_background_cpu cores subs.length threads d hn hdty, hct] at hp
    by_cases hge : cpu_threads ≥ 1
    · rw [if_pos hge] at hp
      cases hp
      exact ⟨hge, rfl, d, hd, hdty⟩
    · rw [if_neg hge] at hp
      cases hp
  refine ⟨_, Device.get_multi_device_eq ALL cores subs threads true hn, ?_, ?_, ?_⟩
  · constructor
    · rintro ⟨c, hc, hty⟩
      obtain ⟨hge, _, hex⟩ := hmem c hc hty
      exact ⟨hex, hge⟩
    · rintro ⟨⟨d, hd, hdty⟩, hge⟩
      refine ⟨{ d with cpu_threads := cpu_threads }, ?_, hdty⟩
      rw [Device.foldl_initial_multi_devices, List.mem_filterMap]
      refine ⟨d, hd, ?_⟩
      rw [Device.pushed_background_cpu cores subs.length threads d hn hdty, hct, if_pos hge]
  · intro c hc hty
    exact (hmem c hc hty).2.1
  · intro hle c hc hty
    have hge := (hmem c hc hty).1
    rw [hcpu] at hge
    omega

/-- Witness of the amended C2: four devices and `threads = 2`, where
`cpu_threads = max(2 - 3, 0) = 0` and the CPU is dropped. -/
theorem get_multi_device_cpu_child_witness :
    ([cpu_info, gpu_a, gpu_b, gpu_c].length > 1 ∧
      (2 : Int) = (if (2 : Int) ≠ 0 then 2 else 8) ∧
      (0 : Int) = Max.max ((2 : Int) - ((([cpu_info, gpu_a, gpu_b, gpu_c].length : Nat) : Int) - 1)) 0 ∧
      (-2147483648 : Int) ≤ 2 - ((([cpu_info, gpu_a, gpu_b, gpu_c].length : Nat) : Int) - 1) ∧
      (2 : Int) - ((([cpu_info, gpu_a, gpu_b, gpu_c].length : Nat) : Int) - 1) < 2147483648) ∧
    ∃ info,
      Device.get_multi_device 4294967295 8 [cpu_info, gpu_a, gpu_b, gpu_c] 2 true =
        some info ∧
      ((∃ c ∈ info.multi_devices, c.type = DEVICE_CPU) ↔
        ((∃ d ∈ [cpu_info, gpu_a, gpu_b, gpu_c], d.type = DEVICE_CPU) ∧ (0 : Int) ≥ 1)) ∧
      (∀ c ∈ info.multi_devices, c.type = DEVICE_CPU → c.cpu_threads = 0) ∧
      ((2 : Int) ≤ ((([cpu_info, gpu_a, gpu_b, gpu_c].length : Nat) : Int) - 1) →
        ∀ c ∈ info.multi_devices, c.type ≠ DEVICE_CPU) :=
  ⟨⟨by decide, by decide, by decide, by decide, by decide⟩,
    get_multi_device_cpu_child 4294967295 8 [cpu_info, gpu_a, gpu_b, gpu_c] 2 2 0
      (by decide) (by decide) (by decide) (by decide) (by decide)⟩

/-! ## The capability registry -/

/-- When no entry of `l₁` has kind `q` and no entry of `l₂` has kind `p`, every
entry of kind `p` of `l₁ ++ l₂` stands before every entry of kind `q`. -/
theorem allBefore_append (p q : DeviceType) (l₁ l₂ : List DeviceInfo)
    (h₁ : ∀ d ∈ l₁, d.type ≠ q) (h₂ : ∀ d ∈ l₂, d.type ≠ p) :
    AllBefore p q (l₁ ++ l₂) := by
  intro i j a b hi hj ha hb
  have hilt : i < l₁.length := by
    by_contra hge
    rw [List.getElem?_append_right (Nat.le_of_not_lt hge)] at hi
    exact h₂ a (List.getElem?_mem hi) ha
  have hjge : l₁.length ≤ j := by
    by_contra hlt
    rw [List.getElem?_append_left (Nat.lt_of_not_le hlt)] at hj
    exact h₁ b (List.getElem?_mem hj) hb
  omega

/-- What a rebuild of the descriptor list returns when each `device_*_info`
appends its entries to the list. -/
theorem available_devices_rebuild (opt : BuildOptions) (env : Backends) (r : Registry)
    (ocl cuda cpu net : List DeviceInfo)
    (hr : r.need_devices_update = true)
    (hocl : ∀ l, env.device_opencl_info l = l ++ ocl)
    (hcuda : ∀ l, env.device_cuda_info l = l ++ cuda)
    (hcpu : ∀ l, env.device_cpu_info l = l ++ cpu)
    (hnet : ∀ l, env.device_network_info l = l ++ net) :
    (Device.available_devices opt env r).value =
      (if opt.WITH_OPENCL ∧ env.device_opencl_init then ocl else []) ++
      (if opt.WITH_CUDA ∧ env.device_cuda_init then cuda else []) ++ cpu ++
      (if opt.WITH_NETWORK then net else []) := by
  unfold Device.available_devices
  simp only [hr, if_true, hocl, hcuda, hcpu, hnet]
  split_ifs <;> simp

/-- C11: after an invalidation (`tag_update` or `free_memory`), the next call of
`available_types` returns a list that contains `DEVICE_CPU`, whatever the two
GPU probes answer, and that contains `DEVICE_CUDA` (or `DEVICE_OPENCL`) exactly
when that backend is compiled in and its probe succeeds; the probe of a listed
GPU kind is called during this call. -/
theorem available_types_after_invalidation (opt : BuildOptions) (env : Backends)
    (r r' : Registry) (hinv : r' = Device.tag_update r ∨ r' = Device.free_memory r) :
    DEVICE_CPU ∈ (Device.available_types opt env r').value ∧
    (DEVICE_CUDA ∈ (Device.available_types opt env r').value ↔
      (opt.WITH_CUDA = true ∧ env.device_cuda_init = true)) ∧
    (DEVICE_CUDA ∈ (Device.available_types opt env r').value →
      BackendCall.device_cuda_init ∈ (Device.available_types opt env r').calls) ∧
    (DEVICE_OPENCL ∈ (Device.available_types opt env r').value ↔
      (opt.WITH_OPENCL = true ∧ env.device_opencl_init = true)) ∧
    (DEVICE_OPENCL ∈ (Device.available_types opt env r').value →
      BackendCall.device_opencl_init ∈ (Device.available_types opt env r').calls) := by
  have hdirty : r'.need_types_update = true := by
    rcases hinv with h | h <;> rw [h] <;> rfl
  unfold Device.available_types
  simp only [hdirty, if_true]
  cases hc : opt.WITH_CUDA <;> cases hci : env.device_cuda_init <;>
    cases ho : opt.WITH_OPENCL <;> cases hoi : env.device_opencl_init <;>
    cases hn : opt.WITH_NETWORK <;> simp

/-- Witness of C11: a registry that lists CUDA is invalidated, and both GPU
probes fail at the next call. -/
theorem available_types_after_invalidation_witness :
    (Device.tag_update
        (Device.available_types all_options example_backends Registry.initial).registry =
      Device.tag_update
        (Device.available_types all_options example_backends Registry.initial).registry ∨
     Device.tag_update
        (Device.available_types all_options example_backends Registry.initial).registry =
      Device.free_memory
        (Device.available_types all_options example_backends Registry.initial).registry) ∧
    (DEVICE_CPU ∈ (Device.available_types all_options failing_backends
        (Device.tag_update
          (Device.available_types all_options example_backends
            Registry.initial).registry)).value ∧
     DEVICE_CUDA ∉ (Device.available_types all_options failing_backends
        (Device.tag_update
          (Device.available_types all_options example_backends
            Registry.initial).registry)).value) :=
  ⟨Or.inl rfl,
    (available_types_after_invalidation all_options failing_backends
      (Device.available_types all_options example_backends Registry.initial).registry
      _ (Or.inl rfl)).1,
    fun h => absurd ((available_types_after_invalidation all_options failing_backends
      (Device.available_types all_options example_backends Registry.initial).registry
      _ (Or.inl rfl)).2.1.mp h).2 (by decide)⟩

/-- C12: of two consecutive calls of `available_types` with no invalidation
between them, the second returns the same sequence as the first, even when the
backends answer differently at the second call; the second call calls no
probe and leaves the registry as it is. -/
theorem available_types_cache_stable (opt : BuildOptions) (env₁ env₂ : Backends)
    (r : Registry) :
    (Device.available_types opt env₂ (Device.available_types opt env₁ r).registry).value =
      (Device.available_types opt env₁ r).value ∧
    (Device.available_types opt env₂ (Device.available_types opt env₁ r).registry).calls =
      [] ∧
    (Device.available_types opt env₂ (Device.available_types opt env₁ r).registry).registry =
      (Device.available_types opt env₁ r).registry := by
  have hclean : (Device.available_types opt env₁ r).registry.need_types_update = false := by
    unfold Device.available_types
    cases h : r.need_types_update <;> simp [h]
  have hval : (Device.available_types opt env₁ r).registry.types =
      (Device.available_types opt env₁ r).value := by
    unfold Device.available_types
    cases h : r.need_types_update <;> simp
  have hsecond : Device.available_types opt env₂ (Device.available_types opt env₁ r).registry =
      { value := (Device.available_types opt env₁ r).registry.types
        registry := (Device.available_types opt env₁ r).registry
        calls := [] } := by
    generalize (Device.available_types opt env₁ r).registry = r₁ at hclean
    unfold Device.available_types
    simp [hclean]
  rw [hsecond]
  exact ⟨hval, rfl, rfl⟩

/-- C13, as stated, fails: with every backend compiled in, both probes
succeeding and each `device_*_info` appending one descriptor of its kind, a
rebuild gives the OpenCL entry, then the CUDA entry, then the CPU entry, then
the network entry, so not every CUDA entry stands before every OpenCL entry. -/
theorem available_devices_order_counterexample :
    (Device.available_devices all_options example_backends Registry.initial).value =
      [gpu_b, gpu_a, cpu_info, network_info] ∧
    ¬ AllBefore DEVICE_CUDA DEVICE_OPENCL
      (Device.available_devices all_options example_backends Registry.initial).value := by
  have hv : (Device.available_devices all_options example_backends Registry.initial).value =
      [gpu_b, gpu_a, cpu_info, network_info] := rfl
  refine ⟨hv, ?_⟩
  intro h
  have := h 1 0 gpu_a gpu_b (by rw [hv]; rfl) (by rw [hv]; rfl) rfl rfl
  omega

/-- C13, amended: on a rebuild, when each `device_*_info` appends entries of
its own kind to the list, `available_devices` fills the list in the order
OpenCL entries, CUDA entries, CPU entries, network entries: every OpenCL entry
stands before every CUDA entry, which stands before every CPU entry, which
stands before every network entry. -/
theorem available_devices_order (opt : BuildOptions) (env : Backends) (r : Registry)
    (ocl cuda cpu net : List DeviceInfo)
    (hr : r.need_devices_update = true)
    (hocl : ∀ l, env.device_opencl_info l = l ++ ocl)
    (hcuda : ∀ l, env.device_cuda_info l = l ++ cuda)
    (hcpu : ∀ l, env.device_cpu_info l = l ++ cpu)
    (hnet : ∀ l, env.device_network_info l = l ++ net)
    (kocl : ∀ d ∈ ocl, d.type = DEVICE_OPENCL)
    (kcuda : ∀ d ∈ cuda, d.type = DEVICE_CUDA)
    (kcpu : ∀ d ∈ cpu, d.type = DEVICE_CPU)
    (knet : ∀ d ∈ net, d.type = DEVICE_NETWORK) :
    AllBefore DEVICE_OPENCL DEVICE_CUDA (Device.available_devices opt env r).value ∧
    AllBefore DEVICE_OPENCL DEVICE_CPU (Device.available_devices opt env r).value ∧
    AllBefore DEVICE_OPENCL DEVICE_NETWORK (Device.available_devices opt env r).value ∧
    AllBefore DEVICE_CUDA DEVICE_CPU (Device.available_devices opt env r).value ∧
    AllBefore DEVICE_CUDA DEVICE_NETWORK (Device.available_devices opt env r).value ∧
    AllBefore DEVICE_CPU DEVICE_NETWORK (Device.available_devices opt env r).value := by
  rw [available_devices_rebuild opt env r ocl cuda cpu net hr hocl hcuda hcpu hnet]
  have mocl : ∀ d ∈ (if opt.WITH_OPENCL ∧ env.device_opencl_init then ocl else []),
      d.type = DEVICE_OPENCL := by
    intro d hd
    split_ifs at hd
    · exact kocl d hd
    · simp at hd
  have mcuda : ∀ d ∈ (if opt.WITH_CUDA ∧ env.device_cuda_init then cuda else []),
      d.type = DEVICE_CUDA := by
    intro d hd
    split_ifs at hd
    · exact kcuda d hd
    · simp at hd
  have mnet : ∀ d ∈ (if opt.WITH_NETWORK then net else []), d.type = DEVICE_NETWORK := by
    intro d hd
    split_ifs at hd
    · exact knet d hd
    · simp at hd
  generalize (if opt.WITH_OPENCL ∧ env.device_opencl_init then ocl else []) = O at mocl
  generalize (if opt.WITH_CUDA ∧ env.device_cuda_init then cuda else []) = C at mcuda
  generalize (if opt.WITH_NETWORK then net else []) = N at mnet
  have key : ∀ (p q : DeviceType) (l₁ l₂ : List DeviceInfo), l₁ ++ l₂ = O ++ C ++ cpu ++ N →
      (∀ d ∈ l₁, d.type ≠ q) → (∀ d ∈ l₂, d.type ≠ p) →
      AllBefore p q (O ++ C ++ cpu ++ N) := by
    intro p q l₁ l₂ he h₁ h₂
    rw [← he]
    exact allBefore_append p q l₁ l₂ h₁ h₂
  refine ⟨?_, ?_, ?_, ?_, ?_, ?_⟩
  · apply key _ _ O (C ++ cpu ++ N) (by simp)
    · intro d hd; rw [mocl d hd]; decide
    · intro d hd
      simp only [List.mem_append] at hd
      rcases hd with (hd | hd) | hd
      · rw [mcuda d hd]; decide
      · rw [kcpu d hd]; decide
      · rw [mnet d hd]; decide
  · apply key _ _ (O ++ C) (cpu ++ N) (by simp)
    · intro d hd
      simp only [List.mem_append] at hd
      rcases hd with hd | hd
      · rw [mocl d hd]; decide
      · rw [mcuda d hd]; decide
    · intro d hd
      simp only [List.mem_append] at hd
      rcases hd with hd | hd
      · rw [kcpu d hd]; decide
      · rw [mnet d hd]; decide
  · apply key _ _ (O ++ C ++ cpu) N (by simp)
    · intro d hd
      simp only [List.mem_append] at hd
      rcases hd with (hd | hd) | hd
      · rw [mocl d hd]; decide
      · rw [mcuda d hd]; decide
      · rw [kcpu d hd]; decide
    · intro d hd; rw [mnet d hd]; decide
  · apply key _ _ (O ++ C) (cpu ++ N) (by simp)
    · intro d hd
      simp only [List.mem_append] at hd
      rcases hd with hd | hd
      · rw [mocl d hd]; decide
      · rw [mcuda d hd]; decide
    · intro d hd
      simp only [List.mem_append] at hd
      rcases hd with hd | hd
      · rw [kcpu d hd]; decide
      · rw [mnet d hd]; decide
  · apply key _ _ (O ++ C ++ cpu) N (by simp)
    · intro d hd
      simp only [List.mem_append] at hd
      rcases hd with (hd | hd) | hd
      · rw [mocl d hd]; decide
      · rw [mcuda d hd]; decide
      · rw [kcpu d hd]; decide
    · intro d hd; rw [mnet d hd]; decide
  · apply key _ _ (O ++ C ++ cpu) N (by simp)
    · intro d hd
      simp only [List.mem_append] at hd
      rcases hd with (hd | hd) | hd
      · rw [mocl d hd]; decide
      · rw [mcuda d hd]; decide
      · rw [kcpu d hd]; decide
    · intro d hd; rw [mnet d hd]; decide

/-- Witness of the amended C13: every backend compiled in and available, one
descriptor for each. -/
theorem available_devices_order_witness :
    (Registry.initial.need_devices_update = true ∧
      (∀ l, example_backends.device_opencl_info l = l ++ [gpu_b]) ∧
      (∀ l, example_backends.device_cuda_info l = l ++ [gpu_a]) ∧
      (∀ l, example_backends.device_cpu_info l = l ++ [cpu_info]) ∧
      (∀ l, example_backends.device_network_info l = l ++ [network_info]) ∧
      (∀ d ∈ [gpu_b], d.type = DEVICE_OPENCL) ∧
      (∀ d ∈ [gpu_a], d.type = DEVICE_CUDA) ∧
      (∀ d ∈ [cpu_info], d.type = DEVICE_CPU) ∧
      (∀ d ∈ [network_info], d.type = DEVICE_NETWORK)) ∧
    (AllBefore DEVICE_OPENCL DEVICE_CUDA
        (Device.available_devices all_options example_backends Registry.initial).value ∧
      AllBefore DEVICE_OPENCL DEVICE_CPU
        (Device.available_devices all_options example_backends Registry.initial).value ∧
      AllBefore DEVICE_OPENCL DEVICE_NETWORK
        (Device.available_devices all_options example_backends Registry.initial).value ∧
      AllBefore DEVICE_CUDA DEVICE_CPU
        (Device.available_devices all_options example_backends Registry.initial).value ∧
      AllBefore DEVICE_CUDA DEVICE_NETWORK
        (Device.available_devices all_options example_backends Registry.initial).value ∧
      AllBefore DEVICE_CPU DEVICE_NETWORK
        (Device.available_devices all_options example_backends Registry.initial).value) :=
  ⟨⟨rfl, fun _ => rfl, fun _ => rfl, fun _ => rfl, fun _ => rfl,
      by decide, by decide, by decide, by decide⟩,
    available_devices_order all_options example_backends Registry.initial
      [gpu_b] [gpu_a] [cpu_info] [network_info] rfl (fun _ => rfl) (fun _ => rfl)
      (fun _ => rfl) (fun _ => rfl) (by decide) (by decide) (by decide) (by decide)⟩

/-- C14, as stated, fails for `tag_update`: on the registry left by a call of
`available_types` and a call of `available_devices`, `tag_update` leaves both
cached lists filled. -/
theorem invalidate_counterexample :
    (Device.tag_update
      (Device.available_devices all_options example_backends
        (Device.available_types all_options example_backends
          Registry.initial).registry).registry).types =
      [DEVICE_CPU, DEVICE_CUDA, DEVICE_OPENCL, DEVICE_NETWORK] ∧
    (Device.tag_update
      (Device.available_devices all_options example_backends
        (Device.available_types all_options example_backends
          Registry.initial).registry).registry).devices =
      [gpu_b, gpu_a, cpu_info, network_info] :=
  ⟨rfl, rfl⟩

/-- C14, amended: for every prior registry state, `free_memory` sets
`need_types_update` and `need_devices_update` and empties both cached lists,
and `tag_update` sets the two flags and leaves the two cached lists as they
are. -/
theorem invalidate_flags_and_entries :
    (∀ r : Registry,
      (Device.free_memory r).need_types_update = true ∧
      (Device.free_memory r).need_devices_update = true ∧
      (Device.free_memory r).types = [] ∧
      (Device.free_memory r).devices = []) ∧
    (∀ r : Registry,
      (Device.tag_update r).need_types_update = true ∧
      (Device.tag_update r).need_devices_update = true ∧
      (Device.tag_update r).types = r.types ∧
      (Device.tag_update r).devices = r.devices) :=
  ⟨fun _ => ⟨rfl, rfl, rfl, rfl⟩, fun _ => ⟨rfl, rfl, rfl, rfl⟩⟩

/-- C15: `create` chooses its branch by `info.type` alone, and for a descriptor
of kind `DEVICE_NONE`, or of a kind whose case is compiled out, it returns the
null pointer and calls no backend function. -/
theorem create_disabled_kind :
    (∀ (opt : BuildOptions) (env : Backends) (info : DeviceInfo) (stats : Stats)
        (background : Bool),
      (info.type = DEVICE_NONE ∨
        (info.type = DEVICE_CUDA ∧ opt.WITH_CUDA = false) ∨
        (info.type = DEVICE_MULTI ∧ opt.WITH_MULTI = false) ∨
        (info.type = DEVICE_NETWORK ∧ opt.WITH_NETWORK = false) ∨
        (info.type = DEVICE_OPENCL ∧ opt.WITH_OPENCL = false)) →
      Device.create opt env info stats background = (none, [])) ∧
    (∀ (opt : BuildOptions) (env : Backends) (info₁ info₂ : DeviceInfo)
        (stats₁ stats₂ : Stats) (bg₁ bg₂ : Bool),
      info₁.type = info₂.type →
      (Device.create opt env info₁ stats₁ bg₁).2 =
        (Device.create opt env info₂ stats₂ bg₂).2) := by
  constructor
  · intro opt env info stats background h
    unfold Device.create
    rcases h with h | ⟨h, ho⟩ | ⟨h, ho⟩ | ⟨h, ho⟩ | ⟨h, ho⟩
    · simp [h]
    · simp [h, ho]
    · simp [h, ho]
    · simp [h, ho]
    · simp [h, ho]
  · intro opt env info₁ info₂ stats₁ stats₂ bg₁ bg₂ h
    unfold Device.create
    rw [h]
    cases info₂.type <;> simp <;> split_ifs <;> rfl

/-- Witness of C15: a descriptor of kind `DEVICE_NONE`, and two descriptors of
the same kind. -/
theorem create_disabled_kind_witness :
    (({ gpu_a with type := DEVICE_NONE } : DeviceInfo).type = DEVICE_NONE ∧
      Device.create all_options example_backends { gpu_a with type := DEVICE_NONE }
        ⟨0⟩ false = (none, [])) ∧
    (gpu_a.type = gpu_c.type ∧
      (Device.create all_options example_backends gpu_a ⟨0⟩ false).2 =
        (Device.create all_options example_backends gpu_c ⟨1⟩ true).2) :=
  ⟨⟨rfl, create_disabled_kind.1 all_options example_backends
      { gpu_a with type := DEVICE_NONE } ⟨0⟩ false (Or.inl rfl)⟩,
    ⟨rfl, create_disabled_kind.2 all_options example_backends gpu_a gpu_c ⟨0⟩ ⟨1⟩
      false true rfl⟩⟩

/-- C16: for a descriptor of kind CUDA, or OpenCL, whose backend is compiled in,
`create` first calls the initialization probe of the backend; when the probe
fails it returns the null pointer and does not call the constructor, and when
it succeeds it calls the constructor next and returns what the constructor
returns. The registry is not consulted, so this holds whatever an earlier
`available_types` reported. -/
theorem create_gpu_reprobe (opt : BuildOptions) (env : Backends) (info : DeviceInfo)
    (stats : Stats) (background : Bool) :
    (info.type = DEVICE_CUDA → opt.WITH_CUDA = true →
      (env.device_cuda_init = false →
        Device.create opt env info stats background =
          (none, [BackendCall.device_cuda_init])) ∧
      (env.device_cuda_init = true →
        Device.create opt env info stats background =
          (env.device_cuda_create info stats background,
            [BackendCall.device_cuda_init, BackendCall.device_cuda_create]))) ∧
    (info.type = DEVICE_OPENCL → opt.WITH_OPENCL = true →
      (env.device_opencl_init = false →
        Device.create opt env info stats background =
          (none, [BackendCall.device_opencl_init])) ∧
      (env.device_opencl_init = true →
        Device.create opt env info stats background =
          (env.device_opencl_create info stats background,
            [BackendCall.device_opencl_init, BackendCall.device_opencl_create]))) := by
  constructor
  · intro h ho
    constructor <;> intro hp <;> simp [Device.create, h, ho, hp]
  · intro h ho
    constructor <;> intro hp <;> simp [Device.create, h, ho, hp]

/-- Witness of C16: CUDA is listed by `available_types` while its probe
succeeds; at the time of `create` the probe fails and the result is the null
pointer, with the probe as the only backend call. -/
theorem create_gpu_reprobe_witness :
    DEVICE_CUDA ∈
      (Device.available_types all_options example_backends Registry.initial).value ∧
    gpu_a.type = DEVICE_CUDA ∧ all_options.WITH_CUDA = true ∧
    failing_backends.device_cuda_init = false ∧
    Device.create all_options failing_backends gpu_a ⟨0⟩ false =
      (none, [BackendCall.device_cuda_init]) ∧
    example_backends.device_cuda_init = true ∧
    Device.create all_options example_backends gpu_a ⟨0⟩ false =
      (example_backends.device_cuda_create gpu_a ⟨0⟩ false,
        [BackendCall.device_cuda_init, BackendCall.device_cuda_create]) :=
  ⟨by decide, rfl, rfl, rfl,
    ((create_gpu_reprobe all_options failing_backends gpu_a ⟨0⟩ false).1 rfl rfl).1 rfl,
    rfl,
    ((create_gpu_reprobe all_options example_backends gpu_a ⟨0⟩ false).1 rfl rfl).2 rfl⟩

/-! ## The presentation fallback pipeline -/

open FallbackStatus

theorem compile_shaders_no_entry (env : GLEnv) (program : Nat)
    (l : List (String × GLenum)) :
    Event.bind_fallback_shader ∉ (compile_shaders env program l).2 := by
  induction l with
  | nil => simp [compile_shaders]
  | cons x xs ih =>
    obtain ⟨source, type⟩ := x
    unfold compile_shaders
    by_cases h : env.compile_status type = 0
    · simp [h]
    · simp [h, ih]

/-- One call of `bind_fallback_shader` records one entry into it. -/
theorem bind_fallback_shader_count (env : GLEnv) :
    (bind_fallback_shader env).2.count Event.bind_fallback_shader = 1 := by
  have h := compile_shaders_no_entry env env.glCreateProgram
    [(FALLBACK_VERTEX_SHADER, GLenum.GL_VERTEX_SHADER),
      (FALLBACK_FRAGMENT_SHADER, GLenum.GL_FRAGMENT_SHADER)]
  have h0 := List.count_eq_zero_of_not_mem h
  unfold bind_fallback_shader
  simp only []
  split_ifs <;> simp [List.count_append, List.count_cons, h0]

namespace Device

/-- The status after the block that builds the fallback program, and the
number of entries into `bind_fallback_shader` it records. -/
theorem build_fallback_status (env : GLEnv) (self : Device) :
    ((build_fallback env self).1 = false →
      (build_fallback env self).2.1.fallback_status = FALLBACK_SHADER_STATUS_ERROR) ∧
    ((build_fallback env self).1 = true →
      (build_fallback env self).2.1.fallback_status = FALLBACK_SHADER_STATUS_SUCCESS) ∧
    (build_fallback env self).2.2.count Event.bind_fallback_shader = 1 := by
  have hc := bind_fallback_shader_count env
  unfold build_fallback
  simp only []
  split_ifs <;> simp [List.count_append, List.count_cons, hc]

/-- The block succeeds exactly when the program is not 0 and both uniforms are
found. -/
theorem build_fallback_ok (env : GLEnv) (self : Device) :
    (build_fallback env self).1 = true ↔
      ((bind_fallback_shader env).1 ≠ 0 ∧
        0 ≤ env.glGetUniformLocation (bind_fallback_shader env).1 "image_texture" ∧
        0 ≤ env.glGetUniformLocation (bind_fallback_shader env).1 "fullscreen") := by
  unfold build_fallback
  simp only []
  split_ifs with h1 h2 h3 <;> simp_all

theorem bind_fallback_of_error (env : GLEnv) (self : Device) (width height : float)
    (h : self.fallback_status = FALLBACK_SHADER_STATUS_ERROR) :
    bind_fallback_display_space_shader env self width height =
      (false, self, [Event.bind_fallback_display_space_shader]) := by
  simp [bind_fallback_display_space_shader, h]

theorem bind_fallback_of_none (env : GLEnv) (self : Device) (width height : float)
    (h : self.fallback_status = FALLBACK_SHADER_STATUS_NONE) :
    bind_fallback_display_space_shader env self width height =
      if (build_fallback env self).1 = false then
        (false, (build_fallback env self).2.1,
          [Event.bind_fallback_display_space_shader] ++ (build_fallback env self).2.2)
      else
        (true, (build_fallback env self).2.1,
          [Event.bind_fallback_display_space_shader] ++ (build_fallback env self).2.2 ++
            [.gl (.glUseProgram (build_fallback env self).2.1.fallback_shader_program),
              .gl (.glUniform1i (build_fallback env self).2.1.image_texture_location 0),
              .gl (.glUniform2f (build_fallback env self).2.1.fullscreen_location
                width height)]) := by
  simp [bind_fallback_display_space_shader, h]

theorem bind_fallback_of_success (env : GLEnv) (self : Device) (width height : float)
    (h : self.fallback_status = FALLBACK_SHADER_STATUS_SUCCESS) :
    bind_fallback_display_space_shader env self width height =
      (true, self,
        [Event.bind_fallback_display_space_shader,
          .gl (.glUseProgram self.fallback_shader_program),
          .gl (.glUniform1i self.image_texture_location 0),
          .gl (.glUniform2f self.fullscreen_location width height)]) := by
  simp [bind_fallback_display_space_shader, h]

/-- From the status `ERROR`, every call of a sequence returns `false`, the
object stays as it is and `bind_fallback_shader` is not entered. -/
theorem bind_fallback_calls_of_error (self : Device)
    (calls : List (GLEnv × float × float))
    (h : self.fallback_status = FALLBACK_SHADER_STATUS_ERROR) :
    (∀ b ∈ (bind_fallback_calls self calls).1, b = false) ∧
      (bind_fallback_calls self calls).2.1 = self ∧
      (bind_fallback_calls self calls).2.2.count Event.bind_fallback_shader = 0 ∧
      (∀ e ∈ (bind_fallback_calls self calls).2.2,
        e = Event.bind_fallback_display_space_shader) := by
  induction calls with
  | nil => simp [bind_fallback_calls]
  | cons c rest ih =>
    obtain ⟨env, width, height⟩ := c
    unfold bind_fallback_calls
    simp only [bind_fallback_of_error env self width height h]
    obtain ⟨h1, h2, h3, h4⟩ := ih
    refine ⟨?_, h2, ?_, ?_⟩
    · intro b hb
      simp only [List.mem_cons] at hb
      rcases hb with hb | hb
      · exact hb
      · exact h1 b hb
    · simp [List.count_cons, h3]
    · intro e he
      simp only [List.singleton_append, List.mem_cons] at he
      rcases he with he | he
      · exact he
      · exact h4 e he

end Device

/-- C17: once `fallback_status` is `FALLBACK_SHADER_STATUS_ERROR`, a call of
`bind_fallback_display_space_shader` returns `false`, leaves the object
(and so the status) as it is, and does nothing but enter the function: no
OpenGL call, no entry into `bind_fallback_shader`. Hence, for a sequence of
one or more calls from the status `NONE` whose first call fails, every call
returns `false` and `bind_fallback_shader` is entered exactly once. -/
theorem fallback_error_sticky :
    (∀ (env : GLEnv) (self : Device) (width height : float),
      self.fallback_status = FALLBACK_SHADER_STATUS_ERROR →
      Device.bind_fallback_display_space_shader env self width height =
        (false, self, [Event.bind_fallback_display_space_shader])) ∧
    (∀ (self : Device) (first : GLEnv × float × float)
        (rest : List (GLEnv × float × float)),
      self.fallback_status = FALLBACK_SHADER_STATUS_NONE →
      (Device.bind_fallback_display_space_shader first.1 self first.2.1 first.2.2).1 =
        false →
      (Device.bind_fallback_calls self (first :: rest)).1.length = rest.length + 1 ∧
      (∀ b ∈ (Device.bind_fallback_calls self (first :: rest)).1, b = false) ∧
      (Device.bind_fallback_calls self (first :: rest)).2.1.fallback_status =
        FALLBACK_SHADER_STATUS_ERROR ∧
      (Device.bind_fallback_calls self (first :: rest)).2.2.count
        Event.bind_fallback_shader = 1) := by
  constructor
  · intro env self width height h
    exact Device.bind_fallback_of_error env self width height h
  · intro self first rest hnone hfail
    obtain ⟨env, width, height⟩ := first
    simp only at hfail
    have hcall := Device.bind_fallback_of_none env self width height hnone
    have hb : (Device.build_fallback env self).1 = false := by
      by_contra hne
      rw [hcall, if_neg hne] at hfail
      exact absurd hfail (by simp)
    rw [if_pos hb] at hcall
    obtain ⟨hst, _, hcount⟩ := Device.build_fallback_status env self
    obtain ⟨h1, h2, h3, _⟩ :=
      Device.bind_fallback_calls_of_error (Device.build_fallback env self).2.1 rest (hst hb)
    have hlen : ∀ (d : Device) (l : List (GLEnv × float × float)),
        (Device.bind_fallback_calls d l).1.length = l.length := by
      intro d l
      induction l generalizing d with
      | nil => rfl
      | cons c cs ih =>
        obtain ⟨e, w, h⟩ := c
        simp [Device.bind_fallback_calls, ih]
    unfold Device.bind_fallback_calls
    simp only [hcall]
    refine ⟨by simp [hlen], ?_, ?_, ?_⟩
    · intro b hb'
      simp only [List.mem_cons] at hb'
      rcases hb' with hb' | hb'
      · exact hb'
      · exact h1 b hb'
    · rw [h2]
      exact hst hb
    · simp [List.count_append, List.count_cons, hcount, h3]

/-- Witness of C17: three calls on a fresh object, on an OpenGL whose fragment
shader does not compile at the first call and that works afterwards. -/
theorem fallback_error_sticky_witness :
    (({ fresh_device with fallback_status := FALLBACK_SHADER_STATUS_ERROR } :
        Device).fallback_status = FALLBACK_SHADER_STATUS_ERROR ∧
      Device.bind_fallback_display_space_shader working_gl
        { fresh_device with fallback_status := FALLBACK_SHADER_STATUS_ERROR }
        (float.ofInt 640) (float.ofInt 480) =
        (false, { fresh_device with fallback_status := FALLBACK_SHADER_STATUS_ERROR },
          [Event.bind_fallback_display_space_shader])) ∧
    (fresh_device.fallback_status = FALLBACK_SHADER_STATUS_NONE ∧
      (Device.bind_fallback_display_space_shader broken_gl fresh_device
        (float.ofInt 640) (float.ofInt 480)).1 = false ∧
      (Device.bind_fallback_calls fresh_device
        [(broken_gl, float.ofInt 640, float.ofInt 480),
          (working_gl, float.ofInt 640, float.ofInt 480),
          (working_gl, float.ofInt 320, float.ofInt 240)]).1 = [false, false, false] ∧
      (Device.bind_fallback_calls fresh_device
        [(broken_gl, float.ofInt 640, float.ofInt 480),
          (working_gl, float.ofInt 640, float.ofInt 480),
          (working_gl, float.ofInt 320, float.ofInt 240)]).2.2.count
        Event.bind_fallback_shader = 1) :=
  ⟨⟨rfl, fallback_error_sticky.1 working_gl
      { fresh_device with fallback_status := FALLBACK_SHADER_STATUS_ERROR }
      (float.ofInt 640) (float.ofInt 480) rfl⟩,
    rfl, by decide, by decide,
    (fallback_error_sticky.2 fresh_device (broken_gl, float.ofInt 640, float.ofInt 480)
      [(working_gl, float.ofInt 640, float.ofInt 480),
        (working_gl, float.ofInt 320, float.ofInt 240)] rfl (by decide)).2.2.2⟩

/-- C18: from the status `NONE`, one call of
`bind_fallback_display_space_shader` returns `true` and ends in `SUCCESS`
when `bind_fallback_shader` returns a program that is not 0 and the lookups of
"image_texture" and "fullscreen" both give a location that is not negative;
in every other case it returns `false` and ends in `ERROR`. A shader that does
not compile, or a program that does not link, makes `bind_fallback_shader`
return 0. -/
theorem fallback_build_outcome (env : GLEnv) (self : Device) (width height : float)
    (hnone : self.fallback_status = FALLBACK_SHADER_STATUS_NONE) :
    ((Device.bind_fallback_display_space_shader env self width height).1 = true ∧
        (Device.bind_fallback_display_space_shader env self width height).2.1.fallback_status
          = FALLBACK_SHADER_STATUS_SUCCESS ↔
      ((bind_fallback_shader env).1 ≠ 0 ∧
        0 ≤ env.glGetUniformLocation (bind_fallback_shader env).1 "image_texture" ∧
        0 ≤ env.glGetUniformLocation (bind_fallback_shader env).1 "fullscreen")) ∧
    (¬ ((bind_fallback_shader env).1 ≠ 0 ∧
        0 ≤ env.glGetUniformLocation (bind_fallback_shader env).1 "image_texture" ∧
        0 ≤ env.glGetUniformLocation (bind_fallback_shader env).1 "fullscreen") →
      (Device.bind_fallback_display_space_shader env self width height).1 = false ∧
        (Device.bind_fallback_display_space_shader env self width height).2.1.fallback_status
          = FALLBACK_SHADER_STATUS_ERROR) ∧
    ((env.compile_status GLenum.GL_VERTEX_SHADER = 0 ∨
        env.compile_status GLenum.GL_FRAGMENT_SHADER = 0 ∨ env.link_status = 0) →
      (bind_fallback_shader env).1 = 0) := by
  have hcall := Device.bind_fallback_of_none env self width height hnone
  have hok := Device.build_fallback_ok env self
  obtain ⟨hE, hS, _⟩ := Device.build_fallback_status env self
  refine ⟨?_, ?_, ?_⟩
  · rw [← hok]
    constructor
    · rintro ⟨hr, _⟩
      by_contra hne
      have hb : (Device.build_fallback env self).1 = false := by simpa using hne
      rw [hcall, if_pos hb] at hr
      exact absurd hr (by simp)
    · intro hb
      have hnb : ¬ (Device.build_fallback env self).1 = false := by simp [hb]
      rw [hcall, if_neg hnb]
      exact ⟨rfl, hS hb⟩
  · intro hnot
    rw [← hok] at hnot
    have hb : (Device.build_fallback env self).1 = false := by simpa using hnot
    rw [hcall, if_pos hb]
    exact ⟨rfl, hE hb⟩
  · intro h
    unfold bind_fallback_shader
    simp only [compile_shaders]
    rcases h with h | h | h
    · simp [h]
    · by_cases hv : env.compile_status GLenum.GL_VERTEX_SHADER = 0
      · simp [hv]
      · simp [hv, h]
    · by_cases hv : env.compile_status GLenum.GL_VERTEX_SHADER = 0
      · simp [hv]
      · by_cases hf : env.compile_status GLenum.GL_FRAGMENT_SHADER = 0
        · simp [hv, hf]
        · simp [hv, hf, h]

/-- Witness of C18: on a working OpenGL the first call on a fresh object
returns `true` and ends in `SUCCESS`. -/
theorem fallback_build_outcome_witness :
    fresh_device.fallback_status = FALLBACK_SHADER_STATUS_NONE ∧
    (Device.bind_fallback_display_space_shader working_gl fresh_device
        (float.ofInt 640) (float.ofInt 480)).1 = true ∧
    (Device.bind_fallback_display_space_shader working_gl fresh_device
        (float.ofInt 640) (float.ofInt 480)).2.1.fallback_status =
      FALLBACK_SHADER_STATUS_SUCCESS :=
  ⟨rfl,
    ((fallback_build_outcome working_gl fresh_device (float.ofInt 640) (float.ofInt 480)
      rfl).1.mpr ⟨by decide, by decide, by decide⟩).1,
    ((fallback_build_outcome working_gl fresh_device (float.ofInt 640) (float.ofInt 480)
      rfl).1.mpr ⟨by decide, by decide, by decide⟩).2⟩

/-- C19: every call of `bind_fallback_display_space_shader(width, height)` that
returns `true` ends with `glUseProgram` on the fallback program, `glUniform1i`
of the sampler location to 0 and `glUniform2f` of the viewport location to
`(width, height)` of this call; when the program was built by an earlier call
these are the only OpenGL calls. -/
theorem fallback_bind_every_call (env : GLEnv) (self : Device) (width height : float) :
    ((Device.bind_fallback_display_space_shader env self width height).1 = true →
      ∃ before : List Event,
        (Device.bind_fallback_display_space_shader env self width height).2.2 =
          before ++
            [.gl (.glUseProgram (Device.bind_fallback_display_space_shader env self
                width height).2.1.fallback_shader_program),
              .gl (.glUniform1i (Device.bind_fallback_display_space_shader env self
                width height).2.1.image_texture_location 0),
              .gl (.glUniform2f (Device.bind_fallback_display_space_shader env self
                width height).2.1.fullscreen_location width height)]) ∧
    (self.fallback_status = FALLBACK_SHADER_STATUS_SUCCESS →
      Device.bind_fallback_display_space_shader env self width height =
        (true, self,
          [Event.bind_fallback_display_space_shader,
            .gl (.glUseProgram self.fallback_shader_program),
            .gl (.glUniform1i self.image_texture_location 0),
            .gl (.glUniform2f self.fullscreen_location width height)])) := by
  constructor
  · intro htrue
    cases hs : self.fallback_status with
    | FALLBACK_SHADER_STATUS_ERROR =>
      rw [Device.bind_fallback_of_error env self width height hs] at htrue
      exact absurd htrue (by simp)
    | FALLBACK_SHADER_STATUS_SUCCESS =>
      rw [Device.bind_fallback_of_success env self width height hs]
      exact ⟨[Event.bind_fallback_display_space_shader], rfl⟩
    | FALLBACK_SHADER_STATUS_NONE =>
      have hcall := Device.bind_fallback_of_none env self width height hs
      by_cases hb : (Device.build_fallback env self).1 = false
      · rw [hcall, if_pos hb] at htrue
        exact absurd htrue (by simp)
      · rw [hcall, if_neg hb]
        exact ⟨[Event.bind_fallback_display_space_shader] ++
          (Device.build_fallback env self).2.2, rfl⟩
  · intro hs
    exact Device.bind_fallback_of_success env self width height hs

/-- Witness of C19: a second call with another size on an object whose program
was built by a first call. -/
theorem fallback_bind_every_call_witness :
    (Device.bind_fallback_display_space_shader working_gl fresh_device
      (float.ofInt 640) (float.ofInt 480)).2.1.fallback_status =
      FALLBACK_SHADER_STATUS_SUCCESS ∧
    (Device.bind_fallback_display_space_shader working_gl
      (Device.bind_fallback_display_space_shader working_gl fresh_device
        (float.ofInt 640) (float.ofInt 480)).2.1
      (float.ofInt 320) (float.ofInt 240)).2.2 =
      [Event.bind_fallback_display_space_shader, .gl (.glUseProgram 3),
        .gl (.glUniform1i 0 0),
        .gl (.glUniform2f 1 (float.ofInt 320) (float.ofInt 240))] :=
  ⟨by decide,
    congrArg (fun r => r.2.2)
      ((fallback_bind_every_call working_gl
        (Device.bind_fallback_display_space_shader working_gl fresh_device
          (float.ofInt 640) (float.ofInt 480)).2.1
        (float.ofInt 320) (float.ofInt 240)).2 (by decide))⟩

/-! ## Drawing with the host callbacks -/

/-- Five events stand out in a call of `draw_pixels`: the two entries
into the fallback code, the two host callbacks and the draw call. None of the
five segments of plain OpenGL calls holds one of them. -/
theorem segments_plain (env : GLEnv) (self : Device) (rgba : device_memory)
    (texid vertex_buffer : Nat) (shader_program : Int) (y w h width height dx dy : Int)
    (transparent : Bool) (x : Event)
    (hx : x = Event.bind_fallback_display_space_shader ∨ x = Event.bind_fallback_shader ∨
      x = Event.bind_display_space_shader_cb ∨ x = Event.unbind_display_space_shader_cb ∨
      x = Event.gl (.glDrawArrays GLenum.GL_TRIANGLE_FAN 0 4)) :
    x ∉ Device.upload_events texid rgba y w h ∧
    x ∉ Device.blend_events transparent ∧
    x ∉ Device.buffer_events env self vertex_buffer width height dx dy ∧
    x ∉ Device.attribute_events env shader_program ∧
    x ∉ Device.finish_events texid transparent := by
  refine ⟨?_, ?_, ?_, ?_, ?_⟩
  · unfold Device.upload_events
    rcases hx with h | h | h | h | h <;> subst h <;> split_ifs <;> simp
  · unfold Device.blend_events
    rcases hx with h | h | h | h | h <;> subst h <;> split_ifs <;> simp
  · unfold Device.buffer_events
    rcases hx with h | h | h | h | h <;> subst h <;> split_ifs <;> simp
  · unfold Device.attribute_events
    rcases hx with h | h | h | h | h <;> subst h <;> simp
  · unfold Device.finish_events
    rcases hx with h | h | h | h | h <;> subst h <;> split_ifs <;> simp

/-- The events of a call of `draw_pixels` with both host callbacks supplied. -/
theorem draw_pixels_with_hooks (env : GLEnv) (self : Device) (rgba : device_memory)
    (y w h width height dx dy dw dh : Int) (transparent : Bool)
    (draw_params : DeviceDrawParams) (b u : Nat)
    (hbind : draw_params.bind_display_space_shader_cb = some b)
    (hunbind : draw_params.unbind_display_space_shader_cb = some u)
    (hpix : rgba.type = MemoryType.MEM_PIXELS) :
    Device.draw_pixels env self rgba y w h width height dx dy dw dh transparent
        draw_params =
      some ({ self with
          vertex_buffer :=
            if self.vertex_buffer = 0 then env.glGenBuffers else self.vertex_buffer },
        (Device.upload_events env.glGenTextures rgba y w h ++
          Device.blend_events transparent) ++
        [Event.bind_display_space_shader_cb] ++
        ([Event.gl (.glGetIntegerv GLenum.GL_CURRENT_PROGRAM)] ++
          Device.buffer_events env self
            (if self.vertex_buffer = 0 then env.glGenBuffers else self.vertex_buffer)
            width height dx dy ++
          Device.attribute_events env env.current_program) ++
        [Event.gl (.glDrawArrays GLenum.GL_TRIANGLE_FAN 0 4)] ++
        (if (if self.vertex_buffer = 0 then env.glGenBuffers else self.vertex_buffer) ≠ 0
          then [Event.gl (.glBindBuffer GLenum.GL_ARRAY_BUFFER 0)] else []) ++
        [Event.unbind_display_space_shader_cb] ++
        Device.finish_events env.glGenTextures transparent) := by
  unfold Device.draw_pixels Device.draw_quad
  simp [hbind, hunbind, hpix]

/-- C20: for every call of `draw_pixels` that passes its assertion and whose
`draw_params` supply the host callbacks, neither
`bind_fallback_display_space_shader` nor `bind_fallback_shader` is entered,
`fallback_status`, `fallback_shader_program` and both uniform locations are
left as they are, and the bind callback and the unbind callback are each called
exactly once, the bind callback before the one `glDrawArrays` and the unbind
callback after it. -/
theorem draw_pixels_host_hooks (env : GLEnv) (self : Device) (rgba : device_memory)
    (y w h width height dx dy dw dh : Int) (transparent : Bool)
    (draw_params : DeviceDrawParams) (b u : Nat)
    (hbind : draw_params.bind_display_space_shader_cb = some b)
    (hunbind : draw_params.unbind_display_space_shader_cb = some u)
    (hpix : rgba.type = MemoryType.MEM_PIXELS) :
    ∃ (self' : Device) (events : List Event),
      Device.draw_pixels env self rgba y w h width height dx dy dw dh transparent
        draw_params = some (self', events) ∧
      Event.bind_fallback_display_space_shader ∉ events ∧
      Event.bind_fallback_shader ∉ events ∧
      self'.fallback_status = self.fallback_status ∧
      self'.fallback_shader_program = self.fallback_shader_program ∧
      self'.image_texture_location = self.image_texture_location ∧
      self'.fullscreen_location = self.fullscreen_location ∧
      events.count Event.bind_display_space_shader_cb = 1 ∧
      events.count Event.unbind_display_space_shader_cb = 1 ∧
      events.count (Event.gl (.glDrawArrays GLenum.GL_TRIANGLE_FAN 0 4)) = 1 ∧
      ∃ t₁ t₂ t₃ t₄ : List Event,
        events = t₁ ++ [Event.bind_display_space_shader_cb] ++ t₂ ++
          [Event.gl (.glDrawArrays GLenum.GL_TRIANGLE_FAN 0 4)] ++ t₃ ++
          [Event.unbind_display_space_shader_cb] ++ t₄ := by
  have plain := fun x hx =>
    segments_plain env self rgba env.glGenTextures
      (if self.vertex_buffer = 0 then env.glGenBuffers else self.vertex_buffer)
      env.current_program y w h width height dx dy transparent x hx
  have p1 := plain Event.bind_fallback_display_space_shader (Or.inl rfl)
  have p2 := plain Event.bind_fallback_shader (Or.inr (Or.inl rfl))
  have p3 := plain Event.bind_display_space_shader_cb (Or.inr (Or.inr (Or.inl rfl)))
  have p4 := plain Event.unbind_display_space_shader_cb
    (Or.inr (Or.inr (Or.inr (Or.inl rfl))))
  have p5 := plain (Event.gl (.glDrawArrays GLenum.GL_TRIANGLE_FAN 0 4))
    (Or.inr (Or.inr (Or.inr (Or.inr rfl))))
  refine ⟨_, _, draw_pixels_with_hooks env self rgba y w h width height dx dy dw dh
    transparent draw_params b u hbind hunbind hpix, ?_, ?_, rfl, rfl, rfl, rfl, ?_, ?_, ?_,
    ⟨_, _, _, _, rfl⟩⟩
  · simp only [List.mem_append, List.mem_cons, List.mem_singleton, List.not_mem_nil,
      not_or]
    refine ⟨⟨⟨⟨⟨⟨⟨p1.1, p1.2.1⟩, ?_⟩, ⟨⟨?_, p1.2.2.1⟩, p1.2.2.2.1⟩⟩, ?_⟩, ?_⟩, ?_⟩,
      p1.2.2.2.2⟩
    · simp
    · simp
    · simp
    · split_ifs <;> simp
    · simp
  · simp only [List.mem_append, List.mem_cons, List.mem_singleton, List.not_mem_nil,
      not_or]
    refine ⟨⟨⟨⟨⟨⟨⟨p2.1, p2.2.1⟩, ?_⟩, ⟨⟨?_, p2.2.2.1⟩, p2.2.2.2.1⟩⟩, ?_⟩, ?_⟩, ?_⟩,
      p2.2.2.2.2⟩
    · simp
    · simp
    · simp
    · split_ifs <;> simp
    · simp
  · have c := fun (l : List Event) (hl : Event.bind_display_space_shader_cb ∉ l) =>
      List.count_eq_zero_of_not_mem hl
    simp only [List.count_append, c _ p3.1, c _ p3.2.1, c _ p3.2.2.1, c _ p3.2.2.2.1,
      c _ p3.2.2.2.2]
    split_ifs <;> simp [List.count_cons]
  · have c := fun (l : List Event) (hl : Event.unbind_display_space_shader_cb ∉ l) =>
      List.count_eq_zero_of_not_mem hl
    simp only [List.count_append, c _ p4.1, c _ p4.2.1, c _ p4.2.2.1, c _ p4.2.2.2.1,
      c _ p4.2.2.2.2]
    split_ifs <;> simp [List.count_cons]
  · have c := fun (l : List Event)
        (hl : Event.gl (.glDrawArrays GLenum.GL_TRIANGLE_FAN 0 4) ∉ l) =>
      List.count_eq_zero_of_not_mem hl
    simp only [List.count_append, c _ p5.1, c _ p5.2.1, c _ p5.2.2.1, c _ p5.2.2.2.1,
      c _ p5.2.2.2.2]
    split_ifs <;> simp [List.count_cons]

/-- Witness of C20: a transparent draw of a half-float buffer on a fresh object
with both host callbacks supplied. -/
theorem draw_pixels_host_hooks_witness :
    (host_hooks.bind_display_space_shader_cb = some 1 ∧
      host_hooks.unbind_display_space_shader_cb = some 2 ∧
      half_pixels.type = MemoryType.MEM_PIXELS) ∧
    ∃ (self' : Device) (events : List Event),
      Device.draw_pixels working_gl fresh_device half_pixels 0 4 4 4 4 0 0 8 8 true
        host_hooks = some (self', events) ∧
      Event.bind_fallback_display_space_shader ∉ events ∧
      Event.bind_fallback_shader ∉ events ∧
      self'.fallback_status = fresh_device.fallback_status ∧
      self'.fallback_shader_program = fresh_device.fallback_shader_program ∧
      self'.image_texture_location = fresh_device.image_texture_location ∧
      self'.fullscreen_location = fresh_device.fullscreen_location ∧
      events.count Event.bind_display_space_shader_cb = 1 ∧
      events.count Event.unbind_display_space_shader_cb = 1 ∧
      events.count (Event.gl (.glDrawArrays GLenum.GL_TRIANGLE_FAN 0 4)) = 1 ∧
      ∃ t₁ t₂ t₃ t₄ : List Event,
        events = t₁ ++ [Event.bind_display_space_shader_cb] ++ t₂ ++
          [Event.gl (.glDrawArrays GLenum.GL_TRIANGLE_FAN 0 4)] ++ t₃ ++
          [Event.unbind_display_space_shader_cb] ++ t₄ :=
  ⟨⟨rfl, rfl, rfl⟩,
    draw_pixels_host_hooks working_gl fresh_device half_pixels 0 4 4 4 4 0 0 8 8 true
      host_hooks 1 2 rfl rfl rfl⟩

/-! ## More on the composite descriptor builder -/

/-- An element of kind CPU that is dropped leaves `info` as it is, whatever its
capabilities are. -/
theorem loop_body_dropped (cores : Int) (size : Nat) (threads : Int) (bg : Bool)
    (info d : DeviceInfo) (hs : size > 1) (hd : d.type = DEVICE_CPU)
    (hdrop : bg = false ∨ Device.cpu_threads_of cores size threads = 0) :
    Device.loop_body cores size threads bg info d = info := by
  rcases hdrop with h | h
  · subst h
    simp [Device.loop_body, hd, hs]
  · cases bg <;> simp [Device.loop_body, hd, hs, h]

/-- The composite of a list whose entries are all dropped is the initial
descriptor. -/
theorem foldl_all_dropped (cores : Int) (size : Nat) (threads : Int) (bg : Bool)
    (subs : List DeviceInfo) (info : DeviceInfo) (hs : size > 1)
    (hall : ∀ d ∈ subs, d.type = DEVICE_CPU)
    (hdrop : bg = false ∨ Device.cpu_threads_of cores size threads = 0) :
    subs.foldl (Device.loop_body cores size threads bg) info = info := by
  induction subs generalizing info with
  | nil => rfl
  | cons d ds ih =>
    rw [List.foldl_cons,
      loop_body_dropped cores size threads bg info d hs (hall d (by simp)) hdrop]
    exact ih info (fun e he => hall e (by simp [he]))

theorem filterMap_pushed_kept (cores : Int) (size : Nat) (threads : Int)
    (l : List DeviceInfo) (hs : size > 1)
    (hv : Device.cpu_threads_of cores size threads ≥ 1) :
    l.filterMap (Device.pushed cores size threads true) =
      l.map (fun d =>
        if d.type = DEVICE_CPU then
          { d with cpu_threads := Device.cpu_threads_of cores size threads }
        else d) := by
  induction l with
  | nil => rfl
  | cons d ds ih =>
    by_cases hd : d.type = DEVICE_CPU
    · rw [List.filterMap_cons, Device.pushed_background_cpu cores size threads d hs hd,
        if_pos hv, List.map_cons, ih]
      simp [hd]
    · rw [List.filterMap_cons, Device.pushed_of_not_cpu cores size threads true d hd,
        List.map_cons, ih]
      simp [hd]

theorem filterMap_pushed_dropped (cores : Int) (size : Nat) (threads : Int)
    (l : List DeviceInfo) (hs : size > 1)
    (hv : ¬ Device.cpu_threads_of cores size threads ≥ 1) :
    l.filterMap (Device.pushed cores size threads true) =
      l.filter (fun d => decide (d.type ≠ DEVICE_CPU)) := by
  induction l with
  | nil => rfl
  | cons d ds ih =>
    by_cases hd : d.type = DEVICE_CPU
    · rw [List.filterMap_cons, Device.pushed_background_cpu cores size threads d hs hd,
        if_neg hv, List.filter_cons, ih]
      simp [hd]
    · rw [List.filterMap_cons, Device.pushed_of_not_cpu cores size threads true d hd,
        List.filter_cons, ih]
      simp [hd]

/-- C26: in background mode the reservation counts every entry of the input
list, not only the GPU entries: every CPU entry of a list of `n > 1`
descriptors is judged against one value, the local `cpu_threads` computed from
`n`, so either every CPU entry is dropped, or every CPU entry is kept with
`cpu_threads` set to that value; the other entries are kept as they are. That
value is `max(effective - (n - 1), 0)` whenever `effective - (n - 1)` is in the
range of `int`, as it is for every thread count that is not negative. -/
theorem get_multi_device_cpu_entries :
    (∀ (ALL : Nat) (cores : Int) (subs : List DeviceInfo) (threads : Int),
      subs.length > 1 →
      ∃ info, Device.get_multi_device ALL cores subs threads true = some info ∧
        ((Device.cpu_threads_of cores subs.length threads ≥ 1 ∧
            info.multi_devices = subs.map (fun d =>
              if d.type = DEVICE_CPU then
                { d with cpu_threads := Device.cpu_threads_of cores subs.length threads }
              else d)) ∨
          (Device.cpu_threads_of cores subs.length threads = 0 ∧
            info.multi_devices = subs.filter (fun d => decide (d.type ≠ DEVICE_CPU))))) ∧
    (∀ (cores : Int) (n : Nat) (threads effective : Int),
      effective = (if threads ≠ 0 then threads else cores) →
      -2147483648 ≤ effective - ((n : Int) - 1) →
      effective - ((n : Int) - 1) < 2147483648 →
      Device.cpu_threads_of cores n threads = Max.max (effective - ((n : Int) - 1)) 0) := by
  constructor
  · intro ALL cores subs threads hn
    refine ⟨_, Device.get_multi_device_eq ALL cores subs threads true hn, ?_⟩
    rw [Device.foldl_initial_multi_devices]
    have hnonneg : Device.cpu_threads_of cores subs.length threads ≥ 0 := by
      unfold Device.cpu_threads_of
      simp only [max_eq]
      omega
    by_cases hv : Device.cpu_threads_of cores subs.length threads ≥ 1
    · exact Or.inl ⟨hv, filterMap_pushed_kept cores subs.length threads subs hn hv⟩
    · exact Or.inr ⟨by omega,
        filterMap_pushed_dropped cores subs.length threads subs hn hv⟩
  · intro cores n threads effective heff hlo hhi
    subst heff
    exact Device.cpu_threads_of_eq cores n threads hlo hhi

/-- Witness of C26: two CPUs and a GPU on 8 cores with `threads = 0`: the value
is `max(8 - 2, 0) = 6`, and both CPUs are kept with `cpu_threads = 6`. -/
theorem get_multi_device_cpu_entries_witness :
    ([cpu_info, cpu_info, gpu_a].length > 1 ∧
      ∃ info,
        Device.get_multi_device 4294967295 8 [cpu_info, cpu_info, gpu_a] 0 true =
          some info ∧
        info.multi_devices =
          [{ cpu_info with cpu_threads := 6 }, { cpu_info with cpu_threads := 6 }, gpu_a]) ∧
    ((8 : Int) = (if (0 : Int) ≠ 0 then 0 else 8) ∧
      (-2147483648 : Int) ≤ 8 - (((3 : Nat) : Int) - 1) ∧
      (8 : Int) - (((3 : Nat) : Int) - 1) < 2147483648 ∧
      Device.cpu_threads_of 8 3 0 = Max.max ((8 : Int) - (((3 : Nat) : Int) - 1)) 0) := by
  obtain ⟨info, hinfo, hcase⟩ :=
    get_multi_device_cpu_entries.1 4294967295 8 [cpu_info, cpu_info, gpu_a] 0 (by decide)
  refine ⟨⟨by decide, info, hinfo, ?_⟩, by decide, by decide, by decide,
    get_multi_device_cpu_entries.2 8 3 0 8 (by decide) (by decide) (by decide)⟩
  rcases hcase with ⟨_, h⟩ | ⟨h0, _⟩
  · rw [h]
    rfl
  · exact absurd h0 (by decide)

/-- C28: a CPU descriptor that `get_multi_device` drops (`background = false`,
or `background = true` with the local `cpu_threads` equal to 0) has no
influence on the result: replacing its three capability flags and its
`bvh_layout_mask` by any values gives the same descriptor. So the composite
may report a capability that an input descriptor lacks: the composite of a CPU
without half-float images and a GPU with them has `has_half_images`. -/
theorem get_multi_device_dropped_cpu :
    (∀ (ALL : Nat) (cores : Int) (pre post : List DeviceInfo) (d : DeviceInfo)
        (threads : Int) (bg : Bool) (half volume osl : Bool) (mask : Nat),
      d.type = DEVICE_CPU →
      (bg = false ∨
        Device.cpu_threads_of cores (pre ++ d :: post).length threads = 0) →
      Device.get_multi_device ALL cores
          (pre ++ { d with
            has_half_images := half
            has_volume_decoupled := volume
            bvh_layout_mask := mask
            has_osl := osl } :: post) threads bg =
        Device.get_multi_device ALL cores (pre ++ d :: post) threads bg) ∧
    (DeviceInfo.ctor.type = DEVICE_CPU ∧ DeviceInfo.ctor.has_half_images = false ∧
      ∃ info,
        Device.get_multi_device 4294967295 8 [DeviceInfo.ctor, gpu_a] 0 false = some info ∧
        info.has_half_images = true) := by
  constructor
  · intro ALL cores pre post d threads bg half volume osl mask hd hdrop
    have hlen : (pre ++ { d with
        has_half_images := half
        has_volume_decoupled := volume
        bvh_layout_mask := mask
        has_osl := osl } :: post).length = (pre ++ d :: post).length := by simp
    unfold Device.get_multi_device
    rw [hlen]
    by_cases hs : (pre ++ d :: post).length > 1
    · simp only [hs, if_true, List.foldl_append, List.foldl_cons]
      rw [loop_body_dropped cores _ threads bg _ d hs hd hdrop,
        loop_body_dropped cores _ threads bg _
          { d with
            has_half_images := half
            has_volume_decoupled := volume
            bvh_layout_mask := mask
            has_osl := osl } hs hd hdrop]
    · simp only [hs, if_false]
  · refine ⟨rfl, rfl, ?_⟩
    have h : (Device.get_multi_device 4294967295 8 [DeviceInfo.ctor, gpu_a] 0 false).map
        (fun i => i.has_half_images) = some true := by rfl
    cases hg : Device.get_multi_device 4294967295 8 [DeviceInfo.ctor, gpu_a] 0 false with
    | none => rw [hg] at h; simp at h
    | some info =>
      rw [hg] at h
      simp only [Option.map_some', Option.some.injEq] at h
      exact ⟨info, rfl, h⟩

/-- Witness of C28: the flags of the CPU of an interactive composite are
replaced. -/
theorem get_multi_device_dropped_cpu_witness :
    (cpu_info.type = DEVICE_CPU ∧
      (false = false ∨
        Device.cpu_threads_of 8 ([] ++ cpu_info :: [gpu_a]).length 0 = 0)) ∧
    Device.get_multi_device 4294967295 8
        ([] ++ { cpu_info with
          has_half_images := false
          has_volume_decoupled := false
          bvh_layout_mask := 0
          has_osl := false } :: [gpu_a]) 0 false =
      Device.get_multi_device 4294967295 8 ([] ++ cpu_info :: [gpu_a]) 0 false :=
  ⟨⟨rfl, Or.inl rfl⟩,
    get_multi_device_dropped_cpu.1 4294967295 8 [] [gpu_a] cpu_info 0 false false false
      false 0 rfl (Or.inl rfl)⟩

/-- C29: `get_multi_device` can return a composite with no children. For a list
of more than one descriptor, all of kind CPU, with `background = false`, or
with `background = true` and `effective ≤ n - 1` (the difference being in the
range of `int`), `multi_devices` is empty, the three capability flags are true
and `bvh_layout_mask` is `BVH_LAYOUT_ALL`. Conversely, when the list holds a
descriptor that is not of kind CPU, `multi_devices` is not empty. -/
theorem get_multi_device_no_children :
    (∀ (ALL : Nat) (cores : Int) (subs : List DeviceInfo) (threads : Int) (bg : Bool),
      subs.length > 1 → (∀ d ∈ subs, d.type = DEVICE_CPU) →
      (bg = false ∨
        ((if threads ≠ 0 then threads else cores) ≤ (subs.length : Int) - 1 ∧
          -2147483648 ≤ (if threads ≠ 0 then threads else cores) -
            ((subs.length : Int) - 1))) →
      ∃ info, Device.get_multi_device ALL cores subs threads bg = some info ∧
        info.multi_devices = [] ∧ info.has_half_images = true ∧
        info.has_volume_decoupled = true ∧ info.has_osl = true ∧
        info.bvh_layout_mask = ALL) ∧
    (∀ (ALL : Nat) (cores : Int) (subs : List DeviceInfo) (threads : Int) (bg : Bool),
      subs.length > 1 → (∃ d ∈ subs, d.type ≠ DEVICE_CPU) →
      ∃ info, Device.get_multi_device ALL cores subs threads bg = some info ∧
        info.multi_devices ≠ []) := by
  constructor
  · intro ALL cores subs threads bg hn hall hcase
    have hdrop : bg = false ∨ Device.cpu_threads_of cores subs.length threads = 0 := by
      rcases hcase with h | ⟨hle, hlo⟩
      · exact Or.inl h
      · right
        rw [Device.cpu_threads_of_eq cores subs.length threads hlo (by omega)]
        omega
    refine ⟨_, Device.get_multi_device_eq ALL cores subs threads bg hn, ?_⟩
    rw [foldl_all_dropped cores subs.length threads bg subs _ hn hall hdrop]
    exact ⟨rfl, rfl, rfl, rfl, rfl⟩
  · intro ALL cores subs threads bg hn hex
    obtain ⟨d, hd, hty⟩ := hex
    refine ⟨_, Device.get_multi_device_eq ALL cores subs threads bg hn, ?_⟩
    rw [Device.foldl_initial_multi_devices]
    intro hnil
    have hmem : d ∈ subs.filterMap (Device.pushed cores subs.length threads bg) :=
      List.mem_filterMap.mpr ⟨d, hd, Device.pushed_of_not_cpu _ _ _ _ d hty⟩
    rw [hnil] at hmem
    simp at hmem

/-- Witness of C29: two CPU descriptors with `background = false`, two CPU
descriptors with `background = true` and `threads = 1`, and a CPU with a GPU. -/
theorem get_multi_device_no_children_witness :
    ([cpu_info, cpu_info].length > 1 ∧ (∀ d ∈ [cpu_info, cpu_info], d.type = DEVICE_CPU) ∧
      ∃ info, Device.get_multi_device 4294967295 8 [cpu_info, cpu_info] 0 false = some info ∧
        info.multi_devices = [] ∧ info.has_half_images = true ∧
        info.has_volume_decoupled = true ∧ info.has_osl = true ∧
        info.bvh_layout_mask = 4294967295) ∧
    (((if (1 : Int) ≠ 0 then (1 : Int) else 8) ≤
          (([cpu_info, cpu_info].length : Nat) : Int) - 1 ∧
        -2147483648 ≤ (if (1 : Int) ≠ 0 then (1 : Int) else 8) -
          ((([cpu_info, cpu_info].length : Nat) : Int) - 1)) ∧
      ∃ info, Device.get_multi_device 4294967295 8 [cpu_info, cpu_info] 1 true = some info ∧
        info.multi_devices = [] ∧ info.has_half_images = true ∧
        info.has_volume_decoupled = true ∧ info.has_osl = true ∧
        info.bvh_layout_mask = 4294967295) ∧
    ([cpu_info, gpu_a].length > 1 ∧ (∃ d ∈ [cpu_info, gpu_a], d.type ≠ DEVICE_CPU) ∧
      ∃ info, Device.get_multi_device 4294967295 8 [cpu_info, gpu_a] 0 false = some info ∧
        info.multi_devices ≠ []) :=
  ⟨⟨by decide, by decide,
      get_multi_device_no_children.1 4294967295 8 [cpu_info, cpu_info] 0 false (by decide)
        (by decide) (Or.inl rfl)⟩,
    ⟨⟨by decide, by decide⟩,
      get_multi_device_no_children.1 4294967295 8 [cpu_info, cpu_info] 1 true (by decide)
        (by decide) (Or.inr ⟨by decide, by decide⟩)⟩,
    ⟨by decide, ⟨gpu_a, by simp, by decide⟩,
      get_multi_device_no_children.2 4294967295 8 [cpu_info, gpu_a] 0 false (by decide)
        ⟨gpu_a, by simp, by decide⟩⟩⟩

/-! ## The status of the fallback pipeline as a state machine -/

/-- The status after one call, by the status before it. -/
theorem bind_fallback_status_after (env : GLEnv) (self : Device) (width height : float) :
    ((Device.bind_fallback_display_space_shader env self width height).1 = true ∧
      (Device.bind_fallback_display_space_shader env self width height).2.1.fallback_status
        = FALLBACK_SHADER_STATUS_SUCCESS) ∨
    ((Device.bind_fallback_display_space_shader env self width height).1 = false ∧
      (Device.bind_fallback_display_space_shader env self width height).2.1.fallback_status
        = FALLBACK_SHADER_STATUS_ERROR) := by
  cases hs : self.fallback_status with
  | FALLBACK_SHADER_STATUS_ERROR =>
    rw [Device.bind_fallback_of_error env self width height hs]
    exact Or.inr ⟨rfl, hs⟩
  | FALLBACK_SHADER_STATUS_SUCCESS =>
    rw [Device.bind_fallback_of_success env self width height hs]
    exact Or.inl ⟨rfl, hs⟩
  | FALLBACK_SHADER_STATUS_NONE =>
    obtain ⟨hE, hS, _⟩ := Device.build_fallback_status env self
    rw [Device.bind_fallback_of_none env self width height hs]
    by_cases hb : (Device.build_fallback env self).1 = false
    · rw [if_pos hb]
      exact Or.inr ⟨rfl, hE hb⟩
    · rw [if_neg hb]
      exact Or.inl ⟨rfl, hS (by simpa using hb)⟩

/-- One call enters `bind_fallback_shader` once from the status `NONE` and
not at all from the other two. -/
theorem bind_fallback_entries (env : GLEnv) (self : Device) (width height : float) :
    (Device.bind_fallback_display_space_shader env self width height).2.2.count
        Event.bind_fallback_shader =
      if self.fallback_status = FALLBACK_SHADER_STATUS_NONE then 1 else 0 := by
  cases hs : self.fallback_status with
  | FALLBACK_SHADER_STATUS_ERROR =>
    rw [Device.bind_fallback_of_error env self width height hs]
    simp [List.count_cons]
  | FALLBACK_SHADER_STATUS_SUCCESS =>
    rw [Device.bind_fallback_of_success env self width height hs]
    simp [List.count_cons]
  | FALLBACK_SHADER_STATUS_NONE =>
    obtain ⟨_, _, hc⟩ := Device.build_fallback_status env self
    rw [Device.bind_fallback_of_none env self width height hs, if_pos rfl]
    by_cases hb : (Device.build_fallback env self).1 = false
    · rw [if_pos hb]
      simp [List.count_cons, hc]
    · rw [if_neg hb]
      simp [List.count_append, List.count_cons, hc]

/-- Over a sequence of calls, `bind_fallback_shader` is entered once when the
sequence is not empty and starts in `NONE`, and not at all otherwise. -/
theorem bind_fallback_calls_entries (self : Device)
    (calls : List (GLEnv × float × float)) :
    (Device.bind_fallback_calls self calls).2.2.count Event.bind_fallback_shader =
      if self.fallback_status = FALLBACK_SHADER_STATUS_NONE ∧ 0 < calls.length then 1
      else 0 := by
  induction calls generalizing self with
  | nil => simp [Device.bind_fallback_calls]
  | cons c rest ih =>
    obtain ⟨env, width, height⟩ := c
    unfold Device.bind_fallback_calls
    simp only [List.count_append, bind_fallback_entries, ih]
    have hafter : (Device.bind_fallback_display_space_shader env self width
        height).2.1.fallback_status ≠ FALLBACK_SHADER_STATUS_NONE := by
      rcases bind_fallback_status_after env self width height with ⟨_, h⟩ | ⟨_, h⟩ <;>
        rw [h] <;> decide
    by_cases hs : self.fallback_status = FALLBACK_SHADER_STATUS_NONE <;> simp [hafter, hs]

/-- C30: for calls of `bind_fallback_display_space_shader` on an object: a call
returns `true` if and only if the status after it is `SUCCESS`; the status
after a call is never `NONE`; a call from `SUCCESS` ends in `SUCCESS` and a
call from `ERROR` ends in `ERROR`; and over any sequence of calls
`bind_fallback_shader` is entered at most once. -/
theorem fallback_status_machine :
    (∀ (env : GLEnv) (self : Device) (width height : float),
      ((Device.bind_fallback_display_space_shader env self width height).1 = true ↔
        (Device.bind_fallback_display_space_shader env self width
          height).2.1.fallback_status = FALLBACK_SHADER_STATUS_SUCCESS) ∧
      (Device.bind_fallback_display_space_shader env self width
          height).2.1.fallback_status ≠ FALLBACK_SHADER_STATUS_NONE) ∧
    (∀ (env : GLEnv) (self : Device) (width height : float),
      self.fallback_status = FALLBACK_SHADER_STATUS_SUCCESS →
      (Device.bind_fallback_display_space_shader env self width
          height).2.1.fallback_status = FALLBACK_SHADER_STATUS_SUCCESS) ∧
    (∀ (env : GLEnv) (self : Device) (width height : float),
      self.fallback_status = FALLBACK_SHADER_STATUS_ERROR →
      (Device.bind_fallback_display_space_shader env self width
          height).2.1.fallback_status = FALLBACK_SHADER_STATUS_ERROR) ∧
    (∀ (self : Device) (calls : List (GLEnv × float × float)),
      (Device.bind_fallback_calls self calls).2.2.count Event.bind_fallback_shader ≤ 1) := by
  refine ⟨?_, ?_, ?_, ?_⟩
  · intro env self width height
    rcases bind_fallback_status_after env self width height with ⟨h1, h2⟩ | ⟨h1, h2⟩
    · rw [h1, h2]
      simp
    · rw [h1, h2]
      simp
  · intro env self width height hs
    rw [Device.bind_fallback_of_success env self width height hs]
    exact hs
  · intro env self width height hs
    rw [Device.bind_fallback_of_error env self width height hs]
    exact hs
  · intro self calls
    rw [bind_fallback_calls_entries]
    split_ifs <;> omega

/-- Witness of C30: on a working OpenGL a call from `SUCCESS` and a call from
`ERROR` keep the status. -/
theorem fallback_status_machine_witness :
    (({ fresh_device with fallback_status := FALLBACK_SHADER_STATUS_SUCCESS } :
        Device).fallback_status = FALLBACK_SHADER_STATUS_SUCCESS ∧
      (Device.bind_fallback_display_space_shader working_gl
        { fresh_device with fallback_status := FALLBACK_SHADER_STATUS_SUCCESS }
        (float.ofInt 640) (float.ofInt 480)).2.1.fallback_status =
        FALLBACK_SHADER_STATUS_SUCCESS) ∧
    (({ fresh_device with fallback_status := FALLBACK_SHADER_STATUS_ERROR } :
        Device).fallback_status = FALLBACK_SHADER_STATUS_ERROR ∧
      (Device.bind_fallback_display_space_shader working_gl
        { fresh_device with fallback_status := FALLBACK_SHADER_STATUS_ERROR }
        (float.ofInt 640) (float.ofInt 480)).2.1.fallback_status =
        FALLBACK_SHADER_STATUS_ERROR) :=
  ⟨⟨rfl, fallback_status_machine.2.1 working_gl
      { fresh_device with fallback_status := FALLBACK_SHADER_STATUS_SUCCESS }
      (float.ofInt 640) (float.ofInt 480) rfl⟩,
    ⟨rfl, fallback_status_machine.2.2.1 working_gl
      { fresh_device with fallback_status := FALLBACK_SHADER_STATUS_ERROR }
      (float.ofInt 640) (float.ofInt 480) rfl⟩⟩

/-! ## Printing the requested features -/

/-- Each label that `operator<<` writes ends in a colon and a blank. -/
theorem label_split :
    "Experimental features: " = "Experimental features" ++ ": " ∧
    "Max nodes group: " = "Max nodes group" ++ ": " ∧
    "Nodes features: " = "Nodes features" ++ ": " ∧
    "Use Hair: " = "Use Hair" ++ ": " ∧
    "Use Object Motion: " = "Use Object Motion" ++ ": " ∧
    "Use Camera Motion: " = "Use Camera Motion" ++ ": " ∧
    "Use Baking: " = "Use Baking" ++ ": " ∧
    "Use Subsurface: " = "Use Subsurface" ++ ": " ∧
    "Use Volume: " = "Use Volume" ++ ": " ∧
    "Use Branched Integrator: " = "Use Branched Integrator" ++ ": " ∧
    "Use Patch Evaluation: " = "Use Patch Evaluation" ++ ": " ∧
    "Use Transparent Shadows: " = "Use Transparent Shadows" ++ ": " ∧
    "Use Principled BSDF: " = "Use Principled BSDF" ++ ": " ∧
    "Use Denoising: " = "Use Denoising" ++ ": " := by
  refine ⟨?_, ?_, ?_, ?_, ?_, ?_, ?_, ?_, ?_, ?_, ?_, ?_, ?_, ?_⟩ <;> decide

/-- No label holds a newline. -/
theorem label_newlines :
    ("Experimental features: " : String).data.count '\n' = 0 ∧
    ("Max nodes group: " : String).data.count '\n' = 0 ∧
    ("Nodes features: " : String).data.count '\n' = 0 ∧
    ("Use Hair: " : String).data.count '\n' = 0 ∧
    ("Use Object Motion: " : String).data.count '\n' = 0 ∧
    ("Use Camera Motion: " : String).data.count '\n' = 0 ∧
    ("Use Baking: " : String).data.count '\n' = 0 ∧
    ("Use Subsurface: " : String).data.count '\n' = 0 ∧
    ("Use Volume: " : String).data.count '\n' = 0 ∧
    ("Use Branched Integrator: " : String).data.count '\n' = 0 ∧
    ("Use Patch Evaluation: " : String).data.count '\n' = 0 ∧
    ("Use Transparent Shadows: " : String).data.count '\n' = 0 ∧
    ("Use Principled BSDF: " : String).data.count '\n' = 0 ∧
    ("Use Denoising: " : String).data.count '\n' = 0 ∧
    ("\n" : String).data.count '\n' = 1 := by
  refine ⟨?_, ?_, ?_, ?_, ?_, ?_, ?_, ?_, ?_, ?_, ?_, ?_, ?_, ?_, ?_⟩ <;> decide

/-- C25: the text that `operator<<` writes for a `DeviceRequestedFeatures` is a
function of the value: fourteen lines, each a label, ": ", the printed field
and a newline, with the labels Experimental features, Max nodes group, Nodes
features, Use Hair, Use Object Motion, Use Camera Motion, Use Baking, Use
Subsurface, Use Volume, Use Branched Integrator, Use Patch Evaluation, Use
Transparent Shadows, Use Principled BSDF, Use Denoising in this order, and
"On" or "Off" for `experimental`. When no printed field holds a newline, the
text has exactly fourteen newlines. -/
theorem operator_lshift_text (string_from_bool : Bool → String)
    (int_text : Int → String) (f : DeviceRequestedFeatures) :
    operator_lshift string_from_bool int_text f =
      String.join ((feature_lines string_from_bool int_text f).map
        (fun l => l.1 ++ ": " ++ l.2 ++ "\n")) ∧
    (feature_lines string_from_bool int_text f).map Prod.fst =
      ["Experimental features", "Max nodes group", "Nodes features", "Use Hair",
        "Use Object Motion", "Use Camera Motion", "Use Baking", "Use Subsurface",
        "Use Volume", "Use Branched Integrator", "Use Patch Evaluation",
        "Use Transparent Shadows", "Use Principled BSDF", "Use Denoising"] ∧
    (feature_lines string_from_bool int_text f).head? =
      some ("Experimental features", if f.experimental then "On" else "Off") ∧
    (∀ g : DeviceRequestedFeatures, g = f →
      operator_lshift string_from_bool int_text g =
        operator_lshift string_from_bool int_text f) ∧
    ((∀ l ∈ feature_lines string_from_bool int_text f, '\n' ∉ l.2.data) →
      (operator_lshift string_from_bool int_text f).data.count '\n' = 14) := by
  refine ⟨?_, rfl, rfl, fun g hg => by rw [hg], ?_⟩
  · obtain ⟨h1, h2, h3, h4, h5, h6, h7, h8, h9, h10, h11, h12, h13, h14⟩ := label_split
    unfold operator_lshift feature_lines
    simp only [List.map_cons, List.map_nil, String.join, List.foldl_cons, List.foldl_nil,
      h1, h2, h3, h4, h5, h6, h7, h8, h9, h10, h11, h12, h13, h14,
      String.append_assoc, String.empty_append]
  · intro hfree
    have c : ∀ l ∈ feature_lines string_from_bool int_text f, l.2.data.count '\n' = 0 :=
      fun l hl => List.count_eq_zero_of_not_mem (hfree l hl)
    simp only [feature_lines, List.mem_cons, List.mem_singleton, List.not_mem_nil,
      or_false, forall_eq_or_imp, forall_eq] at c
    obtain ⟨c1, c2, c3, c4, c5, c6, c7, c8, c9, c10, c11, c12, c13, c14⟩ := c
    obtain ⟨l1, l2, l3, l4, l5, l6, l7, l8, l9, l10, l11, l12, l13, l14, ln⟩ :=
      label_newlines
    unfold operator_lshift
    simp only [String.data_append, List.count_append, c1, c2, c3, c4, c5, c6, c7, c8, c9,
      c10, c11, c12, c13, c14, l1, l2, l3, l4, l5, l6, l7, l8, l9, l10, l11, l12, l13, l14,
      ln]

/-- Witness of C25: the example features, with `True` and `False` for a `bool`
and decimal digits for an `int`. -/
theorem operator_lshift_text_witness :
    (example_features = example_features ∧
      operator_lshift example_string_from_bool example_int_text example_features =
        operator_lshift example_string_from_bool example_int_text example_features) ∧
    ((∀ l ∈ feature_lines example_string_from_bool example_int_text example_features,
        '\n' ∉ l.2.data) ∧
      (operator_lshift example_string_from_bool example_int_text
        example_features).data.count '\n' = 14) :=
  ⟨⟨rfl, (operator_lshift_text example_string_from_bool example_int_text
      example_features).2.2.2.1 example_features rfl⟩,
    ⟨by decide, (operator_lshift_text example_string_from_bool example_int_text
      example_features).2.2.2.2 (by decide)⟩⟩

/-! ## The OpenGL state over a call of `draw_pixels` -/

theorem run_nil (env : GLEnv) (s : GLState) : GLState.run env s [] = s := rfl

theorem run_cons (env : GLEnv) (s : GLState) (e : Event) (l : List Event) :
    GLState.run env s (e :: l) = GLState.run env (GLState.step env s e) l := rfl

theorem run_append (env : GLEnv) (s : GLState) (a b : List Event) :
    GLState.run env s (a ++ b) = GLState.run env (GLState.run env s a) b := by
  simp [GLState.run, List.foldl_append]

theorem run_compile_shaders (env : GLEnv) (program : Nat) (l : List (String × GLenum))
    (s : GLState) :
    GLState.run env s (compile_shaders env program l).2 = s := by
  induction l with
  | nil => rfl
  | cons x xs ih =>
    obtain ⟨source, type⟩ := x
    unfold compile_shaders
    by_cases h : env.compile_status type = 0
    · simp [h, run_cons, run_nil, run_append, GLState.step]
    · simp [h, run_cons, run_nil, run_append, GLState.step, ih]

theorem run_bind_fallback_shader (env : GLEnv) (s : GLState) :
    GLState.run env s (bind_fallback_shader env).2 = s := by
  unfold bind_fallback_shader
  simp only []
  split_ifs <;>
    simp [run_append, run_cons, run_nil, run_compile_shaders, GLState.step]

/-- The events of `bind_fallback_display_space_shader` change nothing of the
state but the program in use. -/
theorem run_bind_fallback (env : GLEnv) (self : Device) (width height : float)
    (s : GLState) :
    (GLState.run env s
      (Device.bind_fallback_display_space_shader env self width height).2.2).blend =
      s.blend ∧
    (GLState.run env s
      (Device.bind_fallback_display_space_shader env self width height).2.2).texture_2d =
      s.texture_2d ∧
    (GLState.run env s
      (Device.bind_fallback_display_space_shader env self width height).2.2).textures =
      s.textures ∧
    (GLState.run env s
      (Device.bind_fallback_display_space_shader env self width height).2.2).vertex_arrays =
      s.vertex_arrays := by
  have hb := run_bind_fallback_shader env
  unfold Device.bind_fallback_display_space_shader Device.build_fallback
  simp only []
  split_ifs <;>
    simp [run_append, run_cons, run_nil, hb, GLState.step]

/-- The call that returns early: no host callback, and the fallback program
cannot be bound. -/
theorem draw_pixels_fallback_failed (env : GLEnv) (self : Device) (rgba : device_memory)
    (y w h width height dx dy dw dh : Int) (transparent : Bool)
    (draw_params : DeviceDrawParams)
    (hbind : draw_params.bind_display_space_shader_cb = none)
    (hpix : rgba.type = MemoryType.MEM_PIXELS)
    (hfail : (Device.bind_fallback_display_space_shader env self (float.ofInt dw)
      (float.ofInt dh)).1 = false) :
    Device.draw_pixels env self rgba y w h width height dx dy dw dh transparent
        draw_params =
      some ((Device.bind_fallback_display_space_shader env self (float.ofInt dw)
          (float.ofInt dh)).2.1,
        Device.upload_events env.glGenTextures rgba y w h ++
          Device.blend_events transparent ++
          (Device.bind_fallback_display_space_shader env self (float.ofInt dw)
            (float.ofInt dh)).2.2) := by
  unfold Device.draw_pixels
  simp [hbind, hpix, hfail]

/-- The call that draws with the fallback program. -/
theorem draw_pixels_fallback_ok (env : GLEnv) (self : Device) (rgba : device_memory)
    (y w h width height dx dy dw dh : Int) (transparent : Bool)
    (draw_params : DeviceDrawParams)
    (hbind : draw_params.bind_display_space_shader_cb = none)
    (hpix : rgba.type = MemoryType.MEM_PIXELS)
    (hok : (Device.bind_fallback_display_space_shader env self (float.ofInt dw)
      (float.ofInt dh)).1 = true) :
    ∃ self' : Device,
      Device.draw_pixels env self rgba y w h width height dx dy dw dh transparent
          draw_params =
        some (self',
          (Device.upload_events env.glGenTextures rgba y w h ++
            Device.blend_events transparent ++
            (Device.bind_fallback_display_space_shader env self (float.ofInt dw)
              (float.ofInt dh)).2.2) ++
          Device.buffer_events env
            (Device.bind_fallback_display_space_shader env self (float.ofInt dw)
              (float.ofInt dh)).2.1
            self'.vertex_buffer width height dx dy ++
          Device.attribute_events env
            (Device.bind_fallback_display_space_shader env self (float.ofInt dw)
              (float.ofInt dh)).2.1.fallback_shader_program ++
          [Event.gl (.glDrawArrays GLenum.GL_TRIANGLE_FAN 0 4)] ++
          (if self'.vertex_buffer ≠ 0
            then [Event.gl (.glBindBuffer GLenum.GL_ARRAY_BUFFER 0)] else []) ++
          [Event.gl (.glUseProgram 0)] ++
          Device.finish_events env.glGenTextures transparent) := by
  unfold Device.draw_pixels Device.draw_quad
  simp [hbind, hpix, hok]

theorem run_upload (env : GLEnv) (rgba : device_memory) (y w h : Int) (s : GLState) :
    GLState.run env s (Device.upload_events env.glGenTextures rgba y w h) =
      { s with textures := env.glGenTextures :: s.textures,
               texture_2d := env.glGenTextures } := by
  unfold Device.upload_events
  split_ifs <;> simp [run_cons, run_nil, GLState.step]

theorem run_blend (env : GLEnv) (transparent : Bool) (s : GLState) :
    GLState.run env s (Device.blend_events transparent) =
      { s with blend := transparent || s.blend } := by
  unfold Device.blend_events
  cases transparent <;> simp [run_cons, run_nil, GLState.step]

theorem run_buffer (env : GLEnv) (self : Device) (vertex_buffer : Nat)
    (width height dx dy : Int) (s : GLState) :
    GLState.run env s (Device.buffer_events env self vertex_buffer width height dx dy) =
      s := by
  unfold Device.buffer_events
  split_ifs <;> simp [run_append, run_cons, run_nil, GLState.step]

theorem run_attribute (env : GLEnv) (shader_program : Int) (s : GLState) :
    GLState.run env s (Device.attribute_events env shader_program) =
      { s with vertex_arrays := env.glGenVertexArrays :: s.vertex_arrays } := by
  unfold Device.attribute_events
  simp [run_cons, run_nil, GLState.step]

theorem run_finish (env : GLEnv) (transparent : Bool) (s : GLState) :
    GLState.run env s (Device.finish_events env.glGenTextures transparent) =
      { s with textures := s.textures.filter (fun t => t ≠ env.glGenTextures),
               texture_2d := 0,
               blend := !transparent && s.blend } := by
  unfold Device.finish_events
  cases transparent <;> simp [run_append, run_cons, run_nil, GLState.step]

/-- The textures and vertex array objects after a call that draws: `middle` is
what happens between the blend calls and the vertex buffer calls and `last`
is the call that follows the draw. -/
theorem run_drawing (env : GLEnv) (self : Device) (rgba : device_memory)
    (vertex_buffer : Nat) (shader_program : Int) (y w h width height dx dy : Int)
    (transparent : Bool) (s : GLState) (middle unbind : List Event) (last : Event)
    (hmiddle : ∀ s' : GLState, (GLState.run env s' middle).textures = s'.textures ∧
      (GLState.run env s' middle).vertex_arrays = s'.vertex_arrays)
    (hunbind : ∀ s' : GLState, (GLState.run env s' unbind).textures = s'.textures ∧
      (GLState.run env s' unbind).vertex_arrays = s'.vertex_arrays)
    (hlast : ∀ s' : GLState, (GLState.step env s' last).textures = s'.textures ∧
      (GLState.step env s' last).vertex_arrays = s'.vertex_arrays) :
    (GLState.run env s
      (Device.upload_events env.glGenTextures rgba y w h ++
        Device.blend_events transparent ++ middle ++
        Device.buffer_events env self vertex_buffer width height dx dy ++
        Device.attribute_events env shader_program ++
        [Event.gl (.glDrawArrays GLenum.GL_TRIANGLE_FAN 0 4)] ++ unbind ++ [last] ++
        Device.finish_events env.glGenTextures transparent)).textures =
      s.textures.filter (fun t => t ≠ env.glGenTextures) ∧
    (GLState.run env s
      (Device.upload_events env.glGenTextures rgba y w h ++
        Device.blend_events transparent ++ middle ++
        Device.buffer_events env self vertex_buffer width height dx dy ++
        Device.attribute_events env shader_program ++
        [Event.gl (.glDrawArrays GLenum.GL_TRIANGLE_FAN 0 4)] ++ unbind ++ [last] ++
        Device.finish_events env.glGenTextures transparent)).vertex_arrays =
      env.glGenVertexArrays :: s.vertex_arrays := by
  simp only [run_append, run_cons, run_nil, run_upload, run_blend, run_buffer,
    run_attribute, run_finish]
  constructor
  · rw [(hlast _).1, (hunbind _).1]
    simp only [GLState.step]
    rw [(hmiddle _).1]
    simp
  · rw [(hlast _).2, (hunbind _).2]
    simp only [GLState.step]
    rw [(hmiddle _).2]

/-! ## Drawing: state left behind, vertices and texture -/

/-- C21 fails on the code at a transparent draw with no host callback on an
OpenGL whose fragment shader does not compile: the call returns right after
`bind_fallback_display_space_shader` fails, `glEnable(GL_BLEND)` has been
called and `glDisable(GL_BLEND)` has not, so blending, off before the call, is
on when the call returns. -/
theorem draw_pixels_blend_left_enabled :
    ∃ (self' : Device) (events : List Event),
      Device.draw_pixels broken_gl fresh_device half_pixels 0 4 4 4 4 0 0 8 8 true
        no_hooks = some (self', events) ∧
      Event.gl (.glEnable GLenum.GL_BLEND) ∈ events ∧
      Event.gl (.glDisable GLenum.GL_BLEND) ∉ events ∧
      idle_state.blend = false ∧
      (GLState.run broken_gl idle_state events).blend = true := by
  have h := draw_pixels_fallback_failed broken_gl fresh_device half_pixels 0 4 4 4 4 0 0
    8 8 true no_hooks rfl rfl (by decide)
  exact ⟨_, _, h, by decide, by decide, rfl, by decide⟩

/-- C22 fails on the code at a draw with no host callback on an OpenGL whose
fragment shader does not compile: no draw call is made, but the call returns
with the texture it generated still bound to `GL_TEXTURE_2D` and not deleted,
so the OpenGL state after the call differs from the state before it. -/
theorem draw_pixels_abort_leaves_texture :
    ∃ (self' : Device) (events : List Event),
      Device.draw_pixels broken_gl fresh_device half_pixels 0 4 4 4 4 0 0 8 8 false
        no_hooks = some (self', events) ∧
      Event.gl (.glDrawArrays GLenum.GL_TRIANGLE_FAN 0 4) ∉ events ∧
      Event.gl (.glDeleteTextures 1 7) ∉ events ∧
      GLState.run broken_gl idle_state events =
        { idle_state with texture_2d := 7, textures := [7] } ∧
      GLState.run broken_gl idle_state events ≠ idle_state := by
  have h := draw_pixels_fallback_failed broken_gl fresh_device half_pixels 0 4 4 4 4 0 0
    8 8 false no_hooks rfl rfl (by decide)
  exact ⟨_, _, h, by decide, by decide, by decide, by decide⟩

/-- C23 fails on the code: a draw with the fallback program on a working OpenGL
generates the texture 7 and the vertex array object 6; the call deletes the
texture (line 345) and no texture is left, but the vertex array object is left
behind: no object of that kind exists before the call and object 6 exists
after it. -/
theorem draw_pixels_vertex_array_left :
    ∃ (self' : Device) (events : List Event),
      Device.draw_pixels working_gl fresh_device half_pixels 0 4 4 4 4 0 0 8 8 false
        no_hooks = some (self', events) ∧
      Event.gl (.glGenTextures 1) ∈ events ∧
      Event.gl (.glDeleteTextures 1 7) ∈ events ∧
      (GLState.run working_gl idle_state events).textures = [] ∧
      Event.gl (.glGenVertexArrays 1) ∈ events ∧
      idle_state.vertex_arrays = [] ∧
      (GLState.run working_gl idle_state events).vertex_arrays = [6] := by
  obtain ⟨self', h⟩ := draw_pixels_fallback_ok working_gl fresh_device half_pixels 0 4 4
    4 4 0 0 8 8 false no_hooks rfl rfl (by decide)
  have hd : (Device.draw_pixels working_gl fresh_device half_pixels 0 4 4 4 4 0 0 8 8
      false no_hooks).map (fun r =>
        (decide (Event.gl (.glGenTextures 1) ∈ r.2),
          decide (Event.gl (.glDeleteTextures 1 7) ∈ r.2),
          (GLState.run working_gl idle_state r.2).textures,
          decide (Event.gl (.glGenVertexArrays 1) ∈ r.2),
          (GLState.run working_gl idle_state r.2).vertex_arrays)) =
      some (true, true, [], true, [6]) := by
    decide
  rw [h] at hd
  simp only [Option.map_some', Option.some.injEq, Prod.mk.injEq, decide_eq_true_eq] at hd
  exact ⟨_, _, h, hd.1, hd.2.1, hd.2.2.1, hd.2.2.2.1, rfl, hd.2.2.2.2⟩

/-- The objects after a draw: for every call of `draw_pixels` that passes its
assertion and does not return early (both host callbacks are supplied, or none
is and the fallback program is bound), the texture object generated during the
call is deleted before the call returns, and the vertex array object generated
during the call still exists when the call returns. -/
theorem draw_pixels_drawing_objects (env : GLEnv) (self : Device) (rgba : device_memory)
    (y w h width height dx dy dw dh : Int) (transparent : Bool)
    (draw_params : DeviceDrawParams) (s : GLState)
    (hpix : rgba.type = MemoryType.MEM_PIXELS)
    (hpath :
      (∃ b u, draw_params.bind_display_space_shader_cb = some b ∧
        draw_params.unbind_display_space_shader_cb = some u) ∨
      (draw_params.bind_display_space_shader_cb = none ∧
        (Device.bind_fallback_display_space_shader env self (float.ofInt dw)
          (float.ofInt dh)).1 = true)) :
    ∃ (self' : Device) (events : List Event),
      Device.draw_pixels env self rgba y w h width height dx dy dw dh transparent
        draw_params = some (self', events) ∧
      Event.gl (.glDeleteTextures 1 env.glGenTextures) ∈ events ∧
      env.glGenTextures ∉ (GLState.run env s events).textures ∧
      (GLState.run env s events).textures =
        s.textures.filter (fun t => t ≠ env.glGenTextures) ∧
      (GLState.run env s events).vertex_arrays =
        env.glGenVertexArrays :: s.vertex_arrays := by
  have hmem : ∀ l : List Event, Event.gl (.glDeleteTextures 1 env.glGenTextures) ∈
      l ++ Device.finish_events env.glGenTextures transparent := by
    intro l
    simp [Device.finish_events]
  have hnot : ∀ l : List Nat, env.glGenTextures ∉
      l.filter (fun t => t ≠ env.glGenTextures) := by
    intro l hin
    simpa using (List.mem_filter.mp hin).2
  have hif : ∀ (c : Prop) [Decidable c] (s' : GLState),
      (GLState.run env s'
        (if c then [Event.gl (.glBindBuffer GLenum.GL_ARRAY_BUFFER 0)] else [])).textures =
        s'.textures ∧
      (GLState.run env s'
        (if c then [Event.gl (.glBindBuffer GLenum.GL_ARRAY_BUFFER 0)]
          else [])).vertex_arrays = s'.vertex_arrays := by
    intro c _ s'
    split_ifs <;> simp [run_cons, run_nil, GLState.step]
  rcases hpath with ⟨b, u, hb, hu⟩ | ⟨hb, hok⟩
  · have hdraw := draw_pixels_with_hooks env self rgba y w h width height dx dy dw dh
      transparent draw_params b u hb hu hpix
    have hrun := run_drawing env self rgba
      (if self.vertex_buffer = 0 then env.glGenBuffers else self.vertex_buffer)
      env.current_program y w h width height dx dy transparent s
      [Event.bind_display_space_shader_cb,
        Event.gl (.glGetIntegerv GLenum.GL_CURRENT_PROGRAM)]
      (if (if self.vertex_buffer = 0 then env.glGenBuffers else self.vertex_buffer) ≠ 0
        then [Event.gl (.glBindBuffer GLenum.GL_ARRAY_BUFFER 0)] else [])
      Event.unbind_display_space_shader_cb
      (fun s' => by simp [run_cons, run_nil, GLState.step])
      (fun s' => hif _ s')
      (fun s' => by simp [GLState.step])
    simp only [List.append_assoc, List.cons_append, List.nil_append] at hdraw hrun
    refine ⟨_, _, hdraw, ?_, ?_, hrun.1, hrun.2⟩
    · simp [Device.finish_events]
    · rw [hrun.1]
      exact hnot _
  · obtain ⟨self', hdraw⟩ := draw_pixels_fallback_ok env self rgba y w h width height dx dy
      dw dh transparent draw_params hb hpix hok
    have hrun := run_drawing env
      (Device.bind_fallback_display_space_shader env self (float.ofInt dw)
        (float.ofInt dh)).2.1 rgba self'.vertex_buffer
      (Device.bind_fallback_display_space_shader env self (float.ofInt dw)
        (float.ofInt dh)).2.1.fallback_shader_program
      y w h width height dx dy transparent s
      (Device.bind_fallback_display_space_shader env self (float.ofInt dw)
        (float.ofInt dh)).2.2
      (if self'.vertex_buffer ≠ 0
        then [Event.gl (.glBindBuffer GLenum.GL_ARRAY_BUFFER 0)] else [])
      (Event.gl (.glUseProgram 0))
      (fun s' => ⟨(run_bind_fallback env self _ _ s').2.2.1,
        (run_bind_fallback env self _ _ s').2.2.2⟩)
      (fun s' => hif _ s')
      (fun s' => by simp [GLState.step])
    simp only [List.append_assoc, List.cons_append, List.nil_append] at hdraw hrun
    refine ⟨_, _, hdraw, ?_, ?_, hrun.1, hrun.2⟩
    · simp [Device.finish_events]
    · rw [hrun.1]
      exact hnot _

/-- C24, as stated, fails: in a draw with `width = height = 4`,
`dx = dy = 0` and `dw = dh = 8`, the positions stored are the corners of
`[0, 4] x [0, 4]`, not of `[0, 8] x [0, 8]`. -/
theorem draw_pixels_vertices_counterexample :
    ∃ (self' : Device) (events : List Event),
      Device.draw_pixels working_gl fresh_device half_pixels 0 4 4 4 4 0 0 8 8 false
        no_hooks = some (self', events) ∧
      Event.vpointer_stores (Device.vertex_values 4 4 0 0) ∈ events ∧
      (Device.vertex_values 4 4 0 0).map float.value =
        [0, 0, 0, 0, 1, 0, 4, 0, 1, 1, 4, 4, 0, 1, 0, 4] ∧
      (Device.vertex_values 4 4 0 0).map float.value ≠
        [0, 0, 0, 0, 1, 0, 0 + 8, 0, 1, 1, 0 + 8, 0 + 8, 0, 1, 0, 0 + 8] := by
  obtain ⟨self', hdraw⟩ := draw_pixels_fallback_ok working_gl fresh_device half_pixels 0 4
    4 4 4 0 0 8 8 false no_hooks rfl rfl (by decide)
  have hd : (Device.draw_pixels working_gl fresh_device half_pixels 0 4 4 4 4 0 0 8 8
      false no_hooks).map
        (fun r => decide (Event.vpointer_stores (Device.vertex_values 4 4 0 0) ∈ r.2)) =
      some true := by
    decide
  rw [hdraw] at hd
  simp only [Option.map_some', Option.some.injEq, decide_eq_true_eq] at hd
  exact ⟨_, _, hdraw, hd, by decide, by decide⟩

/-- The corners are stored as `float`s: with `width = 16777217` the corner
`dx + width` is stored as 16777216, so the corners are those of the rectangle
only for values that a `float` holds. -/
theorem vertex_values_rounded :
    (Device.vertex_values 16777217 4 0 0).map float.value =
      [0, 0, 0, 0, 1, 0, 16777216, 0, 1, 1, 16777216, 4, 0, 1, 0, 4] := by
  decide

/-- C24, amended: in every call of `draw_pixels` that passes its assertion, does
not return early and maps the vertex buffer, with `dx`, `dy`, `width`, `height`,
`width + dx` and `height + dy` of magnitude at most `2^24 = 16777216` (so that
the binary32 conversions and sums are exact), the sixteen values stored are
four vertices, each a texture coordinate followed by a position: the texture
coordinates (0,0), (1,0), (1,1), (0,1) with the corners of the rectangle
`[dx, dx + width] x [dy, dy + height]`, and after the stores they are drawn by
one `glDrawArrays(GL_TRIANGLE_FAN, 0, 4)`. -/
theorem draw_pixels_vertices (env : GLEnv) (self : Device) (rgba : device_memory)
    (y w h width height dx dy dw dh : Int) (transparent : Bool)
    (draw_params : DeviceDrawParams)
    (hpix : rgba.type = MemoryType.MEM_PIXELS)
    (hpath :
      (∃ b u, draw_params.bind_display_space_shader_cb = some b ∧
        draw_params.unbind_display_space_shader_cb = some u) ∨
      (draw_params.bind_display_space_shader_cb = none ∧
        (Device.bind_fallback_display_space_shader env self (float.ofInt dw)
          (float.ofInt dh)).1 = true))
    (hmap : env.glMapBuffer = true)
    (hdx : -16777216 ≤ dx ∧ dx ≤ 16777216)
    (hdy : -16777216 ≤ dy ∧ dy ≤ 16777216)
    (hwidth : -16777216 ≤ width ∧ width ≤ 16777216)
    (hheight : -16777216 ≤ height ∧ height ≤ 16777216)
    (hright : -16777216 ≤ width + dx ∧ width + dx ≤ 16777216)
    (htop : -16777216 ≤ height + dy ∧ height + dy ≤ 16777216) :
    (Device.vertex_values width height dx dy).map float.value =
      [0, 0, dx, dy, 1, 0, width + dx, dy, 1, 1, width + dx, height + dy,
        0, 1, dx, height + dy] ∧
    ∃ (self' : Device) (before middle after : List Event),
      Device.draw_pixels env self rgba y w h width height dx dy dw dh transparent
          draw_params =
        some (self',
          before ++ [Event.vpointer_stores (Device.vertex_values width height dx dy)] ++
            middle ++ [Event.gl (.glDrawArrays GLenum.GL_TRIANGLE_FAN 0 4)] ++ after) := by
  have e1 := binary32_round_exact dx hdx.1 hdx.2
  have e2 := binary32_round_exact dy hdy.1 hdy.2
  have e3 := binary32_round_exact width hwidth.1 hwidth.2
  have e4 := binary32_round_exact height hheight.1 hheight.2
  have e5 := binary32_round_exact (width + dx) hright.1 hright.2
  have e6 := binary32_round_exact (height + dy) htop.1 htop.2
  refine ⟨by simp only [Device.vertex_values, List.map, float.value, e1, e2, e3, e4, e5, e6],
    ?_⟩
  rcases hpath with ⟨b, u, hb, hu⟩ | ⟨hb, hok⟩
  · have hdraw := draw_pixels_with_hooks env self rgba y w h width height dx dy dw dh
      transparent draw_params b u hb hu hpix
    rw [hdraw]
    refine ⟨{ self with
        vertex_buffer :=
          if self.vertex_buffer = 0 then env.glGenBuffers else self.vertex_buffer },
      Device.upload_events env.glGenTextures rgba y w h ++
        Device.blend_events transparent ++
        [Event.bind_display_space_shader_cb,
          Event.gl (.glGetIntegerv GLenum.GL_CURRENT_PROGRAM)] ++
        (if self.vertex_buffer = 0 then [Event.gl (.glGenBuffers 1)] else []) ++
        [Event.gl (.glBindBuffer GLenum.GL_ARRAY_BUFFER
            (if self.vertex_buffer = 0 then env.glGenBuffers else self.vertex_buffer)),
          Event.gl (.glBufferData GLenum.GL_ARRAY_BUFFER 64 GLenum.GL_STREAM_DRAW),
          Event.gl (.glMapBuffer GLenum.GL_ARRAY_BUFFER GLenum.GL_WRITE_ONLY)],
      (if (if self.vertex_buffer = 0 then env.glGenBuffers else self.vertex_buffer) ≠ 0
        then [Event.gl (.glUnmapBuffer GLenum.GL_ARRAY_BUFFER)] else []) ++
        Device.attribute_events env env.current_program,
      (if (if self.vertex_buffer = 0 then env.glGenBuffers else self.vertex_buffer) ≠ 0
        then [Event.gl (.glBindBuffer GLenum.GL_ARRAY_BUFFER 0)] else []) ++
        [Event.unbind_display_space_shader_cb] ++
        Device.finish_events env.glGenTextures transparent, ?_⟩
    simp [Device.buffer_events, hmap, List.append_assoc]
  · obtain ⟨self', hdraw⟩ := draw_pixels_fallback_ok env self rgba y w h width height dx dy
      dw dh transparent draw_params hb hpix hok
    rw [hdraw]
    refine ⟨self',
      Device.upload_events env.glGenTextures rgba y w h ++
        Device.blend_events transparent ++
        (Device.bind_fallback_display_space_shader env self (float.ofInt dw)
          (float.ofInt dh)).2.2 ++
        (if (Device.bind_fallback_display_space_shader env self (float.ofInt dw)
          (float.ofInt dh)).2.1.vertex_buffer = 0
          then [Event.gl (.glGenBuffers 1)] else []) ++
        [Event.gl (.glBindBuffer GLenum.GL_ARRAY_BUFFER self'.vertex_buffer),
          Event.gl (.glBufferData GLenum.GL_ARRAY_BUFFER 64 GLenum.GL_STREAM_DRAW),
          Event.gl (.glMapBuffer GLenum.GL_ARRAY_BUFFER GLenum.GL_WRITE_ONLY)],
      (if self'.vertex_buffer ≠ 0
        then [Event.gl (.glUnmapBuffer GLenum.GL_ARRAY_BUFFER)] else []) ++
        Device.attribute_events env
          (Device.bind_fallback_display_space_shader env self (float.ofInt dw)
            (float.ofInt dh)).2.1.fallback_shader_program,
      (if self'.vertex_buffer ≠ 0
        then [Event.gl (.glBindBuffer GLenum.GL_ARRAY_BUFFER 0)] else []) ++
        [Event.gl (.glUseProgram 0)] ++
        Device.finish_events env.glGenTextures transparent, ?_⟩
    simp [Device.buffer_events, hmap, List.append_assoc]

/-- Witness of the amended C24: a draw with the fallback program on a working
OpenGL. -/
theorem draw_pixels_vertices_witness :
    (half_pixels.type = MemoryType.MEM_PIXELS ∧
      ((∃ b u, no_hooks.bind_display_space_shader_cb = some b ∧
          no_hooks.unbind_display_space_shader_cb = some u) ∨
        (no_hooks.bind_display_space_shader_cb = none ∧
          (Device.bind_fallback_display_space_shader working_gl fresh_device
            (float.ofInt 8) (float.ofInt 8)).1 = true)) ∧
      working_gl.glMapBuffer = true ∧
      ((-16777216 : Int) ≤ 0 ∧ (0 : Int) ≤ 16777216) ∧
      ((-16777216 : Int) ≤ 4 ∧ (4 : Int) ≤ 16777216) ∧
      ((-16777216 : Int) ≤ 4 + 0 ∧ (4 : Int) + 0 ≤ 16777216)) ∧
    ((Device.vertex_values 4 4 0 0).map float.value =
      [0, 0, 0, 0, 1, 0, 4 + 0, 0, 1, 1, 4 + 0, 4 + 0, 0, 1, 0, 4 + 0] ∧
    ∃ (self' : Device) (before middle after : List Event),
      Device.draw_pixels working_gl fresh_device half_pixels 0 4 4 4 4 0 0 8 8 false
          no_hooks =
        some (self',
          before ++ [Event.vpointer_stores (Device.vertex_values 4 4 0 0)] ++
            middle ++ [Event.gl (.glDrawArrays GLenum.GL_TRIANGLE_FAN 0 4)] ++ after)) :=
  ⟨⟨rfl, Or.inr ⟨rfl, by decide⟩, rfl, by decide, by decide, by decide⟩,
    draw_pixels_vertices working_gl fresh_device half_pixels 0 4 4 4 4 0 0 8 8 false
      no_hooks rfl (Or.inr ⟨rfl, by decide⟩) rfl (by decide) (by decide) (by decide)
      (by decide) (by decide) (by decide)⟩

/-- C27: every call of `draw_pixels` that returns, with the product `4 * y * w`
in the range of `int` (the offset is computed in `int`), starts with the copy
from the device and the upload of a `w` by `h` texture whose data starts
`4 * y * w` elements into the host buffer, as `GL_RGBA16F_ARB` with `GL_HALF_FLOAT` data
when `rgba.data_type` is `TYPE_HALF` and as `GL_RGBA8` with
`GL_UNSIGNED_BYTE` data for every other type, followed by `GL_NEAREST` for
the minification and for the magnification filter. -/
theorem draw_pixels_upload (env : GLEnv) (self : Device) (rgba : device_memory)
    (y w h width height dx dy dw dh : Int) (transparent : Bool)
    (draw_params : DeviceDrawParams)
    (hpix : rgba.type = MemoryType.MEM_PIXELS)
    (hret : draw_params.bind_display_space_shader_cb = none ∨
      ∃ u, draw_params.unbind_display_space_shader_cb = some u)
    (hoffset : -2147483648 ≤ 4 * y * w ∧ 4 * y * w < 2147483648) :
    ∃ (self' : Device) (rest : List Event),
      Device.draw_pixels env self rgba y w h width height dx dy dw dh transparent
          draw_params =
        some (self',
          [Event.mem_copy_from y w h rgba.memory_elements_size_1,
            Event.gl (.glGenTextures 1),
            Event.gl (.glBindTexture GLenum.GL_TEXTURE_2D env.glGenTextures),
            (if rgba.data_type = DataType.TYPE_HALF then
              Event.gl (.glTexImage2D GLenum.GL_TEXTURE_2D 0 GLenum.GL_RGBA16F_ARB w h 0
                GLenum.GL_RGBA GLenum.GL_HALF_FLOAT (4 * y * w))
            else
              Event.gl (.glTexImage2D GLenum.GL_TEXTURE_2D 0 GLenum.GL_RGBA8 w h 0
                GLenum.GL_RGBA GLenum.GL_UNSIGNED_BYTE (4 * y * w))),
            Event.gl (.glTexParameteri GLenum.GL_TEXTURE_2D GLenum.GL_TEXTURE_MIN_FILTER
              GLenum.GL_NEAREST),
            Event.gl (.glTexParameteri GLenum.GL_TEXTURE_2D GLenum.GL_TEXTURE_MAG_FILTER
              GLenum.GL_NEAREST)] ++ rest) := by
  have hup : Device.upload_events env.glGenTextures rgba y w h =
      [Event.mem_copy_from y w h rgba.memory_elements_size_1,
        Event.gl (.glGenTextures 1),
        Event.gl (.glBindTexture GLenum.GL_TEXTURE_2D env.glGenTextures),
        (if rgba.data_type = DataType.TYPE_HALF then
          Event.gl (.glTexImage2D GLenum.GL_TEXTURE_2D 0 GLenum.GL_RGBA16F_ARB w h 0
            GLenum.GL_RGBA GLenum.GL_HALF_FLOAT (4 * y * w))
        else
          Event.gl (.glTexImage2D GLenum.GL_TEXTURE_2D 0 GLenum.GL_RGBA8 w h 0
            GLenum.GL_RGBA GLenum.GL_UNSIGNED_BYTE (4 * y * w))),
        Event.gl (.glTexParameteri GLenum.GL_TEXTURE_2D GLenum.GL_TEXTURE_MIN_FILTER
          GLenum.GL_NEAREST),
        Event.gl (.glTexParameteri GLenum.GL_TEXTURE_2D GLenum.GL_TEXTURE_MAG_FILTER
          GLenum.GL_NEAREST)] := by
    unfold Device.upload_events
    rw [int_mul_offset y w hoffset.1 hoffset.2]
  rw [← hup]
  cases hb : draw_params.bind_display_space_shader_cb with
  | none =>
    by_cases hok : (Device.bind_fallback_display_space_shader env self (float.ofInt dw)
        (float.ofInt dh)).1 = true
    · obtain ⟨self', hdraw⟩ := draw_pixels_fallback_ok env self rgba y w h width height dx
        dy dw dh transparent draw_params hb hpix hok
      rw [hdraw]
      simp only [List.append_assoc]
      exact ⟨self', _, rfl⟩
    · have hfail : (Device.bind_fallback_display_space_shader env self (float.ofInt dw)
          (float.ofInt dh)).1 = false := by simpa using hok
      rw [draw_pixels_fallback_failed env self rgba y w h width height dx dy dw dh
        transparent draw_params hb hpix hfail]
      simp only [List.append_assoc]
      exact ⟨_, _, rfl⟩
  | some b =>
    rcases hret with hnone | ⟨u, hu⟩
    · rw [hb] at hnone
      exact absurd hnone (by simp)
    · rw [draw_pixels_with_hooks env self rgba y w h width height dx dy dw dh
        transparent draw_params b u hb hu hpix]
      simp only [List.append_assoc]
      exact ⟨_, _, rfl⟩

/-- Witness of C27: a buffer of 8-bit pixels drawn from row 2 with no host
callback. -/
theorem draw_pixels_upload_witness :
    (byte_pixels.type = MemoryType.MEM_PIXELS ∧
      (no_hooks.bind_display_space_shader_cb = none ∨
        ∃ u, no_hooks.unbind_display_space_shader_cb = some u) ∧
      ((-2147483648 : Int) ≤ 4 * 2 * 4 ∧ (4 : Int) * 2 * 4 < 2147483648)) ∧
    ∃ (self' : Device) (rest : List Event),
      Device.draw_pixels working_gl fresh_device byte_pixels 2 4 3 4 3 0 0 8 8 false
          no_hooks =
        some (self',
          [Event.mem_copy_from 2 4 3 4,
            Event.gl (.glGenTextures 1),
            Event.gl (.glBindTexture GLenum.GL_TEXTURE_2D 7),
            Event.gl (.glTexImage2D GLenum.GL_TEXTURE_2D 0 GLenum.GL_RGBA8 4 3 0
              GLenum.GL_RGBA GLenum.GL_UNSIGNED_BYTE 32),
            Event.gl (.glTexParameteri GLenum.GL_TEXTURE_2D GLenum.GL_TEXTURE_MIN_FILTER
              GLenum.GL_NEAREST),
            Event.gl (.glTexParameteri GLenum.GL_TEXTURE_2D GLenum.GL_TEXTURE_MAG_FILTER
              GLenum.GL_NEAREST)] ++ rest) :=
  ⟨⟨rfl, Or.inl rfl, by decide⟩,
    draw_pixels_upload working_gl fresh_device byte_pixels 2 4 3 4 3 0 0 8 8 false
      no_hooks rfl (Or.inl rfl) (by decide)⟩

end ccl
